import Mathlib

/-!
# emircad: point resolution, snapping and construction commands

A shallow embedding of the interactive core of the drafting tool:
`BeamCommand`, `SlabCommand`, `ColumnCommand` (the point-collecting commands),
`CADController` (command dispatch and ray/plane resolution), `WorkPlane`,
`SnapManager::findSnapPoint` (cursor point, world tolerance, classification,
filter and selection), `SnapManager::findSnapPointFromObjects`, and the shape
and snap-point cache of `TBeam`.

Conventions of the embedding.

* C++ `double` values are idealised as exact rationals (`ℚ`).  A comparison
  of a Euclidean distance `sqrt s` against a bound `r` is expressed on the
  squared quantities (`0 < r ∧ s < r ^ 2`); `distanceLt_iff_sqrt` relates that
  to the real square root.  In exact arithmetic no NaN or infinity arises.
* A Qt signal emitted through a direct connection runs its slots before
  `emit` returns.  A member function of a command returns the list of signals
  it emitted, each paired with the sender's collected points at the moment of
  emission, so that a slot can be run against exactly the state it would see.
* The geometry engine (OpenCASCADE) is a parameter: each construction call
  either returns a shape, possibly null, or throws.
* Logging (`qDebug`, the debug log file), message boxes and the viewer's
  redraw requests are not modelled.
-/

namespace EmirCAD

/-! ## Points -/

/-- The point type `gp_Pnt`: three coordinates in millimetres. -/
structure gp_Pnt where
  X : ℚ
  Y : ℚ
  Z : ℚ
deriving DecidableEq

/-- Default constructor `gp_Pnt()`: the origin. -/
def gp_Pnt.origin : gp_Pnt := ⟨0, 0, 0⟩

/-- Square of `gp_Pnt::Distance`. -/
def gp_Pnt.SquareDistance (a b : gp_Pnt) : ℚ :=
  (a.X - b.X) ^ 2 + (a.Y - b.Y) ^ 2 + (a.Z - b.Z) ^ 2

/-- The test `a.Distance(b) < r`, where `Distance` is the square root of
`SquareDistance`, written without the square root. -/
def gp_Pnt.DistanceLt (a b : gp_Pnt) (r : ℚ) : Prop :=
  0 < r ∧ gp_Pnt.SquareDistance a b < r ^ 2

instance (a b : gp_Pnt) (r : ℚ) : Decidable (gp_Pnt.DistanceLt a b r) := by
  unfold gp_Pnt.DistanceLt
  infer_instance

/-! ## Geometry engine and signals -/

/-- A shape handed back by the geometry engine: null or a body. -/
inductive TopoDS_Shape where
  | null
  | body (tag : ℕ)
deriving DecidableEq

/-- The member `TopoDS_Shape::IsNull`. -/
def TopoDS_Shape.IsNull : TopoDS_Shape → Bool
  | .null => true
  | .body _ => false

/-- Outcome of one call into the geometry engine. -/
inductive GeomResult where
  | returned (shape : TopoDS_Shape)
  | thrown
deriving DecidableEq

/-- The texts passed to `statusUpdate`, by the place that emits them. -/
inductive StatusText where
  /-- The text of `getPrompt()`, emitted by `CADCommand::start`. -/
  | prompt
  /-- Text "Command cancelled" -/
  | commandCancelled
  /-- Text "Start point: (x, y, z). Select end point" -/
  | beamStartPoint (p : gp_Pnt)
  /-- Text "Points too close - minimum distance is 1mm" -/
  | pointsTooClose
  /-- Text "Beam created: length ... mm" -/
  | beamCreated
  /-- Text "Failed to create beam - geometry error" -/
  | beamGeometryError
  /-- Text "Error creating beam: ..." and "Unknown error creating beam" -/
  | beamException
  /-- Text "Length: ... mm" -/
  | beamLength
  /-- Text "First corner: (x, y, z). Select opposite corner" -/
  | slabFirstCorner (p : gp_Pnt)
  /-- Text "Slab created: ... x ... mm (Area: ... m²)" -/
  | slabCreated
  /-- Text "Select opposite corner" -/
  | slabSelectOpposite
  /-- Text "Size: ... x ... mm (Area: ... m²) - Click to confirm" -/
  | slabSize
  /-- Text "Column created at (x, y, z)" -/
  | columnCreated (p : gp_Pnt)
  /-- Text "Position: (x, y, z) - Click to place column" -/
  | columnPosition (p : gp_Pnt)
  /-- Text "Ready" -/
  | ready
deriving DecidableEq

/-- The three signals of `CADCommand`. -/
inductive Signal where
  | commandCompleted (shape : TopoDS_Shape)
  | commandCancelled
  | statusUpdate (message : StatusText)
deriving DecidableEq

/-- One emission: the signal and the sender's collected points while the
slots run. -/
structure Emission where
  signal : Signal
  points : List gp_Pnt
deriving DecidableEq

/-- Whether an emission is a `commandCompleted`. -/
def Emission.isCompleted (e : Emission) : Bool :=
  match e.signal with
  | .commandCompleted _ => true
  | _ => false

/-- What a member function of a command leaves behind: the command, the
emissions in order, the shapes passed to `displayShape` in order, and whether
an exception left the function. -/
structure Outcome (α : Type) where
  cmd : α
  emitted : List Emission
  displayed : List TopoDS_Shape
  threw : Bool

/-- Number of `commandCompleted` emissions of an outcome. -/
def Outcome.completions {α : Type} (o : Outcome α) : ℕ :=
  (o.emitted.filter Emission.isCompleted).length

/-! ## CADCommand: state shared by all commands -/

/-- The data members of `CADCommand` that the commands read or write:
`m_active` and whether `m_previewShape` is non-null. -/
structure CADCommand where
  m_active : Bool
  hasPreview : Bool
deriving DecidableEq

/-- Constructor `CADCommand::CADCommand`. -/
def CADCommand.new : CADCommand := ⟨false, false⟩

/-- The member `CADCommand::clearPreview`. -/
def CADCommand.clearPreview (c : CADCommand) : CADCommand :=
  if c.hasPreview then { c with hasPreview := false } else c

/-- The member `CADCommand::showPreview`. -/
def CADCommand.showPreview (c : CADCommand) : CADCommand :=
  { c with hasPreview := true }

/-! ## BeamCommand -/

/-- The enumeration `SteelProfile::ProfileType` as far as the commands use it. -/
inductive ProfileType where
  | IPE
  | HEA
  | HEB
  | other (n : ℕ)
deriving DecidableEq

/-- The class `BeamCommand`. -/
structure BeamCommand where
  base : CADCommand
  m_points : List gp_Pnt
  m_width : ℚ
  m_height : ℚ
  m_useProfile : Bool
  m_profileType : ProfileType
  m_profileSize : String
deriving DecidableEq

/-- Constructor `BeamCommand::BeamCommand`. -/
def BeamCommand.new : BeamCommand :=
  ⟨CADCommand.new, [], 200, 400, false, ProfileType.IPE, "IPE 200"⟩

/-- The member `BeamCommand::isComplete`. -/
def BeamCommand.isComplete (c : BeamCommand) : Bool :=
  decide (c.m_points.length ≥ 2)

/-- The accessor `getLastStartPoint` on a point list. -/
def lastStartPointOf (pts : List gp_Pnt) : gp_Pnt :=
  if pts.length ≥ 2 then pts.getD (pts.length - 2) gp_Pnt.origin else gp_Pnt.origin

/-- The accessor `getLastEndPoint` on a point list. -/
def lastEndPointOf (pts : List gp_Pnt) : gp_Pnt :=
  if pts.length ≥ 1 then pts.getLastD gp_Pnt.origin else gp_Pnt.origin

/-- The member `BeamCommand::getLastStartPoint`. -/
def BeamCommand.getLastStartPoint (c : BeamCommand) : gp_Pnt :=
  lastStartPointOf c.m_points

/-- The member `BeamCommand::getLastEndPoint`. -/
def BeamCommand.getLastEndPoint (c : BeamCommand) : gp_Pnt :=
  lastEndPointOf c.m_points

/-- The member `BeamCommand::execute`.  `createBeam` is the geometry engine
behind the private member of that name. -/
def BeamCommand.execute (createBeam : BeamCommand → gp_Pnt → gp_Pnt → GeomResult)
    (c : BeamCommand) (point : gp_Pnt) : Outcome BeamCommand :=
  let pts := c.m_points ++ [point]
  let c1 : BeamCommand := { c with m_points := pts }
  if pts.length = 1 then
    ⟨c1, [⟨.statusUpdate (.beamStartPoint point), pts⟩], [], false⟩
  else if pts.length = 2 then
    let c2 : BeamCommand := { c1 with base := c1.base.clearPreview }
    let p0 := pts.getD 0 gp_Pnt.origin
    let p1 := pts.getD 1 gp_Pnt.origin
    if gp_Pnt.DistanceLt p0 p1 1 then
      ⟨{ c2 with m_points := [] }, [⟨.statusUpdate .pointsTooClose, pts⟩], [], false⟩
    else
      match createBeam c2 p0 p1 with
      | .returned beam =>
        if !beam.IsNull then
          ⟨{ c2 with m_points := [] },
            [⟨.statusUpdate .beamCreated, pts⟩, ⟨.commandCompleted beam, pts⟩],
            [beam], false⟩
        else
          ⟨{ c2 with m_points := [] }, [⟨.statusUpdate .beamGeometryError, pts⟩], [], false⟩
      | .thrown =>
        ⟨{ c2 with m_points := [] }, [⟨.statusUpdate .beamException, pts⟩], [], false⟩
  else
    ⟨c1, [], [], false⟩

/-- The member `CADCommand::start`, inherited by `BeamCommand`. -/
def BeamCommand.start (c : BeamCommand) : Outcome BeamCommand :=
  ⟨{ c with base := { c.base with m_active := true } },
    [⟨.statusUpdate .prompt, c.m_points⟩], [], false⟩

/-- The member `CADCommand::cancel`, inherited by `BeamCommand` (not
overridden). -/
def BeamCommand.cancel (c : BeamCommand) : Outcome BeamCommand :=
  ⟨{ c with base := { c.base.clearPreview with m_active := false } },
    [⟨.commandCancelled, c.m_points⟩, ⟨.statusUpdate .commandCancelled, c.m_points⟩],
    [], false⟩

/-! ## SlabCommand -/

/-- The class `SlabCommand`. -/
structure SlabCommand where
  base : CADCommand
  m_points : List gp_Pnt
  m_thickness : ℚ
deriving DecidableEq

/-- Constructor `SlabCommand::SlabCommand`. -/
def SlabCommand.new : SlabCommand := ⟨CADCommand.new, [], 200⟩

/-- The member `SlabCommand::isComplete`. -/
def SlabCommand.isComplete (c : SlabCommand) : Bool :=
  decide (c.m_points.length ≥ 2)

/-- The member `SlabCommand::execute`.  `createSlab` is the geometry engine
behind the private member of that name; nothing catches what it throws. -/
def SlabCommand.execute (createSlab : SlabCommand → gp_Pnt → gp_Pnt → GeomResult)
    (c : SlabCommand) (point : gp_Pnt) : Outcome SlabCommand :=
  let pts := c.m_points ++ [point]
  let c1 : SlabCommand := { c with m_points := pts }
  if pts.length = 1 then
    ⟨c1, [⟨.statusUpdate (.slabFirstCorner point), pts⟩], [], false⟩
  else if pts.length = 2 then
    match createSlab c1 (pts.getD 0 gp_Pnt.origin) (pts.getD 1 gp_Pnt.origin) with
    | .returned slab =>
      let c2 : SlabCommand := { c1 with base := c1.base.clearPreview }
      ⟨{ c2 with m_points := [] },
        [⟨.statusUpdate .slabCreated, pts⟩, ⟨.commandCompleted slab, pts⟩],
        [slab], false⟩
    | .thrown => ⟨c1, [], [], true⟩
  else
    ⟨c1, [], [], false⟩

/-- The member `CADCommand::start`, inherited by `SlabCommand`. -/
def SlabCommand.start (c : SlabCommand) : Outcome SlabCommand :=
  ⟨{ c with base := { c.base with m_active := true } },
    [⟨.statusUpdate .prompt, c.m_points⟩], [], false⟩

/-- The member `CADCommand::cancel`, inherited by `SlabCommand` (not
overridden). -/
def SlabCommand.cancel (c : SlabCommand) : Outcome SlabCommand :=
  ⟨{ c with base := { c.base.clearPreview with m_active := false } },
    [⟨.commandCancelled, c.m_points⟩, ⟨.statusUpdate .commandCancelled, c.m_points⟩],
    [], false⟩

/-! ## ColumnCommand -/

/-- The class `ColumnCommand`. -/
structure ColumnCommand where
  base : CADCommand
  m_basePoint : gp_Pnt
  m_pointSet : Bool
  m_width : ℚ
  m_depth : ℚ
  m_height : ℚ
deriving DecidableEq

/-- Constructor `ColumnCommand::ColumnCommand`. -/
def ColumnCommand.new : ColumnCommand :=
  ⟨CADCommand.new, gp_Pnt.origin, false, 300, 300, 3000⟩

/-- The member `ColumnCommand::isComplete`. -/
def ColumnCommand.isComplete (c : ColumnCommand) : Bool := c.m_pointSet

/-- The member `ColumnCommand::execute`.  A column command collects no point
list; its emissions carry the base point as the only point. -/
def ColumnCommand.execute (createColumn : ColumnCommand → gp_Pnt → GeomResult)
    (c : ColumnCommand) (point : gp_Pnt) : Outcome ColumnCommand :=
  let c1 : ColumnCommand := { c with m_basePoint := point, m_pointSet := true }
  match createColumn c1 c1.m_basePoint with
  | .returned column =>
    ⟨{ c1 with m_pointSet := false },
      [⟨.statusUpdate (.columnCreated point), [point]⟩, ⟨.commandCompleted column, [point]⟩],
      [column], false⟩
  | .thrown => ⟨c1, [], [], true⟩

/-- The member `CADCommand::start`, inherited by `ColumnCommand`. -/
def ColumnCommand.start (c : ColumnCommand) : Outcome ColumnCommand :=
  ⟨{ c with base := { c.base with m_active := true } },
    [⟨.statusUpdate .prompt, [c.m_basePoint]⟩], [], false⟩

/-- The member `CADCommand::cancel`, inherited by `ColumnCommand` (not
overridden). -/
def ColumnCommand.cancel (c : ColumnCommand) : Outcome ColumnCommand :=
  ⟨{ c with base := { c.base.clearPreview with m_active := false } },
    [⟨.commandCancelled, [c.m_basePoint]⟩, ⟨.statusUpdate .commandCancelled, [c.m_basePoint]⟩],
    [], false⟩

/-! ## Objects created by the controller -/

/-- The class `TBeam`: identifier and the data members set by its
constructors and section setters. -/
structure TBeam where
  m_id : ℤ
  m_startPoint : gp_Pnt
  m_endPoint : gp_Pnt
  m_sectionWidth : ℚ
  m_sectionHeight : ℚ
  m_useProfile : Bool
  m_profileType : ProfileType
  m_profileSize : String
deriving DecidableEq

/-- Constructor `TBeam::TBeam(startPoint, endPoint)`; `id` is the value of
`s_nextID` taken by the base-class constructor. -/
def TBeam.new (id : ℤ) (startPoint endPoint : gp_Pnt) : TBeam :=
  ⟨id, startPoint, endPoint, 200, 400, false, ProfileType.IPE, "IPE 200"⟩

/-- The member `TBeam::SetRectangularSection`. -/
def TBeam.SetRectangularSection (b : TBeam) (width height : ℚ) : TBeam :=
  { b with m_sectionWidth := width, m_sectionHeight := height, m_useProfile := false }

/-- The member `TBeam::SetProfileSection`. -/
def TBeam.SetProfileSection (b : TBeam) (type : ProfileType) (size : String) : TBeam :=
  { b with m_profileType := type, m_profileSize := size, m_useProfile := true }

/-- The class `TColumn` as left by its default constructor `TColumn()`. -/
structure TColumn where
  m_id : ℤ
  m_basePoint : gp_Pnt
  m_width : ℚ
  m_depth : ℚ
  m_height : ℚ
deriving DecidableEq

/-- Default constructor `TColumn::TColumn()`. -/
def TColumn.new (id : ℤ) : TColumn := ⟨id, ⟨0, 0, 0⟩, 400, 400, 3000⟩

/-- The class `TSlab` as left by its default constructor `TSlab()`. -/
structure TSlab where
  m_id : ℤ
  m_corner1 : gp_Pnt
  m_corner2 : gp_Pnt
  m_thickness : ℚ
deriving DecidableEq

/-- Default constructor `TSlab::TSlab()`. -/
def TSlab.new (id : ℤ) : TSlab := ⟨id, ⟨0, 0, 0⟩, ⟨5000, 5000, 0⟩, 200⟩

/-- A handle to a `TGraphicObject` of one of the three concrete classes. -/
inductive TGraphicObject where
  | beam (b : TBeam)
  | column (c : TColumn)
  | slab (s : TSlab)
deriving DecidableEq

/-- The member `TGraphicObject::GetID`. -/
def TGraphicObject.GetID : TGraphicObject → ℤ
  | .beam b => b.m_id
  | .column c => c.m_id
  | .slab s => s.m_id

/-- The member `TObjectCollection::AddObject` on the bound objects: an object
whose identifier is already bound is not added. -/
def TObjectCollection.AddObject (m_objects : List TGraphicObject) (object : TGraphicObject) :
    List TGraphicObject :=
  if m_objects.any (fun o => o.GetID == object.GetID) then m_objects
  else m_objects ++ [object]

/-! ## CADController: command management -/

/-- The pointer `CADCommand*` to a command of one of the three classes the
controller creates. -/
inductive ActiveCommand where
  | beam (c : BeamCommand)
  | column (c : ColumnCommand)
  | slab (c : SlabCommand)
deriving DecidableEq

/-- The command as a slot sees it while one of its emissions is delivered. -/
def ActiveCommand.seenWith (a : ActiveCommand) (pts : List gp_Pnt) : ActiveCommand :=
  match a with
  | .beam c => .beam { c with m_points := pts }
  | .slab c => .slab { c with m_points := pts }
  | .column c => .column c

/-- The geometry engine behind `createBeam`, `createSlab` and `createColumn`. -/
structure GeometryEngine where
  createBeam : BeamCommand → gp_Pnt → gp_Pnt → GeomResult
  createSlab : SlabCommand → gp_Pnt → gp_Pnt → GeomResult
  createColumn : ColumnCommand → gp_Pnt → GeomResult

/-- Re-tags the command of an outcome. -/
def Outcome.map {α β : Type} (f : α → β) (o : Outcome α) : Outcome β :=
  ⟨f o.cmd, o.emitted, o.displayed, o.threw⟩

/-- The virtual call `command->execute(point)`. -/
def ActiveCommand.execute (eng : GeometryEngine) (a : ActiveCommand) (point : gp_Pnt) :
    Outcome ActiveCommand :=
  match a with
  | .beam c => (c.execute eng.createBeam point).map ActiveCommand.beam
  | .column c => (c.execute eng.createColumn point).map ActiveCommand.column
  | .slab c => (c.execute eng.createSlab point).map ActiveCommand.slab

/-- The virtual call `command->cancel()`. -/
def ActiveCommand.cancel (a : ActiveCommand) : Outcome ActiveCommand :=
  match a with
  | .beam c => c.cancel.map ActiveCommand.beam
  | .column c => c.cancel.map ActiveCommand.column
  | .slab c => c.cancel.map ActiveCommand.slab

/-- The virtual call `command->start()`. -/
def ActiveCommand.start (a : ActiveCommand) : Outcome ActiveCommand :=
  match a with
  | .beam c => c.start.map ActiveCommand.beam
  | .column c => c.start.map ActiveCommand.column
  | .slab c => c.start.map ActiveCommand.slab

/-- The virtual call `command->isComplete()`. -/
def ActiveCommand.isComplete (a : ActiveCommand) : Bool :=
  match a with
  | .beam c => c.isComplete
  | .column c => c.isComplete
  | .slab c => c.isComplete

/-- The collected points of a command (none for a column command). -/
def ActiveCommand.points (a : ActiveCommand) : List gp_Pnt :=
  match a with
  | .beam c => c.m_points
  | .column _ => []
  | .slab c => c.m_points

/-- The member `m_active` of a command. -/
def ActiveCommand.m_active (a : ActiveCommand) : Bool :=
  match a with
  | .beam c => c.base.m_active
  | .column c => c.base.m_active
  | .slab c => c.base.m_active

/-- The signals of `CADController`. -/
inductive ControllerSignal where
  | statusMessage (message : StatusText)
  | commandChanged (commandName : String)
deriving DecidableEq

/-- The class `CADController`: the active command (`none` is `nullptr`), the
object collection (`none` is `nullptr`), the static counter
`TGraphicObject::s_nextID`, the commands handed to `deleteLater`, the shapes
the commands displayed, and the signals emitted so far. -/
structure CADController where
  m_activeCommand : Option ActiveCommand
  m_collection : Option (List TGraphicObject)
  s_nextID : ℤ
  deleteLater : List ActiveCommand
  displayed : List TopoDS_Shape
  emitted : List ControllerSignal
deriving DecidableEq

/-- Constructor `CADController::CADController`. -/
def CADController.new (collection : Option (List TGraphicObject)) (nextID : ℤ) :
    CADController :=
  ⟨none, collection, nextID, [], [], []⟩

/-- The accessor `CADController::getCurrentCommand`. -/
def CADController.getCurrentCommand (ctl : CADController) : Option ActiveCommand :=
  ctl.m_activeCommand

/-- The slot `CADController::onCommandCompleted`. -/
def CADController.onCommandCompleted (ctl : CADController) (_shape : TopoDS_Shape) :
    CADController :=
  let ctl1 : CADController :=
    match ctl.m_activeCommand, ctl.m_collection with
    | some (.beam beamCmd), some coll =>
      let start := beamCmd.getLastStartPoint
      let end_ := beamCmd.getLastEndPoint
      let beam := TBeam.new ctl.s_nextID start end_
      let beam1 :=
        if beamCmd.m_useProfile then
          beam.SetProfileSection beamCmd.m_profileType beamCmd.m_profileSize
        else
          beam.SetRectangularSection beamCmd.m_width beamCmd.m_height
      { ctl with
        m_collection := some (TObjectCollection.AddObject coll (.beam beam1)),
        s_nextID := ctl.s_nextID + 1 }
    | some (.column _), some coll =>
      { ctl with
        m_collection := some (TObjectCollection.AddObject coll (.column (TColumn.new ctl.s_nextID))),
        s_nextID := ctl.s_nextID + 1 }
    | some (.slab _), some coll =>
      { ctl with
        m_collection := some (TObjectCollection.AddObject coll (.slab (TSlab.new ctl.s_nextID))),
        s_nextID := ctl.s_nextID + 1 }
    | _, _ => ctl
  if ctl1.m_activeCommand.isSome then
    { ctl1 with emitted := ctl1.emitted ++ [.statusMessage .prompt] }
  else ctl1

/-- The slot `CADController::onCommandCancelled`. -/
def CADController.onCommandCancelled (ctl : CADController) : CADController :=
  let ctl1 : CADController :=
    match ctl.m_activeCommand with
    | some a => { ctl with deleteLater := ctl.deleteLater ++ [a], m_activeCommand := none }
    | none => ctl
  { ctl1 with emitted := ctl1.emitted ++ [.commandChanged "Ready"] }

/-- The slot `CADController::onStatusUpdate`. -/
def CADController.onStatusUpdate (ctl : CADController) (message : StatusText) : CADController :=
  { ctl with emitted := ctl.emitted ++ [.statusMessage message] }

/-- Delivery of one emission of the active command to the slots connected in
`setActiveCommand`; the slots see the command with the points it holds at
that moment. -/
def CADController.deliver (ctl : CADController) (e : Emission) : CADController :=
  let seen : CADController :=
    { ctl with m_activeCommand := ctl.m_activeCommand.map (fun a => a.seenWith e.points) }
  match e.signal with
  | .commandCompleted shape => seen.onCommandCompleted shape
  | .commandCancelled => seen.onCommandCancelled
  | .statusUpdate message => seen.onStatusUpdate message

/-- Runs a member function of the active command inside the controller: its
emissions are delivered in order, its displayed shapes recorded, and the
command object, if the controller still points to it, ends in the state the
member function left it in. -/
def CADController.absorb (ctl : CADController) (o : Outcome ActiveCommand) : CADController :=
  let ctl1 := o.emitted.foldl CADController.deliver ctl
  { ctl1 with
    m_activeCommand := ctl1.m_activeCommand.map (fun _ => o.cmd),
    displayed := ctl1.displayed ++ o.displayed }

/-- The member `CADController::handleClick`; the flag tells whether an
exception left it. -/
def CADController.handleClick (eng : GeometryEngine) (ctl : CADController) (point : gp_Pnt) :
    CADController × Bool :=
  match ctl.m_activeCommand with
  | some a =>
    let o := a.execute eng point
    (ctl.absorb o, o.threw)
  | none => (ctl, false)

/-- What stops a member function of the controller. -/
inductive Fault where
  /-- A member function was called through a null `m_activeCommand`. -/
  | nullDereference
deriving DecidableEq

/-- The member `CADController::setActiveCommand`. -/
def CADController.setActiveCommand (ctl : CADController) (command : Option ActiveCommand) :
    Except Fault CADController := do
  let ctl1 ←
    match ctl.m_activeCommand with
    | some a =>
      let afterCancel := ctl.absorb a.cancel
      match afterCancel.m_activeCommand with
      | some a1 =>
        pure { afterCancel with deleteLater := afterCancel.deleteLater ++ [a1] }
      | none => throw Fault.nullDereference
    | none => pure ctl
  let ctl2 : CADController := { ctl1 with m_activeCommand := command }
  match ctl2.m_activeCommand with
  | some a => pure (ctl2.absorb a.start)
  | none => pure ctl2

/-- The member `BeamCommand::setDimensions`. -/
def BeamCommand.setDimensions (c : BeamCommand) (width height : ℚ) : BeamCommand :=
  { c with m_width := width, m_height := height, m_useProfile := false }

/-- The member `ColumnCommand::setDimensions`. -/
def ColumnCommand.setDimensions (c : ColumnCommand) (width depth height : ℚ) : ColumnCommand :=
  { c with m_width := width, m_depth := depth, m_height := height }

/-- The member `SlabCommand::setThickness`. -/
def SlabCommand.setThickness (c : SlabCommand) (thickness : ℚ) : SlabCommand :=
  { c with m_thickness := thickness }

/-- The member `CADController::startBeamCommand`. -/
def CADController.startBeamCommand (ctl : CADController) : Except Fault CADController := do
  let cmd := BeamCommand.new.setDimensions 200 400
  let ctl1 ← ctl.setActiveCommand (some (.beam cmd))
  pure { ctl1 with emitted := ctl1.emitted ++ [.commandChanged "Draw Beam"] }

/-- The member `CADController::startColumnCommand`. -/
def CADController.startColumnCommand (ctl : CADController) : Except Fault CADController := do
  let cmd := ColumnCommand.new.setDimensions 300 300 3000
  let ctl1 ← ctl.setActiveCommand (some (.column cmd))
  pure { ctl1 with emitted := ctl1.emitted ++ [.commandChanged "Draw Column"] }

/-- The member `CADController::startSlabCommand`. -/
def CADController.startSlabCommand (ctl : CADController) : Except Fault CADController := do
  let cmd := SlabCommand.new.setThickness 200
  let ctl1 ← ctl.setActiveCommand (some (.slab cmd))
  pure { ctl1 with emitted := ctl1.emitted ++ [.commandChanged "Draw Slab"] }

/-- The member `CADController::cancelCurrentCommand`. -/
def CADController.cancelCurrentCommand (ctl : CADController) : Except Fault CADController :=
  match ctl.m_activeCommand with
  | some a =>
    let afterCancel := ctl.absorb a.cancel
    match afterCancel.m_activeCommand with
    | some a1 =>
      pure { afterCancel with
        deleteLater := afterCancel.deleteLater ++ [a1],
        m_activeCommand := none,
        emitted := afterCancel.emitted ++ [.commandChanged "Ready", .statusMessage .ready] }
    | none => throw Fault.nullDereference
  | none => pure ctl

/-! ## CADController: screen point to world point -/

/-- The unit-vector type `gp_Dir`; OpenCASCADE keeps it normalised, which
`gp_Dir.IsUnit` states. -/
structure gp_Dir where
  X : ℚ
  Y : ℚ
  Z : ℚ
deriving DecidableEq

/-- The invariant of `gp_Dir`: unit length. -/
def gp_Dir.IsUnit (n : gp_Dir) : Prop := n.X * n.X + n.Y * n.Y + n.Z * n.Z = 1

/-- The plane type `gp_Pln` as the controller reads it: `Location()` and
`Axis().Direction()`. -/
structure gp_Pln where
  Location : gp_Pnt
  Direction : gp_Dir
deriving DecidableEq

/-- The enumeration `WorkPlane::PlaneType`. -/
inductive PlaneType where
  | XY
  | XZ
  | YZ
  | Custom
deriving DecidableEq

/-- The class `WorkPlane`. -/
structure WorkPlane where
  m_type : PlaneType
  m_plane : gp_Pln
  m_offset : ℚ
deriving DecidableEq

/-- Constructor `WorkPlane::WorkPlane(PlaneType)` with `initializePlane`. -/
def WorkPlane.ofType (type : PlaneType) : WorkPlane :=
  match type with
  | .XY => ⟨type, ⟨⟨0, 0, 0⟩, ⟨0, 0, 1⟩⟩, 0⟩
  | .XZ => ⟨type, ⟨⟨0, 0, 0⟩, ⟨0, 1, 0⟩⟩, 0⟩
  | .YZ => ⟨type, ⟨⟨0, 0, 0⟩, ⟨1, 0, 0⟩⟩, 0⟩
  | .Custom => ⟨type, ⟨⟨0, 0, 0⟩, ⟨0, 0, 1⟩⟩, 0⟩

/-- Constructor `WorkPlane::WorkPlane(origin, normal)`. -/
def WorkPlane.ofOriginNormal (origin : gp_Pnt) (normal : gp_Dir) : WorkPlane :=
  ⟨.Custom, ⟨origin, normal⟩, 0⟩

/-- The accessor `WorkPlane::getPlane`. -/
def WorkPlane.getPlane (w : WorkPlane) : gp_Pln := w.m_plane

/-- OpenCASCADE constant `Precision::Confusion()`, 1.e-7. -/
def Precision.Confusion : ℚ := 1 / 10000000

/-- What `V3d_View::ConvertWithProj` writes: a point of the viewing ray and
the ray direction. -/
structure ViewRay where
  Xv : ℚ
  Yv : ℚ
  Zv : ℚ
  Vx : ℚ
  Vy : ℚ
  Vz : ℚ
deriving DecidableEq

/-- The member `CADController::convertViewToWorld`.  `ConvertWithProj` is the
view; `none` stands for a call that throws, which the catch-all handler turns
into the origin.  The test `sqrt(Vx*Vx + Vy*Vy + Vz*Vz) < Confusion` is written
on the squares (`magnitude_lt_confusion_iff`).  The NaN/infinity test on the result never fires in exact
arithmetic and has no counterpart here. -/
def CADController.convertViewToWorld (m_workPlane : WorkPlane)
    (ConvertWithProj : ℤ → ℤ → Option ViewRay) (x y : ℤ) : gp_Pnt :=
  match ConvertWithProj x y with
  | none => ⟨0, 0, 0⟩
  | some r =>
    if r.Vx * r.Vx + r.Vy * r.Vy + r.Vz * r.Vz < Precision.Confusion ^ 2 then
      ⟨0, 0, 0⟩
    else
      let workPlane := m_workPlane.getPlane
      let planeNormal := workPlane.Direction
      let planeOrigin := workPlane.Location
      let denominator := r.Vx * planeNormal.X + r.Vy * planeNormal.Y + r.Vz * planeNormal.Z
      if |denominator| > Precision.Confusion then
        let numerator :=
          (planeOrigin.X - r.Xv) * planeNormal.X + (planeOrigin.Y - r.Yv) * planeNormal.Y
            + (planeOrigin.Z - r.Zv) * planeNormal.Z
        let t := numerator / denominator
        ⟨r.Xv + t * r.Vx, r.Yv + t * r.Vy, r.Zv + t * r.Vz⟩
      else
        ⟨r.Xv, r.Yv, r.Zv⟩

/-! ## SnapManager: shape classification and selection in findSnapPoint -/

/-- The enumeration `SnapManager::SnapType`. -/
inductive SnapType where
  | None
  | Endpoint
  | Midpoint
  | Center
  | Vertex
  | Nearest
  | Grid
  | All
deriving DecidableEq

/-- The structure `SnapManager::SnapPoint`. -/
structure SnapPoint where
  point : gp_Pnt
  type : SnapType
  description : String
  distance : ℚ
deriving DecidableEq

/-- Default constructor `SnapPoint()`. -/
def SnapPoint.empty : SnapPoint := ⟨⟨0, 0, 0⟩, SnapType.None, "", 10000000000⟩

/-- The flag `isBeamLike` computed in `findSnapPoint` from the extents of a
bounding box (`std::sort` is an insertion sort here).  The quotient
`dims[1] / dims[0]` is the exact one; it is meaningful for `dims[0] ≠ 0`. -/
def findSnapPoint_isBeamLike (dx dy dz : ℚ) : Bool :=
  let maxDim := max dx (max dy dz)
  let minDim := min dx (min dy dz)
  if maxDim > minDim * 5 then
    let dims := [dx, dy, dz].insertionSort (fun a b => a ≤ b)
    if dims.getD 1 0 / dims.getD 0 0 > 3 then false else true
  else
    false

/-- The three classes of the specification's ShapeClassifier. -/
inductive ShapeClass where
  | Compact
  | Extended
  | Elongated
deriving DecidableEq

/-- The ShapeClassifier in the words of the specification, section 4.2, on
extents already named: `minDim`, `maxDim` the smallest and largest extent and
`d0 ≤ d1` the two smallest of the sorted extents. -/
def ShapeClassifier.classify (minDim maxDim d0 d1 : ℚ) : ShapeClass :=
  if maxDim ≤ 5 * minDim then ShapeClass.Compact
  else if d1 / d0 > 3 then ShapeClass.Extended
  else ShapeClass.Elongated

/-- The first-pass kinds of `findSnapPoint`: Endpoint, Midpoint, Vertex. -/
def SnapType.isHighPriority : SnapType → Bool
  | .Endpoint => true
  | .Midpoint => true
  | .Vertex => true
  | _ => false

/-- The second-pass kinds of `findSnapPoint`: Center, Nearest. -/
def SnapType.isLowPriority : SnapType → Bool
  | .Center => true
  | .Nearest => true
  | _ => false

/-- One iteration of a selection loop of `findSnapPoint` over the kinds `p`. -/
def findSnapPoint_step (p : SnapType → Bool) (bestSnap candidate : SnapPoint) : SnapPoint :=
  if p candidate.type then
    if candidate.distance < bestSnap.distance then candidate else bestSnap
  else bestSnap

/-- The selection at the end of `SnapManager::findSnapPoint` (from
"Find closest in 3D world space with priority" to the end of the second
pass), on the candidate list and world tolerance computed before it. -/
def findSnapPoint_bestSnap (candidates : List SnapPoint) (worldTolerance : ℚ) : SnapPoint :=
  let bestSnap0 : SnapPoint := { SnapPoint.empty with distance := worldTolerance }
  let bestSnap1 := candidates.foldl (findSnapPoint_step SnapType.isHighPriority) bestSnap0
  if bestSnap1.type = SnapType.None then
    candidates.foldl (findSnapPoint_step SnapType.isLowPriority) bestSnap1
  else
    bestSnap1

/-! ## WorkPlane::setOffset -/

/-- The member `WorkPlane::setOffset`.  The new offset is stored first; the
origin is then moved along the normal by `offset - m_offset`, read after that
assignment. -/
def WorkPlane.setOffset (w : WorkPlane) (offset : ℚ) : WorkPlane :=
  let w1 : WorkPlane := { w with m_offset := offset }
  let origin := w1.m_plane.Location
  let normal := w1.m_plane.Direction
  let k := offset - w1.m_offset
  let moved : gp_Pnt := ⟨origin.X + normal.X * k, origin.Y + normal.Y * k, origin.Z + normal.Z * k⟩
  { w1 with m_plane := ⟨moved, normal⟩ }

/-- The accessor `WorkPlane::getOffset`. -/
def WorkPlane.getOffset (w : WorkPlane) : ℚ := w.m_offset

/-- The accessor `WorkPlane::getOrigin`. -/
def WorkPlane.getOrigin (w : WorkPlane) : gp_Pnt := w.m_plane.Location

/-- The accessor `WorkPlane::getNormal`. -/
def WorkPlane.getNormal (w : WorkPlane) : gp_Dir := w.m_plane.Direction

/-- The accessor `WorkPlane::getType`. -/
def WorkPlane.getType (w : WorkPlane) : PlaneType := w.m_type

/-! ## updatePreview of the three commands -/

/-- What the wire builder of a preview does: it yields a non-null wire, is
not done, or throws (which the preview code catches). -/
inductive WireResult where
  | wire
  | notDone
  | thrown
deriving DecidableEq

/-- What `BeamCommand::updatePreview` leaves behind: the outcome for the
command, the static `updateCounter`, and the tracking line handed to the
viewer, if any. -/
structure BeamPreview where
  outcome : Outcome BeamCommand
  updateCounter : ℕ
  trackingLine : Option (gp_Pnt × gp_Pnt)

/-- The member `BeamCommand::updatePreview`.  `hasViewer` tells whether
`m_viewer` is non-null, `updateCounter` is the function's static counter; the
test `distance > Precision::Confusion()` is written on the squares. -/
def BeamCommand.updatePreview (hasViewer : Bool) (updateCounter : ℕ) (c : BeamCommand)
    (point : gp_Pnt) : BeamPreview :=
  if c.m_points.length = 1 then
    let p0 := c.m_points.getD 0 gp_Pnt.origin
    if gp_Pnt.SquareDistance p0 point > Precision.Confusion ^ 2 then
      let line := if hasViewer then some (p0, point) else none
      let counter := updateCounter + 1
      if counter % 5 = 0 then
        ⟨⟨c, [⟨.statusUpdate .beamLength, c.m_points⟩], [], false⟩, counter, line⟩
      else
        ⟨⟨c, [], [], false⟩, counter, line⟩
    else
      ⟨⟨c, [], [], false⟩, updateCounter, none⟩
  else
    ⟨⟨c, [], [], false⟩, updateCounter, none⟩

/-- The member `SlabCommand::updatePreview`.  `makeWire` is the wire builder
on the four corners of the tracking rectangle. -/
def SlabCommand.updatePreview (makeWire : List gp_Pnt → WireResult) (c : SlabCommand)
    (point : gp_Pnt) : Outcome SlabCommand :=
  if c.m_points.length = 1 then
    let p1 := c.m_points.getD 0 gp_Pnt.origin
    let length := |point.X - p1.X|
    let width := |point.Y - p1.Y|
    if length < Precision.Confusion ∨ width < Precision.Confusion then
      ⟨{ c with base := c.base.clearPreview },
        [⟨.statusUpdate .slabSelectOpposite, c.m_points⟩], [], false⟩
    else
      let p2 : gp_Pnt := ⟨point.X, p1.Y, p1.Z⟩
      let p3 : gp_Pnt := ⟨point.X, point.Y, p1.Z⟩
      let p4 : gp_Pnt := ⟨p1.X, point.Y, p1.Z⟩
      match makeWire [p1, p2, p3, p4] with
      | .wire =>
        ⟨{ c with base := c.base.showPreview }, [⟨.statusUpdate .slabSize, c.m_points⟩], [], false⟩
      | .notDone => ⟨c, [⟨.statusUpdate .slabSize, c.m_points⟩], [], false⟩
      | .thrown => ⟨c, [], [], false⟩
  else
    ⟨{ c with base := c.base.clearPreview }, [], [], false⟩

/-- The member `ColumnCommand::updatePreview`.  `makeWire` is the wire builder
on the four footprint corners, the point and the top point. -/
def ColumnCommand.updatePreview (makeWire : List gp_Pnt → WireResult) (c : ColumnCommand)
    (point : gp_Pnt) : Outcome ColumnCommand :=
  if !c.m_pointSet then
    if c.m_width < Precision.Confusion ∨ c.m_depth < Precision.Confusion
        ∨ c.m_height < Precision.Confusion then
      ⟨{ c with base := c.base.clearPreview }, [], [], false⟩
    else
      let corner1 : gp_Pnt := ⟨point.X - c.m_width / 2, point.Y - c.m_depth / 2, point.Z⟩
      let corner2 : gp_Pnt := ⟨point.X + c.m_width / 2, point.Y - c.m_depth / 2, point.Z⟩
      let corner3 : gp_Pnt := ⟨point.X + c.m_width / 2, point.Y + c.m_depth / 2, point.Z⟩
      let corner4 : gp_Pnt := ⟨point.X - c.m_width / 2, point.Y + c.m_depth / 2, point.Z⟩
      let top : gp_Pnt := ⟨point.X, point.Y, point.Z + c.m_height⟩
      match makeWire [corner1, corner2, corner3, corner4, point, top] with
      | .wire =>
        ⟨{ c with base := c.base.showPreview },
          [⟨.statusUpdate (.columnPosition point), [c.m_basePoint]⟩], [], false⟩
      | .notDone => ⟨c, [⟨.statusUpdate (.columnPosition point), [c.m_basePoint]⟩], [], false⟩
      | .thrown => ⟨c, [], [], false⟩
  else
    ⟨c, [], [], false⟩

/-! ## SnapManager: the tolerance filter of findSnapPoint -/

/-- The loop "Filter by world tolerance" of `findSnapPoint`: it removes the
candidates whose distance exceeds the world tolerance. -/
def findSnapPoint_filter (candidates : List SnapPoint) (worldTolerance : ℚ) : List SnapPoint :=
  candidates.filter (fun c => !decide (c.distance > worldTolerance))

/-! ## SnapManager::findSnapPointFromObjects -/

/-- The structure `TGraphicObject::SnapPoint`: a cached feature of an object;
`type` is the flag word (0x01 Endpoint, 0x02 Midpoint, 0x04 Center). -/
structure TGraphicObject.SnapPoint where
  point : gp_Pnt
  type : ℤ
  description : String
deriving DecidableEq

/-- The `SnapManager::SnapPoint` returned by `findSnapPointFromObjects`.  Its
`distance` member is a pixel distance, the square root of an integer; it is
kept here as its square, `distanceSq`. -/
structure ScreenSnapPoint where
  point : gp_Pnt
  type : SnapType
  description : String
  distanceSq : ℚ
deriving DecidableEq

/-- Default constructor `SnapPoint()` in that form: kind None, distance 1e10. -/
def ScreenSnapPoint.empty : ScreenSnapPoint :=
  ⟨⟨0, 0, 0⟩, SnapType.None, "", 100000000000000000000⟩

/-- The mapping of an object's flag word to a `SnapType` in
`findSnapPointFromObjects`. -/
def findSnapPointFromObjects_type (type : ℤ) : SnapType :=
  if type.testBit 0 then SnapType.Endpoint
  else if type.testBit 1 then SnapType.Midpoint
  else if type.testBit 2 then SnapType.Center
  else SnapType.Vertex

/-- The square of `screenDist` in `findSnapPointFromObjects`, for a feature
drawn at pixel (snapScreenX, snapScreenY) and the cursor at pixel
(screenX, screenY). -/
def pixelDistanceSq (snapScreenX snapScreenY screenX screenY : ℤ) : ℚ :=
  (((snapScreenX - screenX) * (snapScreenX - screenX)
    + (snapScreenY - screenY) * (snapScreenY - screenY) : ℤ) : ℚ)

/-- The two variables the loops of `findSnapPointFromObjects` update:
`bestSnap` and `minScreenDist`, the latter as its square. -/
structure ScreenSearch where
  bestSnap : ScreenSnapPoint
  minScreenDistSq : ℚ
deriving DecidableEq

/-- The inner loop of `findSnapPointFromObjects` over the cached features of
one object.  `Convert` is `V3d_View::Convert`; `none` stands for a call that
throws, which ends the loop for this object (the handler continues with the
next object).  The tests `screenDist < m_snapTolerancePixels` and
`screenDist < minScreenDist` are written on the squares. -/
def findSnapPointFromObjects_object (Convert : gp_Pnt → Option (ℤ × ℤ)) (screenX screenY : ℤ)
    (m_snapTolerancePixels : ℚ) : ScreenSearch → List TGraphicObject.SnapPoint → ScreenSearch
  | st, [] => st
  | st, snap :: rest =>
    match Convert snap.point with
    | none => st
    | some (snapScreenX, snapScreenY) =>
      let distSq := pixelDistanceSq snapScreenX snapScreenY screenX screenY
      if (0 < m_snapTolerancePixels ∧ distSq < m_snapTolerancePixels ^ 2)
          ∧ distSq < st.minScreenDistSq then
        findSnapPointFromObjects_object Convert screenX screenY m_snapTolerancePixels
          ⟨⟨snap.point, findSnapPointFromObjects_type snap.type, snap.description, distSq⟩,
            distSq⟩ rest
      else
        findSnapPointFromObjects_object Convert screenX screenY m_snapTolerancePixels st rest

/-- The member `SnapManager::findSnapPointFromObjects`.  `view` is `none` for
a null view; `collection` is `none` for a null pointer and otherwise the
sequence `GetAllObjects()`, each handle given as `none` when null and else as
the object's `GetSnapPoints()`. -/
def SnapManager.findSnapPointFromObjects (m_snapTolerancePixels : ℚ) (screenX screenY : ℤ)
    (collection : Option (List (Option (List TGraphicObject.SnapPoint))))
    (view : Option (gp_Pnt → Option (ℤ × ℤ))) : ScreenSnapPoint :=
  match view, collection with
  | some Convert, some objects =>
    (objects.foldl
      (fun st obj =>
        match obj with
        | none => st
        | some snapPoints =>
          findSnapPointFromObjects_object Convert screenX screenY m_snapTolerancePixels st
            snapPoints)
      (⟨ScreenSnapPoint.empty, 100000000000000000000⟩ : ScreenSearch)).bestSnap
  | _, _ => ScreenSnapPoint.empty

/-- Every cached feature of every object of a collection, in scan order. -/
def cachedFeatures (objects : List (Option (List TGraphicObject.SnapPoint))) :
    List TGraphicObject.SnapPoint :=
  (objects.filterMap id).flatten

/-- The squared pixel distance between a cached feature, drawn where the
projection puts it, and the cursor. -/
def featureDistanceSq (proj : gp_Pnt → ℤ × ℤ) (screenX screenY : ℤ)
    (f : TGraphicObject.SnapPoint) : ℚ :=
  pixelDistanceSq (proj f.point).1 (proj f.point).2 screenX screenY

/-! ## SnapManager::findSnapPoint: cursor point and world tolerance -/

/-- OpenCASCADE constant `gp::Resolution()`, the smallest positive double
(2.2250738585072014e-308); the constructor of `gp_Dir` throws for a vector no
longer than this. -/
def gp.Resolution : ℚ := 22250738585072014 / 10 ^ 324

/-- Conversion of a `double` to an `int` argument: truncation towards zero. -/
def truncToInt (q : ℚ) : ℤ := if 0 ≤ q then ⌊q⌋ else ⌈q⌉

/-- The variable `worldTolerance` of `findSnapPoint`: either the distance
between the cursor point and the offset cursor point, kept as the two points,
or the fallback number `m_snapTolerancePixels * 10.0`. -/
inductive WorldTolerance where
  | distance (cursor3D cursor3D_offset : gp_Pnt)
  | fallback (value : ℚ)
deriving DecidableEq

/-- The first part of `SnapManager::findSnapPoint`, up to the computation of
`worldTolerance`: the result is `cursor3D` and the world tolerance, or `none`
when the function returns the empty snap before that (the view throws, the
constructor of `gp_Dir` throws, or the ray is parallel to the plane).  The
plane is the local `gp_Pln(gp::Origin(), gp::DZ())`.  `rayDir` is the direction
divided by its length; the test `|rayDir·n| < 1e-10` is written on the squares
(`normalized_dot_lt_iff`), and `t * rayDir` is written without the length,
which cancels (`normalized_ray_point`). -/
def findSnapPoint_worldTolerance (ConvertWithProj : ℤ → ℤ → Option ViewRay)
    (screenX screenY : ℤ) (m_snapTolerancePixels : ℚ) : Option (gp_Pnt × WorldTolerance) :=
  let planeNormal : gp_Dir := ⟨0, 0, 1⟩
  let planeOrigin : gp_Pnt := ⟨0, 0, 0⟩
  match ConvertWithProj screenX screenY with
  | none => none
  | some r =>
    let vv := r.Vx * r.Vx + r.Vy * r.Vy + r.Vz * r.Vz
    if vv ≤ gp.Resolution ^ 2 then none
    else
      let vn := r.Vx * planeNormal.X + r.Vy * planeNormal.Y + r.Vz * planeNormal.Z
      if vn ^ 2 < (1 / 10 ^ 10) ^ 2 * vv then none
      else
        let toPlaneN := (planeOrigin.X - r.Xv) * planeNormal.X
          + (planeOrigin.Y - r.Yv) * planeNormal.Y + (planeOrigin.Z - r.Zv) * planeNormal.Z
        let cursor3D : gp_Pnt :=
          ⟨r.Xv + toPlaneN / vn * r.Vx, r.Yv + toPlaneN / vn * r.Vy, r.Zv + toPlaneN / vn * r.Vz⟩
        match ConvertWithProj (truncToInt ((screenX : ℚ) + m_snapTolerancePixels)) screenY with
        | none => none
        | some r2 =>
          let vv2 := r2.Vx * r2.Vx + r2.Vy * r2.Vy + r2.Vz * r2.Vz
          if vv2 ≤ gp.Resolution ^ 2 then none
          else
            let vn2 := r2.Vx * planeNormal.X + r2.Vy * planeNormal.Y + r2.Vz * planeNormal.Z
            if vn2 ^ 2 > (1 / 10 ^ 10) ^ 2 * vv2 then
              let toPlaneN2 := (planeOrigin.X - r2.Xv) * planeNormal.X
                + (planeOrigin.Y - r2.Yv) * planeNormal.Y
                + (planeOrigin.Z - r2.Zv) * planeNormal.Z
              let cursor3D_offset : gp_Pnt :=
                ⟨r2.Xv + toPlaneN2 / vn2 * r2.Vx, r2.Yv + toPlaneN2 / vn2 * r2.Vy,
                  r2.Zv + toPlaneN2 / vn2 * r2.Vz⟩
              some (cursor3D, .distance cursor3D cursor3D_offset)
            else
              some (cursor3D, .fallback (m_snapTolerancePixels * 10))

/-! ## TBeam: shape and cached snap points -/

/-- The vector type `gp_Vec`. -/
structure gp_Vec where
  X : ℚ
  Y : ℚ
  Z : ℚ
deriving DecidableEq

/-- The transformations `gp_Trsf` that `TGraphicObject` builds: a translation,
a rotation about an axis, a scaling about a point, a mirror about a plane. -/
inductive gp_Trsf where
  | translation (vector : gp_Vec)
  | rotation (location : gp_Pnt) (direction : gp_Dir) (angle : ℚ)
  | scale (center : gp_Pnt) (factor : ℚ)
  | mirror (location : gp_Pnt) (direction : gp_Dir)
deriving DecidableEq

/-- The geometry engine behind a `TBeam`: `createProfile` is
`SteelProfile::createProfile`, `makeBeamBox` the rectangular branch of
`BuildShape` from the box to the final translation, `transform` is
`BRepBuilderAPI_Transform`, and `wirePoints` is the list that
`CalculateSnapPoints` reads off a non-null shape (wires, edges, vertices and
edge midpoints by key). -/
structure ShapeEngine where
  createProfile : ProfileType → String → gp_Pnt → gp_Pnt → TopoDS_Shape
  makeBeamBox : gp_Pnt → gp_Pnt → ℚ → ℚ → TopoDS_Shape
  transform : gp_Trsf → TopoDS_Shape → TopoDS_Shape
  wirePoints : TopoDS_Shape → List TGraphicObject.SnapPoint

/-- A `TBeam` with the members of its base class that hold geometry:
`m_shape`, whether `m_aisShape` is non-null, and the cached `m_snapPoints`. -/
structure TBeamObject where
  beam : TBeam
  m_shape : TopoDS_Shape
  hasAisShape : Bool
  m_snapPoints : List TGraphicObject.SnapPoint
deriving DecidableEq

/-- The member `TBeam::CalculateSnapPoints`. -/
def TBeamObject.CalculateSnapPoints (eng : ShapeEngine) (b : TBeamObject) : TBeamObject :=
  if b.m_shape.IsNull then { b with m_snapPoints := [] }
  else { b with m_snapPoints := eng.wirePoints b.m_shape }

/-- The member `TBeam::BuildShape`.  The test `length < 1e-6` is on the
distance between start and end point. -/
def TBeamObject.BuildShape (eng : ShapeEngine) (b : TBeamObject) : TBeamObject :=
  if b.beam.m_useProfile then
    TBeamObject.CalculateSnapPoints eng
      { b with
        m_shape := eng.createProfile b.beam.m_profileType b.beam.m_profileSize
          b.beam.m_startPoint b.beam.m_endPoint,
        hasAisShape := true }
  else if gp_Pnt.DistanceLt b.beam.m_startPoint b.beam.m_endPoint (1 / 1000000) then
    { b with m_shape := TopoDS_Shape.null }
  else
    TBeamObject.CalculateSnapPoints eng
      { b with
        m_shape := eng.makeBeamBox b.beam.m_startPoint b.beam.m_endPoint
          b.beam.m_sectionWidth b.beam.m_sectionHeight,
        hasAisShape := true }

/-- Constructor `TBeam::TBeam(startPoint, endPoint)` with its call of
`BuildShape`. -/
def TBeamObject.new (eng : ShapeEngine) (id : ℤ) (startPoint endPoint : gp_Pnt) : TBeamObject :=
  TBeamObject.BuildShape eng ⟨TBeam.new id startPoint endPoint, TopoDS_Shape.null, false, []⟩

/-- The member `TBeam::SetStartPoint`. -/
def TBeamObject.SetStartPoint (eng : ShapeEngine) (b : TBeamObject) (point : gp_Pnt) :
    TBeamObject :=
  TBeamObject.BuildShape eng { b with beam := { b.beam with m_startPoint := point } }

/-- The member `TBeam::SetEndPoint`. -/
def TBeamObject.SetEndPoint (eng : ShapeEngine) (b : TBeamObject) (point : gp_Pnt) :
    TBeamObject :=
  TBeamObject.BuildShape eng { b with beam := { b.beam with m_endPoint := point } }

/-- The member `TBeam::SetRectangularSection` with its call of `BuildShape`. -/
def TBeamObject.SetRectangularSection (eng : ShapeEngine) (b : TBeamObject) (width height : ℚ) :
    TBeamObject :=
  TBeamObject.BuildShape eng { b with beam := b.beam.SetRectangularSection width height }

/-- The member `TBeam::SetProfileSection` with its call of `BuildShape`. -/
def TBeamObject.SetProfileSection (eng : ShapeEngine) (b : TBeamObject) (type : ProfileType)
    (size : String) : TBeamObject :=
  TBeamObject.BuildShape eng { b with beam := b.beam.SetProfileSection type size }

/-- The common body of `TGraphicObject::Translate`, `Rotate`, `Scale` and
`Mirror`, which `TBeam` inherits: a null shape is left alone, otherwise the
shape is replaced by the transformed one. -/
def TBeamObject.applyTransform (eng : ShapeEngine) (b : TBeamObject) (transform : gp_Trsf) :
    TBeamObject :=
  if b.m_shape.IsNull then b
  else { b with m_shape := eng.transform transform b.m_shape }

/-- The member `TGraphicObject::Translate`. -/
def TBeamObject.Translate (eng : ShapeEngine) (b : TBeamObject) (vector : gp_Vec) : TBeamObject :=
  b.applyTransform eng (.translation vector)

/-- The member `TGraphicObject::Rotate`. -/
def TBeamObject.Rotate (eng : ShapeEngine) (b : TBeamObject) (location : gp_Pnt)
    (direction : gp_Dir) (angle : ℚ) : TBeamObject :=
  b.applyTransform eng (.rotation location direction angle)

/-- The member `TGraphicObject::Scale`. -/
def TBeamObject.Scale (eng : ShapeEngine) (b : TBeamObject) (center : gp_Pnt) (factor : ℚ) :
    TBeamObject :=
  if factor ≤ 0 then b else b.applyTransform eng (.scale center factor)

/-- The member `TGraphicObject::Mirror`. -/
def TBeamObject.Mirror (eng : ShapeEngine) (b : TBeamObject) (location : gp_Pnt)
    (direction : gp_Dir) : TBeamObject :=
  b.applyTransform eng (.mirror location direction)

/-- The member `TBeam::GetStartPoint`. -/
def TBeamObject.GetStartPoint (b : TBeamObject) : gp_Pnt := b.beam.m_startPoint

/-- The cache of a beam is current: its cached snap points are the list
`CalculateSnapPoints` computes from the shape it has now. -/
def TBeamObject.CacheCurrent (eng : ShapeEngine) (b : TBeamObject) : Prop :=
  b.m_snapPoints = (TBeamObject.CalculateSnapPoints eng b).m_snapPoints

/-! ## TGraphicObject::IsValid and TBeam::IsValid -/

/-- The member `TGraphicObject::IsValid` on the shape of an object.  The
member is `const` and writes the mutable member `m_validationError`: the
result is the value returned and the text `m_validationError` holds after the
call, which is what `GetValidationError()` then returns. -/
def TGraphicObject.IsValid (m_shape : TopoDS_Shape) (_m_validationError : String) :
    Bool × String :=
  if m_shape.IsNull then (false, "Shape is null") else (true, "")

/-- The member `TBeam::IsValid`, from the text `m_validationError` holds
before the call: the value returned and the text held after the call.  The
test `length < 1e-6` is on the distance between start and end point. -/
def TBeamObject.IsValid (b : TBeamObject) (m_validationError : String) : Bool × String :=
  let base := TGraphicObject.IsValid b.m_shape m_validationError
  if base.1 = false then (false, base.2)
  else if gp_Pnt.DistanceLt b.beam.m_startPoint b.beam.m_endPoint (1 / 1000000) then
    (false, "Beam length is too small")
  else if b.beam.m_useProfile = false
      ∧ (b.beam.m_sectionWidth ≤ 0 ∨ b.beam.m_sectionHeight ≤ 0) then
    (false, "Invalid section dimensions")
  else (true, base.2)

/-! ## SnapManager: enabled snap types -/

/-- The value of an enumerator of `SnapManager::SnapType`. -/
def SnapType.value : SnapType → ℤ
  | .None => 0x00
  | .Endpoint => 0x01
  | .Midpoint => 0x02
  | .Center => 0x04
  | .Vertex => 0x08
  | .Nearest => 0x10
  | .Grid => 0x20
  | .All => 0xFF

/-- The data members of `SnapManager`. -/
structure SnapManager where
  m_enabledSnaps : ℤ
  m_snapTolerancePixels : ℚ
deriving DecidableEq

/-- Constructor `SnapManager::SnapManager`: Endpoint, Midpoint, Vertex and
Center are enabled and the tolerance is 25 pixels. -/
def SnapManager.new : SnapManager :=
  ⟨Int.lor (Int.lor (Int.lor SnapType.Endpoint.value SnapType.Midpoint.value)
      SnapType.Vertex.value) SnapType.Center.value, 25⟩

/-- The member `SnapManager::setSnapTypes`, which the snap toolbar calls with
the flags of its checked boxes. -/
def SnapManager.setSnapTypes (m : SnapManager) (types : ℤ) : SnapManager :=
  { m with m_enabledSnaps := types }

/-- The member `SnapManager::isSnapEnabled`: `(m_enabledSnaps & type) != 0`. -/
def SnapManager.isSnapEnabled (m : SnapManager) (type : SnapType) : Bool :=
  Int.land m.m_enabledSnaps type.value != 0

/-! ## SnapManager::findSnapPoint: the candidates -/

/-- The bounds that `Bnd_Box::Get` returns for a box that is not void. -/
structure Bnd_Box where
  xmin : ℚ
  ymin : ℚ
  zmin : ℚ
  xmax : ℚ
  ymax : ℚ
  zmax : ℚ
deriving DecidableEq

/-- What one of the explorer loops `findEndpoints`, `findMidpoints`,
`findVertices`, `findNearest` delivers for a shape: the points of the
candidates it appends, in order, and whether it then throws. -/
structure Explored where
  points : List gp_Pnt
  threw : Bool
deriving DecidableEq

/-- What `findSnapPoint` reads off a visible shape (`getVisibleShapes` returns
no null shape): the bounding box, `none` for a void one, and what each
explorer loop delivers; the nearest points depend on the cursor point. -/
structure VisibleShape where
  bbox : Option Bnd_Box
  findEndpoints : Explored
  findMidpoints : Explored
  findVertices : Explored
  findNearest : gp_Pnt → Explored

/-- The member `SnapManager::calculateCenter` on the bounding box of the
shape. -/
def SnapManager.calculateCenter (bbox : Option Bnd_Box) : gp_Pnt :=
  match bbox with
  | some b => ⟨(b.xmin + b.xmax) / 2, (b.ymin + b.ymax) / 2, (b.zmin + b.zmax) / 2⟩
  | none => ⟨0, 0, 0⟩

/-- What the beam-like branch of `findSnapPoint` computes from a bounding box:
the centerline and the candidates it appends, in order. -/
structure BeamSynthesis where
  centerStart : gp_Pnt
  centerEnd : gp_Pnt
  appended : List SnapPoint
deriving DecidableEq

/-- The beam-like branch of `findSnapPoint` ("If beam/column, use centerline
and flange endpoints") for a bounding box.  `Distance` is `gp_Pnt::Distance`,
a parameter because the root of a rational square distance need not be
rational. -/
def findSnapPoint_beamLike (Distance : gp_Pnt → gp_Pnt → ℚ) (m : SnapManager)
    (cursor3D : gp_Pnt) (b : Bnd_Box) : BeamSynthesis :=
  let dx := b.xmax - b.xmin
  let dy := b.ymax - b.ymin
  let dz := b.zmax - b.zmin
  let maxDim := max dx (max dy dz)
  let snap : gp_Pnt → SnapType → String → SnapPoint :=
    fun p t desc => ⟨p, t, desc, Distance cursor3D p⟩
  let ends : gp_Pnt × gp_Pnt × List SnapPoint :=
    if dx = maxDim then
      let centerStart : gp_Pnt := ⟨b.xmin, (b.ymin + b.ymax) / 2, (b.zmin + b.zmax) / 2⟩
      let centerEnd : gp_Pnt := ⟨b.xmax, (b.ymin + b.ymax) / 2, (b.zmin + b.zmax) / 2⟩
      let topStart : gp_Pnt := ⟨b.xmin, (b.ymin + b.ymax) / 2, b.zmax⟩
      let topEnd : gp_Pnt := ⟨b.xmax, (b.ymin + b.ymax) / 2, b.zmax⟩
      let bottomStart : gp_Pnt := ⟨b.xmin, (b.ymin + b.ymax) / 2, b.zmin⟩
      let bottomEnd : gp_Pnt := ⟨b.xmax, (b.ymin + b.ymax) / 2, b.zmin⟩
      (centerStart, centerEnd,
        [snap centerStart .Endpoint "Beam Center Start",
         snap centerEnd .Endpoint "Beam Center End",
         snap topStart .Endpoint "Beam Top Start",
         snap topEnd .Endpoint "Beam Top End",
         snap bottomStart .Endpoint "Beam Bottom Start",
         snap bottomEnd .Endpoint "Beam Bottom End"])
    else if dy = maxDim then
      let centerStart : gp_Pnt := ⟨(b.xmin + b.xmax) / 2, b.ymin, (b.zmin + b.zmax) / 2⟩
      let centerEnd : gp_Pnt := ⟨(b.xmin + b.xmax) / 2, b.ymax, (b.zmin + b.zmax) / 2⟩
      let topStart : gp_Pnt := ⟨(b.xmin + b.xmax) / 2, b.ymin, b.zmax⟩
      let topEnd : gp_Pnt := ⟨(b.xmin + b.xmax) / 2, b.ymax, b.zmax⟩
      let bottomStart : gp_Pnt := ⟨(b.xmin + b.xmax) / 2, b.ymin, b.zmin⟩
      let bottomEnd : gp_Pnt := ⟨(b.xmin + b.xmax) / 2, b.ymax, b.zmin⟩
      (centerStart, centerEnd,
        [snap centerStart .Endpoint "Beam Center Start",
         snap centerEnd .Endpoint "Beam Center End",
         snap topStart .Endpoint "Beam Top Start",
         snap topEnd .Endpoint "Beam Top End",
         snap bottomStart .Endpoint "Beam Bottom Start",
         snap bottomEnd .Endpoint "Beam Bottom End"])
    else
      let centerStart : gp_Pnt := ⟨(b.xmin + b.xmax) / 2, (b.ymin + b.ymax) / 2, b.zmin⟩
      let centerEnd : gp_Pnt := ⟨(b.xmin + b.xmax) / 2, (b.ymin + b.ymax) / 2, b.zmax⟩
      (centerStart, centerEnd,
        [snap centerStart .Endpoint "Column Bottom", snap centerEnd .Endpoint "Column Top"])
  let centerStart := ends.1
  let centerEnd := ends.2.1
  let mid : gp_Pnt :=
    ⟨(centerStart.X + centerEnd.X) / 2, (centerStart.Y + centerEnd.Y) / 2,
      (centerStart.Z + centerEnd.Z) / 2⟩
  ⟨centerStart, centerEnd,
    ends.2.2 ++ (if m.isSnapEnabled .Midpoint then [snap mid .Midpoint "Beam Midpoint"] else [])⟩

/-- One of the guarded calls `if (isSnapEnabled(T)) findT(shape, cursor3D,
candidates)` inside the `try` block of `findSnapPoint`: the state is the
candidate list and whether an earlier call has thrown, which leaves the
block. -/
def findSnapPoint_find (Distance : gp_Pnt → gp_Pnt → ℚ) (cursor3D : gp_Pnt) (enabled : Bool)
    (type : SnapType) (description : String) (found : Explored)
    (state : List SnapPoint × Bool) : List SnapPoint × Bool :=
  if state.2 then state
  else if enabled then
    (state.1 ++ found.points.map (fun p => ⟨p, type, description, Distance cursor3D p⟩),
      found.threw)
  else state

/-- The part of the `try` block of `findSnapPoint` after the beam-like branch
("For non-beam shapes, find all snap points" and "Filter by world tolerance"):
the candidate list after this shape.  When a call throws, the handler
continues with the next shape and the filter does not run. -/
def findSnapPoint_general (Distance : gp_Pnt → gp_Pnt → ℚ) (m : SnapManager)
    (cursor3D : gp_Pnt) (worldTolerance : ℚ) (shape : VisibleShape)
    (candidates : List SnapPoint) : List SnapPoint :=
  let s0 : List SnapPoint × Bool := (candidates, false)
  let s1 := findSnapPoint_find Distance cursor3D (m.isSnapEnabled .Endpoint) .Endpoint
    "Endpoint" shape.findEndpoints s0
  let s2 := findSnapPoint_find Distance cursor3D (m.isSnapEnabled .Midpoint) .Midpoint
    "Midpoint" shape.findMidpoints s1
  let s3 := findSnapPoint_find Distance cursor3D (m.isSnapEnabled .Vertex) .Vertex
    "Vertex" shape.findVertices s2
  let s4 := findSnapPoint_find Distance cursor3D (m.isSnapEnabled .Center) .Center
    "Center" ⟨[SnapManager.calculateCenter shape.bbox], false⟩ s3
  let s5 := findSnapPoint_find Distance cursor3D (m.isSnapEnabled .Nearest) .Nearest
    "Nearest" (shape.findNearest cursor3D) s4
  if s5.2 then s5.1 else findSnapPoint_filter s5.1 worldTolerance

/-- The body of the loop over the visible shapes in `findSnapPoint`: the
candidate list after one shape.  A beam-like shape appends its synthesized
candidates and continues with the next shape, past the filter. -/
def findSnapPoint_shape (Distance : gp_Pnt → gp_Pnt → ℚ) (m : SnapManager)
    (cursor3D : gp_Pnt) (worldTolerance : ℚ) (candidates : List SnapPoint)
    (shape : VisibleShape) : List SnapPoint :=
  match shape.bbox with
  | some b =>
    if findSnapPoint_isBeamLike (b.xmax - b.xmin) (b.ymax - b.ymin) (b.zmax - b.zmin) then
      candidates ++ (findSnapPoint_beamLike Distance m cursor3D b).appended
    else
      findSnapPoint_general Distance m cursor3D worldTolerance shape candidates
  | none => findSnapPoint_general Distance m cursor3D worldTolerance shape candidates

/-- The candidate list of `findSnapPoint` after the loop over the visible
shapes. -/
def findSnapPoint_candidates (Distance : gp_Pnt → gp_Pnt → ℚ) (m : SnapManager)
    (cursor3D : gp_Pnt) (worldTolerance : ℚ) (shapes : List VisibleShape) : List SnapPoint :=
  shapes.foldl (findSnapPoint_shape Distance m cursor3D worldTolerance) []

/-- The part of `findSnapPoint` from the loop over the visible shapes to the
end of the second selection pass.  The text added to the description of a
snap that is not None is left out. -/
def findSnapPoint_snap (Distance : gp_Pnt → gp_Pnt → ℚ) (m : SnapManager)
    (cursor3D : gp_Pnt) (worldTolerance : ℚ) (shapes : List VisibleShape) : SnapPoint :=
  findSnapPoint_bestSnap (findSnapPoint_candidates Distance m cursor3D worldTolerance shapes)
    worldTolerance

/-- The divisor `dims[0]` of the quotient `dims[1] / dims[0]` in
`findSnapPoint`, when the branch `maxDim > minDim * 5.0` is taken and the
quotient is evaluated; `none` when the branch is not taken. -/
def findSnapPoint_divisor (dx dy dz : ℚ) : Option ℚ :=
  let maxDim := max dx (max dy dz)
  let minDim := min dx (min dy dz)
  if maxDim > minDim * 5 then
    let dims := [dx, dy, dz].insertionSort (fun a b => a ≤ b)
    some (dims.getD 0 0)
  else
    none


/-! ## TObjectCollection: stored objects and selection -/

/-- The data members of `TObjectCollection` that hold objects: the map
`m_objects`, kept as the list of its bound objects, each under the key
`GetID()` it was bound with, and the sequence `m_selectedObjects`. -/
structure TObjectCollection where
  m_objects : List TGraphicObject
  m_selectedObjects : List ℤ
deriving DecidableEq

/-- Constructor `TObjectCollection::TObjectCollection`: nothing stored, nothing
selected. -/
def TObjectCollection.new : TObjectCollection := ⟨[], []⟩

/-- The test `m_objects.IsBound(objectID)`. -/
def TObjectCollection.IsBound (c : TObjectCollection) (objectID : ℤ) : Bool :=
  c.m_objects.any (fun o => o.GetID == objectID)

/-- The member `TObjectCollection::AddObject` on a handle, `none` for a null
one, with the value it returns. -/
def TObjectCollection.AddObject_handle (c : TObjectCollection) (object : Option TGraphicObject) :
    TObjectCollection × Bool :=
  match object with
  | none => (c, false)
  | some o =>
    if c.IsBound o.GetID then (c, false)
    else ({ c with m_objects := TObjectCollection.AddObject c.m_objects o }, true)

/-- The member `TObjectCollection::RemoveObject(int)`, with the value it
returns: the object is unbound and the first entry of the selection that
equals the identifier is removed. -/
def TObjectCollection.RemoveObject (c : TObjectCollection) (objectID : ℤ) :
    TObjectCollection × Bool :=
  if c.IsBound objectID then
    (⟨c.m_objects.filter (fun o => o.GetID != objectID), c.m_selectedObjects.erase objectID⟩,
      true)
  else (c, false)

/-- The member `TObjectCollection::RemoveObject(const Handle(TGraphicObject)&)`. -/
def TObjectCollection.RemoveObject_handle (c : TObjectCollection)
    (object : Option TGraphicObject) : TObjectCollection × Bool :=
  match object with
  | none => (c, false)
  | some o => c.RemoveObject o.GetID

/-- The member `TObjectCollection::Clear`. -/
def TObjectCollection.Clear (_c : TObjectCollection) : TObjectCollection := ⟨[], []⟩

/-- The member `TObjectCollection::SelectObject`. -/
def TObjectCollection.SelectObject (c : TObjectCollection) (objectID : ℤ) : TObjectCollection :=
  if c.IsBound objectID then
    if objectID ∈ c.m_selectedObjects then c
    else { c with m_selectedObjects := c.m_selectedObjects ++ [objectID] }
  else c

/-- The member `TObjectCollection::DeselectObject`: the first entry of the
selection that equals the identifier is removed. -/
def TObjectCollection.DeselectObject (c : TObjectCollection) (objectID : ℤ) :
    TObjectCollection :=
  { c with m_selectedObjects := c.m_selectedObjects.erase objectID }

/-- The member `TObjectCollection::SelectAll`: the selection is cleared and
the key of every bound object appended. -/
def TObjectCollection.SelectAll (c : TObjectCollection) : TObjectCollection :=
  { c with m_selectedObjects := c.m_objects.map TGraphicObject.GetID }

/-- The member `TObjectCollection::DeselectAll`. -/
def TObjectCollection.DeselectAll (c : TObjectCollection) : TObjectCollection :=
  { c with m_selectedObjects := [] }

/-- A call of one of the members of `TObjectCollection` that change the stored
objects or the selection. -/
inductive TObjectCollection.Call where
  | AddObject (object : Option TGraphicObject)
  | RemoveObject (objectID : ℤ)
  | RemoveObject_handle (object : Option TGraphicObject)
  | Clear
  | SelectObject (objectID : ℤ)
  | DeselectObject (objectID : ℤ)
  | SelectAll
  | DeselectAll
deriving DecidableEq

/-- The collection after a call. -/
def TObjectCollection.call (c : TObjectCollection) : TObjectCollection.Call → TObjectCollection
  | .AddObject object => (c.AddObject_handle object).1
  | .RemoveObject objectID => (c.RemoveObject objectID).1
  | .RemoveObject_handle object => (c.RemoveObject_handle object).1
  | .Clear => c.Clear
  | .SelectObject objectID => c.SelectObject objectID
  | .DeselectObject objectID => c.DeselectObject objectID
  | .SelectAll => c.SelectAll
  | .DeselectAll => c.DeselectAll

/-- The collection after a sequence of calls, made in order. -/
def TObjectCollection.calls (c : TObjectCollection) (l : List TObjectCollection.Call) :
    TObjectCollection :=
  l.foldl TObjectCollection.call c


/-- The state of a collection is consistent: the bound objects have distinct
identifiers (they are the keys of the map), the selection has no duplicate,
and every selected identifier is the key of a bound object. -/
def TObjectCollection.Consistent (c : TObjectCollection) : Prop :=
  (c.m_objects.map TGraphicObject.GetID).Nodup ∧ c.m_selectedObjects.Nodup ∧
  ∀ id ∈ c.m_selectedObjects, id ∈ c.m_objects.map TGraphicObject.GetID


/-! ## Sample inputs -/

/-- A geometry engine that always returns the same non-null body. -/
def sampleEngine : GeometryEngine :=
  ⟨fun _ _ _ => .returned (.body 0), fun _ _ _ => .returned (.body 0),
    fun _ _ => .returned (.body 0)⟩

/-- The point (0, 0, 0). -/
def ptO : gp_Pnt := ⟨0, 0, 0⟩

/-- The point (0.5, 0, 0), half a millimetre from `ptO`. -/
def ptHalf : gp_Pnt := ⟨1 / 2, 0, 0⟩

/-- The point (5000, 0, 0), five metres from `ptO`. -/
def ptFar : gp_Pnt := ⟨5000, 0, 0⟩

/-- The point (0.3, 0.4, 0), half a millimetre from `ptO`. -/
def ptNear : gp_Pnt := ⟨3 / 10, 2 / 5, 0⟩

/-- A beam command that has collected the start point `ptO`. -/
def beamHoldingO : BeamCommand :=
  (BeamCommand.execute sampleEngine.createBeam BeamCommand.new ptO).cmd

/-- A slab command that has collected the first corner `ptO`. -/
def slabHoldingO : SlabCommand :=
  (SlabCommand.execute sampleEngine.createSlab SlabCommand.new ptO).cmd

/-- A controller with an empty object collection and no active command. -/
def controllerIdle : CADController := CADController.new (some []) 1

/-- The beam command that `startBeamCommand` leaves active: dimensions set and
started. -/
def beamStarted : BeamCommand :=
  ((BeamCommand.new.setDimensions 200 400).start).cmd

/-- The controller `controllerIdle` after `startBeamCommand`. -/
def controllerDrawingBeam : CADController :=
  { controllerIdle with
    m_activeCommand := some (.beam beamStarted),
    emitted := [.statusMessage .prompt, .commandChanged "Draw Beam"] }

/-- An Endpoint candidate 10 mm from the cursor. -/
def endpointAt10 : SnapPoint := ⟨⟨10, 0, 0⟩, SnapType.Endpoint, "Endpoint", 10⟩

/-- A Nearest candidate 5 mm from the cursor. -/
def nearestAt5 : SnapPoint := ⟨⟨0, 5, 0⟩, SnapType.Nearest, "Nearest", 5⟩

/-- The ray from (0, 0, 1000) straight down, direction (0, 0, -1). -/
def rayDown : ViewRay := ⟨0, 0, 1000, 0, 0, -1⟩

/-- The ray from (0, 0, 1000) with direction (1, 0, -1e-7): it descends towards
the XY plane and is not parallel to it. -/
def rayGrazing : ViewRay := ⟨0, 0, 1000, 1, 0, -(1 / 10000000)⟩

/-- The ray from (0, 0, 1000) with direction (1, 0, 0), parallel to the XY
plane. -/
def rayAlongX : ViewRay := ⟨0, 0, 1000, 1, 0, 0⟩

/-- The ray from (0, 0, 1000) whose direction (1e-8, 0, 0) is shorter than
`Precision::Confusion()`. -/
def rayTiny : ViewRay := ⟨0, 0, 1000, 1 / 100000000, 0, 0⟩

/-- A geometry engine whose boxes follow `BRepPrimAPI_MakeBox`, which throws
for a box with an extent not above `Precision::Confusion()`: `createSlab`
throws when the corners are no further apart than that in X or in Y or the
thickness is that small, `createColumn` when a dimension is that small;
`createBeam` returns a body. -/
def boxCheckingEngine : GeometryEngine :=
  ⟨fun _ _ _ => .returned (.body 0),
    fun c corner1 corner2 =>
      if |corner1.X - corner2.X| ≤ Precision.Confusion ∨ |corner1.Y - corner2.Y| ≤ Precision.Confusion
          ∨ c.m_thickness ≤ Precision.Confusion then .thrown
      else .returned (.body 0),
    fun c _ =>
      if c.m_width ≤ Precision.Confusion ∨ c.m_depth ≤ Precision.Confusion
          ∨ c.m_height ≤ Precision.Confusion then .thrown
      else .returned (.body 0)⟩

/-- The point (0, 5, 0), five millimetres from `ptO` along Y. -/
def ptAlongY : gp_Pnt := ⟨0, 5, 0⟩

/-- The point (1000, 2000, 0). -/
def ptClick : gp_Pnt := ⟨1000, 2000, 0⟩

/-- The point (4000, 6000, 0). -/
def ptClick2 : gp_Pnt := ⟨4000, 6000, 0⟩

/-- The column command that `startColumnCommand` leaves active. -/
def columnStarted : ColumnCommand :=
  ((ColumnCommand.new.setDimensions 300 300 3000).start).cmd

/-- The controller `controllerIdle` after `startColumnCommand`. -/
def controllerDrawingColumn : CADController :=
  { controllerIdle with
    m_activeCommand := some (.column columnStarted),
    emitted := [.statusMessage .prompt, .commandChanged "Draw Column"] }

/-- The slab command that `startSlabCommand` leaves active. -/
def slabStarted : SlabCommand :=
  ((SlabCommand.new.setThickness 200).start).cmd

/-- The controller `controllerIdle` after `startSlabCommand`. -/
def controllerDrawingSlab : CADController :=
  { controllerIdle with
    m_activeCommand := some (.slab slabStarted),
    emitted := [.statusMessage .prompt, .commandChanged "Draw Slab"] }

/-- A top view: the pixel of a point is the integer part of its X and Y. -/
def topViewPixel (p : gp_Pnt) : ℤ × ℤ := (⌊p.X⌋, ⌊p.Y⌋)

/-- A collection of three handles: an object caching an Endpoint at (100,100,0)
and a Midpoint at (103,104,0), a null handle, and an object caching an
Endpoint at (200,0,0). -/
def sampleCollection : List (Option (List TGraphicObject.SnapPoint)) :=
  [some [⟨⟨100, 100, 0⟩, 1, "Point 0"⟩, ⟨⟨103, 104, 0⟩, 2, "Mid 1"⟩], none,
    some [⟨⟨200, 0, 0⟩, 1, "Point 0"⟩]]

/-- An orthographic view looking along (-2/3, -2/3, -1/3): the ray through
pixel (x, y) starts at (1000 + x, 1000 - x, 1000). -/
def obliqueView : ℤ → ℤ → Option ViewRay :=
  fun x _ => some ⟨1000 + x, 1000 - x, 1000, -(2 / 3), -(2 / 3), -(1 / 3)⟩

/-- A shape engine over numbered bodies: a beam box or profile is body 1, a
transformed body is the next body, and the wire points of body n are the
single Endpoint (n, 0, 0). -/
def sampleShapeEngine : ShapeEngine :=
  ⟨fun _ _ _ _ => .body 1, fun _ _ _ _ => .body 1,
    fun _ s => match s with
      | .null => .null
      | .body n => .body (n + 1),
    fun s => match s with
      | .null => []
      | .body n => [⟨⟨n, 0, 0⟩, 1, "Point 0"⟩]⟩

/-- The beam from (0,0,0) to (5000,0,0) as its constructor leaves it. -/
def sampleBeamObject : TBeamObject := TBeamObject.new sampleShapeEngine 1 ptO ptFar

/-- The distance between two points on a common vertical line (same X and
same Y): the difference of their heights. -/
def verticalDistance (a b : gp_Pnt) : ℚ := |a.Z - b.Z|

/-- A column seen by `findSnapPoint`: its bounding box is 300 by 300 about the
Z axis and 3000 high.  The explorer data, which the beam-like branch does not
read, is left empty. -/
def columnShape : VisibleShape :=
  ⟨some ⟨-150, -150, 0, 150, 150, 3000⟩, ⟨[], false⟩, ⟨[], false⟩, ⟨[], false⟩,
    fun _ => ⟨[], false⟩⟩

/-- The snap manager after the snap toolbar has reported Midpoint, Center and
Vertex checked and Endpoint unchecked. -/
def endpointUnchecked : SnapManager :=
  SnapManager.new.setSnapTypes
    (Int.lor (Int.lor SnapType.Midpoint.value SnapType.Center.value) SnapType.Vertex.value)


/-- A sequence of calls on a collection: two beams are added, the first is
selected twice, everything is selected, the first beam is removed, an
identifier that is not bound is selected, and the second beam is added
again. -/
def sampleCalls : List TObjectCollection.Call :=
  [.AddObject (some (.beam (TBeam.new 1 ptO ptFar))),
   .AddObject (some (.beam (TBeam.new 2 ptO ptAlongY))),
   .SelectObject 1, .SelectObject 1, .SelectAll, .RemoveObject 1, .SelectObject 7,
   .AddObject (some (.beam (TBeam.new 2 ptO ptAlongY)))]


/-! ## Distances -/

/-- The squared form of a distance test agrees with the test on the real
square root that `gp_Pnt::Distance` computes. -/
theorem distanceLt_iff_sqrt (a b : gp_Pnt) (r : ℚ) :
    gp_Pnt.DistanceLt a b r ↔ Real.sqrt ((gp_Pnt.SquareDistance a b : ℚ) : ℝ) < (r : ℝ) := by
  unfold gp_Pnt.DistanceLt
  constructor
  · rintro ⟨hr, hlt⟩
    have hr1 : (0 : ℝ) < (r : ℝ) := by exact_mod_cast hr
    rw [Real.sqrt_lt' hr1]
    exact_mod_cast hlt
  · intro h
    have hr1 : (0 : ℝ) < (r : ℝ) := lt_of_le_of_lt (Real.sqrt_nonneg _) h
    refine ⟨by exact_mod_cast hr1, ?_⟩
    rw [Real.sqrt_lt' hr1] at h
    exact_mod_cast h

/-- The squared form of the direction test of `convertViewToWorld` agrees
with the test `sqrt(Vx*Vx + Vy*Vy + Vz*Vz) < Precision::Confusion()`. -/
theorem magnitude_lt_confusion_iff (vx vy vz : ℚ) :
    Real.sqrt ((vx * vx + vy * vy + vz * vz : ℚ) : ℝ) < ((Precision.Confusion : ℚ) : ℝ) ↔
      vx * vx + vy * vy + vz * vz < Precision.Confusion ^ 2 := by
  have heps : (0 : ℝ) < ((Precision.Confusion : ℚ) : ℝ) := by
    norm_num [Precision.Confusion]
  rw [Real.sqrt_lt' heps]
  exact_mod_cast Iff.rfl

/-! ## C1: a beam end point too close to the start point -/

/-- C1 as stated fails: the beam command holding the start point (0,0,0)
is fed (0.5,0,0), half a millimetre away.  The collected points are then
empty, not the start point alone, and the following point (5000,0,0) is taken
as a new start point: no completion is emitted. -/
theorem C1_counterexample :
    gp_Pnt.DistanceLt ptO ptHalf 1 ∧ ¬ gp_Pnt.DistanceLt ptO ptFar 1 ∧
    beamHoldingO.m_points = [ptO] ∧
    (BeamCommand.execute sampleEngine.createBeam beamHoldingO ptHalf).cmd.m_points ≠ [ptO] ∧
    (BeamCommand.execute sampleEngine.createBeam
      (BeamCommand.execute sampleEngine.createBeam beamHoldingO ptHalf).cmd ptFar).completions
      = 0 := by
  norm_num [BeamCommand.execute, beamHoldingO, BeamCommand.new, gp_Pnt.DistanceLt,
    gp_Pnt.SquareDistance, Outcome.completions, Emission.isCompleted, ptO, ptHalf, ptFar,
    sampleEngine, CADCommand.clearPreview, CADCommand.new]

/-- C1 amended: a beam command holding exactly one point A that is fed a
point B less than 1 mm from A rejects B by starting over.  It emits only the
status text "Points too close", displays no shape, emits no completion and
ends with no collected point.  The next point B1 is then taken as a new start
point without completion, and a further point B2 at least 1 mm from B1, for
which the engine returns a non-null shape, completes the beam from B1 to B2. -/
theorem C1_beam_too_close_starts_over
    (createBeam : BeamCommand → gp_Pnt → gp_Pnt → GeomResult)
    (c : BeamCommand) (A B : gp_Pnt) (hc : c.m_points = [A])
    (hAB : gp_Pnt.DistanceLt A B 1) :
    (BeamCommand.execute createBeam c B).cmd.m_points = [] ∧
    (BeamCommand.execute createBeam c B).emitted
      = [⟨.statusUpdate .pointsTooClose, [A, B]⟩] ∧
    (BeamCommand.execute createBeam c B).displayed = [] ∧
    (BeamCommand.execute createBeam c B).completions = 0 ∧
    (BeamCommand.execute createBeam c B).threw = false ∧
    (∀ B1 : gp_Pnt,
      (BeamCommand.execute createBeam (BeamCommand.execute createBeam c B).cmd B1).cmd.m_points
        = [B1] ∧
      (BeamCommand.execute createBeam (BeamCommand.execute createBeam c B).cmd B1).completions
        = 0 ∧
      (BeamCommand.execute createBeam (BeamCommand.execute createBeam c B).cmd B1).displayed
        = [] ∧
      ∀ (B2 : gp_Pnt) (shape : TopoDS_Shape), ¬ gp_Pnt.DistanceLt B1 B2 1 →
        (∀ cmd, createBeam cmd B1 B2 = .returned shape) → shape.IsNull = false →
        (BeamCommand.execute createBeam
          (BeamCommand.execute createBeam (BeamCommand.execute createBeam c B).cmd B1).cmd
          B2).emitted
          = [⟨.statusUpdate .beamCreated, [B1, B2]⟩, ⟨.commandCompleted shape, [B1, B2]⟩]) := by
  have h1 : (BeamCommand.execute createBeam c B)
      = ⟨{ c with m_points := [], base := c.base.clearPreview },
          [⟨.statusUpdate .pointsTooClose, [A, B]⟩], [], false⟩ := by
    simp [BeamCommand.execute, hc, hAB]
  rw [h1]
  refine ⟨rfl, rfl, rfl, by simp [Outcome.completions, Emission.isCompleted], rfl, ?_⟩
  intro B1
  have h2 : BeamCommand.execute createBeam
      { c with m_points := [], base := c.base.clearPreview } B1
      = ⟨{ c with m_points := [B1], base := c.base.clearPreview },
          [⟨.statusUpdate (.beamStartPoint B1), [B1]⟩], [], false⟩ := by
    simp [BeamCommand.execute]
  simp only [h2]
  refine ⟨by simp, by simp [Outcome.completions, Emission.isCompleted], by simp, ?_⟩
  intro B2 shape hfar heng hnull
  simp [BeamCommand.execute, hfar, heng, hnull]

/-- C1 amended, at the sample input: start point (0,0,0), rejected point
(0.5,0,0). -/
theorem C1_beam_too_close_starts_over_witness :
    (BeamCommand.execute sampleEngine.createBeam beamHoldingO ptHalf).cmd.m_points = [] :=
  (C1_beam_too_close_starts_over sampleEngine.createBeam beamHoldingO ptO ptHalf
    (by norm_num [BeamCommand.execute, beamHoldingO, BeamCommand.new, ptO])
    (by norm_num [gp_Pnt.DistanceLt, gp_Pnt.SquareDistance, ptO, ptHalf])).1

/-! ## C2: priority of the snap selection -/

/-- A selection loop returns its starting value when no candidate of its
kinds is strictly closer than that value. -/
theorem findSnapPoint_loop_keeps (p : SnapType → Bool) (l : List SnapPoint) (b : SnapPoint)
    (h : ∀ c ∈ l, p c.type = true → ¬ c.distance < b.distance) :
    l.foldl (findSnapPoint_step p) b = b := by
  induction l with
  | nil => rfl
  | cons x xs ih =>
    have hx : findSnapPoint_step p b x = b := by
      unfold findSnapPoint_step
      by_cases hp : p x.type = true
      · simp [hp, h x (List.mem_cons_self _ _) hp]
      · simp [hp]
    rw [List.foldl_cons, hx]
    exact ih (fun c hc => h c (List.mem_cons_of_mem _ hc))

/-- A selection loop that meets a candidate of its kinds strictly closer than
the starting value returns the first candidate of least distance among its
kinds: nothing of those kinds before it is as close, nothing after it is
closer. -/
theorem findSnapPoint_loop_picks (p : SnapType → Bool) (l : List SnapPoint) :
    ∀ b : SnapPoint, (∃ c ∈ l, p c.type = true ∧ c.distance < b.distance) →
    ∃ pre c post, l = pre ++ c :: post ∧ p c.type = true ∧ c.distance < b.distance ∧
      l.foldl (findSnapPoint_step p) b = c ∧
      (∀ d ∈ pre, p d.type = true → c.distance < d.distance) ∧
      (∀ d ∈ post, p d.type = true → c.distance ≤ d.distance) := by
  induction l with
  | nil =>
    rintro b ⟨c, hc, _⟩
    exact absurd hc (List.not_mem_nil c)
  | cons x xs ih =>
    intro b hex
    by_cases hx : p x.type = true ∧ x.distance < b.distance
    · have hstep : findSnapPoint_step p b x = x := by
        simp [findSnapPoint_step, hx.1, hx.2]
      by_cases hrest : ∃ c ∈ xs, p c.type = true ∧ c.distance < x.distance
      · obtain ⟨pre, c, post, hl, hpc, hcx, hfold, hpre, hpost⟩ := ih x hrest
        refine ⟨x :: pre, c, post, by rw [hl]; rfl, hpc, lt_trans hcx hx.2, ?_, ?_, hpost⟩
        · rw [List.foldl_cons, hstep]
          exact hfold
        · intro d hd hpd
          rcases List.mem_cons.1 hd with rfl | hd
          · exact hcx
          · exact hpre d hd hpd
      · refine ⟨[], x, xs, rfl, hx.1, hx.2, ?_, ?_, ?_⟩
        · rw [List.foldl_cons, hstep]
          exact findSnapPoint_loop_keeps p xs x
            (fun c hc hpc hlt => hrest ⟨c, hc, hpc, hlt⟩)
        · intro d hd
          exact absurd hd (List.not_mem_nil d)
        · intro d hd hpd
          exact not_lt.1 (fun hlt => hrest ⟨d, hd, hpd, hlt⟩)
    · have hstep : findSnapPoint_step p b x = b := by
        unfold findSnapPoint_step
        by_cases hp : p x.type = true
        · have : ¬ x.distance < b.distance := fun hlt => hx ⟨hp, hlt⟩
          simp [hp, this]
        · simp [hp]
      have hrest : ∃ c ∈ xs, p c.type = true ∧ c.distance < b.distance := by
        obtain ⟨c, hc, hpc, hlt⟩ := hex
        rcases List.mem_cons.1 hc with rfl | hc
        · exact absurd ⟨hpc, hlt⟩ hx
        · exact ⟨c, hc, hpc, hlt⟩
      obtain ⟨pre, c, post, hl, hpc, hcb, hfold, hpre, hpost⟩ := ih b hrest
      refine ⟨x :: pre, c, post, by rw [hl]; rfl, hpc, hcb, ?_, ?_, hpost⟩
      · rw [List.foldl_cons, hstep]
        exact hfold
      · intro d hd hpd
        rcases List.mem_cons.1 hd with rfl | hd
        · exact lt_of_lt_of_le hcb (not_lt.1 (fun hlt => hx ⟨hpd, hlt⟩))
        · exact hpre d hd hpd

/-- C2 as stated fails at the tolerance itself: with a world tolerance of
10 mm, an Endpoint candidate exactly 10 mm away (not beyond the tolerance, so
the filter keeps it) and a Nearest candidate 5 mm away, the selection returns
the Nearest candidate. -/
theorem C2_counterexample :
    endpointAt10.type.isHighPriority = true ∧ endpointAt10.distance ≤ 10 ∧
    findSnapPoint_bestSnap [endpointAt10, nearestAt5] 10 = nearestAt5 := by
  refine ⟨by decide, by norm_num [endpointAt10], ?_⟩
  norm_num [findSnapPoint_bestSnap, findSnapPoint_step, SnapType.isHighPriority,
    SnapType.isLowPriority, endpointAt10, nearestAt5, SnapPoint.empty]

/-- C2 amended: "within tolerance" is a distance strictly below the world
tolerance.  (1) If some Endpoint, Midpoint or Vertex candidate is strictly
within tolerance, the selection is such a candidate, no candidate of those
kinds before it in the list is as close and none after it is closer, whatever
the Center and Nearest candidates are.  (2) If none is, and some Center or
Nearest candidate is strictly within tolerance, the selection is the first
candidate of least distance among those two kinds.  (3) Otherwise the
selection is the empty snap of kind None. -/
theorem C2_findSnapPoint_priority (candidates : List SnapPoint) (worldTolerance : ℚ) :
    ((∃ c ∈ candidates, c.type.isHighPriority = true ∧ c.distance < worldTolerance) →
      ∃ pre c post, candidates = pre ++ c :: post ∧
        findSnapPoint_bestSnap candidates worldTolerance = c ∧
        c.type.isHighPriority = true ∧ c.distance < worldTolerance ∧
        (∀ d ∈ pre, d.type.isHighPriority = true → c.distance < d.distance) ∧
        (∀ d ∈ post, d.type.isHighPriority = true → c.distance ≤ d.distance)) ∧
    ((¬ ∃ c ∈ candidates, c.type.isHighPriority = true ∧ c.distance < worldTolerance) →
      (∃ c ∈ candidates, c.type.isLowPriority = true ∧ c.distance < worldTolerance) →
      ∃ pre c post, candidates = pre ++ c :: post ∧
        findSnapPoint_bestSnap candidates worldTolerance = c ∧
        c.type.isLowPriority = true ∧ c.distance < worldTolerance ∧
        (∀ d ∈ pre, d.type.isLowPriority = true → c.distance < d.distance) ∧
        (∀ d ∈ post, d.type.isLowPriority = true → c.distance ≤ d.distance)) ∧
    ((¬ ∃ c ∈ candidates, c.type.isHighPriority = true ∧ c.distance < worldTolerance) →
      (¬ ∃ c ∈ candidates, c.type.isLowPriority = true ∧ c.distance < worldTolerance) →
      findSnapPoint_bestSnap candidates worldTolerance
        = { SnapPoint.empty with distance := worldTolerance }) := by
  have hkeep : (¬ ∃ c ∈ candidates, c.type.isHighPriority = true ∧ c.distance < worldTolerance) →
      candidates.foldl (findSnapPoint_step SnapType.isHighPriority)
        { SnapPoint.empty with distance := worldTolerance }
        = { SnapPoint.empty with distance := worldTolerance } := fun hno =>
    findSnapPoint_loop_keeps _ _ _ (fun c hc hpc hlt => hno ⟨c, hc, hpc, hlt⟩)
  refine ⟨?_, ?_, ?_⟩
  · intro hex
    obtain ⟨pre, c, post, hl, hpc, hcb, hfold, hpre, hpost⟩ :=
      findSnapPoint_loop_picks SnapType.isHighPriority candidates
        { SnapPoint.empty with distance := worldTolerance } hex
    refine ⟨pre, c, post, hl, ?_, hpc, hcb, hpre, hpost⟩
    have hne : c.type ≠ SnapType.None := by
      intro h0
      rw [h0] at hpc
      exact absurd hpc (by decide)
    unfold findSnapPoint_bestSnap
    simp only [hfold]
    rw [if_neg hne]
  · intro hno hex
    obtain ⟨pre, c, post, hl, hpc, hcb, hfold, hpre, hpost⟩ :=
      findSnapPoint_loop_picks SnapType.isLowPriority candidates
        { SnapPoint.empty with distance := worldTolerance } hex
    refine ⟨pre, c, post, hl, ?_, hpc, hcb, hpre, hpost⟩
    unfold findSnapPoint_bestSnap
    simp only [hkeep hno]
    rw [if_pos (by rfl)]
    exact hfold
  · intro hno hno2
    unfold findSnapPoint_bestSnap
    simp only [hkeep hno]
    rw [if_pos (by rfl)]
    exact findSnapPoint_loop_keeps _ _ _ (fun c hc hpc hlt => hno2 ⟨c, hc, hpc, hlt⟩)

/-- C2 amended, at the sample input of the claim: an Endpoint at 10 mm and a
Nearest at 5 mm, tolerance 25 mm; the selection is the Endpoint. -/
theorem C2_findSnapPoint_priority_witness :
    (∃ pre c post, [endpointAt10, nearestAt5] = pre ++ c :: post ∧
        findSnapPoint_bestSnap [endpointAt10, nearestAt5] 25 = c ∧
        c.type.isHighPriority = true ∧ c.distance < 25 ∧
        (∀ d ∈ pre, d.type.isHighPriority = true → c.distance < d.distance) ∧
        (∀ d ∈ post, d.type.isHighPriority = true → c.distance ≤ d.distance)) ∧
    findSnapPoint_bestSnap [endpointAt10, nearestAt5] 25 = endpointAt10 :=
  ⟨(C2_findSnapPoint_priority [endpointAt10, nearestAt5] 25).1
      ⟨endpointAt10, List.mem_cons_self _ _, by decide, by norm_num [endpointAt10]⟩,
    by
      norm_num [findSnapPoint_bestSnap, findSnapPoint_step, SnapType.isHighPriority,
        SnapType.isLowPriority, endpointAt10, nearestAt5, SnapPoint.empty]
      decide⟩

/-! ## C3 and C4: ray against work plane -/

/-- The Cauchy-Schwarz inequality for the direction of a ray and a unit
normal: the square of their dot product is at most the squared length of the
direction. -/
theorem dot_sq_le_of_unit (n : gp_Dir) (hn : n.IsUnit) (vx vy vz : ℚ) :
    (vx * n.X + vy * n.Y + vz * n.Z) ^ 2 ≤ vx * vx + vy * vy + vz * vz := by
  unfold gp_Dir.IsUnit at hn
  have h : (vx * n.X + vy * n.Y + vz * n.Z) ^ 2
      + ((vx * n.Y - vy * n.X) ^ 2 + (vx * n.Z - vz * n.X) ^ 2 + (vy * n.Z - vz * n.Y) ^ 2)
      = (vx * vx + vy * vy + vz * vz) * (n.X * n.X + n.Y * n.Y + n.Z * n.Z) := by ring
  rw [hn, mul_one] at h
  nlinarith [sq_nonneg (vx * n.Y - vy * n.X), sq_nonneg (vx * n.Z - vz * n.X),
    sq_nonneg (vy * n.Z - vz * n.Y)]

/-- C3 as stated fails for a ray that is not parallel to the plane but whose
direction makes a dot product of magnitude 1e-7 with the normal: from
(0,0,1000) with direction (1,0,-1e-7) against the XY plane the function
returns the ray origin (0,0,1000), which is 1000 mm off the plane. -/
theorem C3_counterexample :
    (WorkPlane.ofType PlaneType.XY).m_plane.Direction.IsUnit ∧
    rayGrazing.Vx * (WorkPlane.ofType PlaneType.XY).m_plane.Direction.X
      + rayGrazing.Vy * (WorkPlane.ofType PlaneType.XY).m_plane.Direction.Y
      + rayGrazing.Vz * (WorkPlane.ofType PlaneType.XY).m_plane.Direction.Z ≠ 0 ∧
    CADController.convertViewToWorld (WorkPlane.ofType PlaneType.XY)
      (fun _ _ => some rayGrazing) 0 0 = ⟨0, 0, 1000⟩ ∧
    ((1000 : ℚ) - (WorkPlane.ofType PlaneType.XY).m_plane.Location.Z)
      * (WorkPlane.ofType PlaneType.XY).m_plane.Direction.Z ≠ 0 := by
  norm_num [CADController.convertViewToWorld, WorkPlane.ofType, WorkPlane.getPlane,
    rayGrazing, Precision.Confusion, gp_Dir.IsUnit, abs_of_pos]

/-- C3 amended: for every work plane with unit normal n and origin P and
every ray (origin O, direction D) delivered by the view with
|D·n| > Precision::Confusion() (1e-7), convertViewToWorld returns O + t·D with
t = ((P - O)·n) / (D·n), and that point satisfies (result - P)·n = 0. -/
theorem C3_convertViewToWorld_on_plane (w : WorkPlane)
    (ConvertWithProj : ℤ → ℤ → Option ViewRay) (x y : ℤ) (r : ViewRay)
    (hview : ConvertWithProj x y = some r)
    (hunit : w.m_plane.Direction.IsUnit)
    (hden : Precision.Confusion
      < |r.Vx * w.m_plane.Direction.X + r.Vy * w.m_plane.Direction.Y
          + r.Vz * w.m_plane.Direction.Z|) :
    CADController.convertViewToWorld w ConvertWithProj x y
      = ⟨r.Xv + ((w.m_plane.Location.X - r.Xv) * w.m_plane.Direction.X
            + (w.m_plane.Location.Y - r.Yv) * w.m_plane.Direction.Y
            + (w.m_plane.Location.Z - r.Zv) * w.m_plane.Direction.Z)
          / (r.Vx * w.m_plane.Direction.X + r.Vy * w.m_plane.Direction.Y
            + r.Vz * w.m_plane.Direction.Z) * r.Vx,
         r.Yv + ((w.m_plane.Location.X - r.Xv) * w.m_plane.Direction.X
            + (w.m_plane.Location.Y - r.Yv) * w.m_plane.Direction.Y
            + (w.m_plane.Location.Z - r.Zv) * w.m_plane.Direction.Z)
          / (r.Vx * w.m_plane.Direction.X + r.Vy * w.m_plane.Direction.Y
            + r.Vz * w.m_plane.Direction.Z) * r.Vy,
         r.Zv + ((w.m_plane.Location.X - r.Xv) * w.m_plane.Direction.X
            + (w.m_plane.Location.Y - r.Yv) * w.m_plane.Direction.Y
            + (w.m_plane.Location.Z - r.Zv) * w.m_plane.Direction.Z)
          / (r.Vx * w.m_plane.Direction.X + r.Vy * w.m_plane.Direction.Y
            + r.Vz * w.m_plane.Direction.Z) * r.Vz⟩ ∧
    ((CADController.convertViewToWorld w ConvertWithProj x y).X - w.m_plane.Location.X)
        * w.m_plane.Direction.X
      + ((CADController.convertViewToWorld w ConvertWithProj x y).Y - w.m_plane.Location.Y)
        * w.m_plane.Direction.Y
      + ((CADController.convertViewToWorld w ConvertWithProj x y).Z - w.m_plane.Location.Z)
        * w.m_plane.Direction.Z = 0 := by
  have heps : (0 : ℚ) < Precision.Confusion := by norm_num [Precision.Confusion]
  set den := r.Vx * w.m_plane.Direction.X + r.Vy * w.m_plane.Direction.Y
    + r.Vz * w.m_plane.Direction.Z with hdef
  have hden0 : den ≠ 0 := by
    intro h0
    rw [h0, abs_zero] at hden
    exact absurd hden (not_lt.2 heps.le)
  have hsq : Precision.Confusion ^ 2 < den ^ 2 := by
    rw [← sq_abs den]
    exact pow_lt_pow_left₀ hden heps.le (by norm_num)
  have hmag : ¬ r.Vx * r.Vx + r.Vy * r.Vy + r.Vz * r.Vz < Precision.Confusion ^ 2 := by
    have hcs := dot_sq_le_of_unit w.m_plane.Direction hunit r.Vx r.Vy r.Vz
    rw [← hdef] at hcs
    exact not_lt.2 (le_trans hsq.le hcs)
  have hval : CADController.convertViewToWorld w ConvertWithProj x y
      = ⟨r.Xv + ((w.m_plane.Location.X - r.Xv) * w.m_plane.Direction.X
            + (w.m_plane.Location.Y - r.Yv) * w.m_plane.Direction.Y
            + (w.m_plane.Location.Z - r.Zv) * w.m_plane.Direction.Z) / den * r.Vx,
         r.Yv + ((w.m_plane.Location.X - r.Xv) * w.m_plane.Direction.X
            + (w.m_plane.Location.Y - r.Yv) * w.m_plane.Direction.Y
            + (w.m_plane.Location.Z - r.Zv) * w.m_plane.Direction.Z) / den * r.Vy,
         r.Zv + ((w.m_plane.Location.X - r.Xv) * w.m_plane.Direction.X
            + (w.m_plane.Location.Y - r.Yv) * w.m_plane.Direction.Y
            + (w.m_plane.Location.Z - r.Zv) * w.m_plane.Direction.Z) / den * r.Vz⟩ := by
    unfold CADController.convertViewToWorld
    simp only [hview, WorkPlane.getPlane]
    rw [if_neg hmag, ← hdef, if_pos hden]
  refine ⟨hval, ?_⟩
  rw [hval]
  simp only
  rw [hdef]
  rw [hdef] at hden0
  field_simp
  ring

/-- C3 amended, at the sample input of the claim: the XY plane through the
origin and the ray from (0,0,1000) with direction (0,0,-1) give (0,0,0). -/
theorem C3_convertViewToWorld_on_plane_witness :
    CADController.convertViewToWorld (WorkPlane.ofType PlaneType.XY)
      (fun _ _ => some rayDown) 0 0 = ⟨0, 0, 0⟩ := by
  have h := (C3_convertViewToWorld_on_plane (WorkPlane.ofType PlaneType.XY)
    (fun _ _ => some rayDown) 0 0 rayDown rfl
    (by norm_num [WorkPlane.ofType, gp_Dir.IsUnit])
    (by norm_num [WorkPlane.ofType, rayDown, Precision.Confusion])).1
  rw [h]
  norm_num [WorkPlane.ofType, rayDown]

/-- C4 as stated fails for a direction shorter than Precision::Confusion():
from (0,0,1000) with direction (1e-8,0,0), whose dot product with the normal
of the XY plane is 0, the function returns (0,0,0) and not the ray origin. -/
theorem C4_counterexample :
    |rayTiny.Vx * (WorkPlane.ofType PlaneType.XY).m_plane.Direction.X
      + rayTiny.Vy * (WorkPlane.ofType PlaneType.XY).m_plane.Direction.Y
      + rayTiny.Vz * (WorkPlane.ofType PlaneType.XY).m_plane.Direction.Z|
      < Precision.Confusion ∧
    CADController.convertViewToWorld (WorkPlane.ofType PlaneType.XY)
      (fun _ _ => some rayTiny) 0 0 = ⟨0, 0, 0⟩ ∧
    CADController.convertViewToWorld (WorkPlane.ofType PlaneType.XY)
      (fun _ _ => some rayTiny) 0 0 ≠ ⟨rayTiny.Xv, rayTiny.Yv, rayTiny.Zv⟩ := by
  norm_num [CADController.convertViewToWorld, WorkPlane.ofType, WorkPlane.getPlane,
    rayTiny, Precision.Confusion]

/-- C4 amended: for every work plane and every ray (origin O, direction D)
delivered by the view whose direction has length at least
Precision::Confusion() (1e-7) and satisfies |D·n| ≤ Precision::Confusion(),
convertViewToWorld returns exactly O. -/
theorem C4_convertViewToWorld_parallel (w : WorkPlane)
    (ConvertWithProj : ℤ → ℤ → Option ViewRay) (x y : ℤ) (r : ViewRay)
    (hview : ConvertWithProj x y = some r)
    (hmag : Precision.Confusion ^ 2 ≤ r.Vx * r.Vx + r.Vy * r.Vy + r.Vz * r.Vz)
    (hden : |r.Vx * w.m_plane.Direction.X + r.Vy * w.m_plane.Direction.Y
          + r.Vz * w.m_plane.Direction.Z| ≤ Precision.Confusion) :
    CADController.convertViewToWorld w ConvertWithProj x y = ⟨r.Xv, r.Yv, r.Zv⟩ := by
  unfold CADController.convertViewToWorld
  simp only [hview, WorkPlane.getPlane]
  rw [if_neg (not_lt.2 hmag), if_neg (not_lt.2 hden)]

/-- C4 amended, at the sample input of the claim: direction (1,0,0) against
the XY plane returns the ray origin (0,0,1000). -/
theorem C4_convertViewToWorld_parallel_witness :
    CADController.convertViewToWorld (WorkPlane.ofType PlaneType.XY)
      (fun _ _ => some rayAlongX) 0 0 = ⟨0, 0, 1000⟩ :=
  C4_convertViewToWorld_parallel (WorkPlane.ofType PlaneType.XY)
    (fun _ _ => some rayAlongX) 0 0 rayAlongX rfl
    (by norm_num [rayAlongX, Precision.Confusion])
    (by norm_num [WorkPlane.ofType, rayAlongX, Precision.Confusion])

/-! ## C5: classification of a bounding box -/

/-- The sort in `findSnapPoint` yields the sorted extents, whichever sorted
rearrangement of the three extents one names. -/
theorem insertionSort_extents (dx dy dz d0 d1 d2 : ℚ)
    (hperm : [d0, d1, d2].Perm [dx, dy, dz]) (h01 : d0 ≤ d1) (h12 : d1 ≤ d2) :
    [dx, dy, dz].insertionSort (fun a b => a ≤ b) = [d0, d1, d2] := by
  apply List.eq_of_perm_of_sorted ((List.perm_insertionSort _ _).trans hperm.symm)
    (List.sorted_insertionSort _ _)
  simp [h01, h12, le_trans h01 h12]

/-- The largest and smallest extent are the ends of the sorted extents. -/
theorem max_min_extents (dx dy dz d0 d1 d2 : ℚ)
    (hperm : [d0, d1, d2].Perm [dx, dy, dz]) (h01 : d0 ≤ d1) (h12 : d1 ≤ d2) :
    max dx (max dy dz) = d2 ∧ min dx (min dy dz) = d0 := by
  have h02 : d0 ≤ d2 := le_trans h01 h12
  have hmem : ∀ a, a ∈ [dx, dy, dz] → d0 ≤ a ∧ a ≤ d2 := by
    intro a ha
    have ha1 : a ∈ [d0, d1, d2] := hperm.mem_iff.2 ha
    simp only [List.mem_cons, List.mem_singleton, List.not_mem_nil, or_false] at ha1
    rcases ha1 with rfl | rfl | rfl
    · exact ⟨le_refl _, h02⟩
    · exact ⟨h01, h12⟩
    · exact ⟨h02, le_refl _⟩
  have hx := hmem dx (by simp)
  have hy := hmem dy (by simp)
  have hz := hmem dz (by simp)
  have h2 : d2 ∈ [dx, dy, dz] := hperm.mem_iff.1 (by simp)
  have h0 : d0 ∈ [dx, dy, dz] := hperm.mem_iff.1 (by simp)
  simp only [List.mem_cons, List.mem_singleton, List.not_mem_nil, or_false] at h2 h0
  constructor
  · apply le_antisymm (max_le hx.2 (max_le hy.2 hz.2))
    rcases h2 with h | h | h
    · rw [h]; exact le_max_left _ _
    · rw [h]; exact le_trans (le_max_left _ _) (le_max_right _ _)
    · rw [h]; exact le_trans (le_max_right _ _) (le_max_right _ _)
  · apply le_antisymm _ (le_min hx.1 (le_min hy.1 hz.1))
    rcases h0 with h | h | h
    · rw [h]; exact min_le_left _ _
    · rw [h]; exact le_trans (min_le_right _ _) (min_le_left _ _)
    · rw [h]; exact le_trans (min_le_right _ _) (min_le_right _ _)

/-- C5: for positive extents (dx,dy,dz) with sorted extents d0 ≤ d1 ≤ d2 (so
minDim = d0 and maxDim = d2), the flag computed in findSnapPoint is true
exactly when maxDim > 5·minDim and d1/d0 ≤ 3, which is the Elongated class of
the specification; the class is Compact exactly when maxDim ≤ 5·minDim and
Extended exactly when maxDim > 5·minDim and d1/d0 > 3; the tie d1/d0 = 3 with
maxDim > 5·minDim is Elongated. -/
theorem C5_classifier (dx dy dz d0 d1 d2 : ℚ)
    (hx : 0 < dx) (hy : 0 < dy) (hz : 0 < dz)
    (hperm : [d0, d1, d2].Perm [dx, dy, dz]) (h01 : d0 ≤ d1) (h12 : d1 ≤ d2) :
    0 < d0 ∧ max dx (max dy dz) = d2 ∧ min dx (min dy dz) = d0 ∧
    (findSnapPoint_isBeamLike dx dy dz = true ↔ (d2 > 5 * d0 ∧ d1 / d0 ≤ 3)) ∧
    (findSnapPoint_isBeamLike dx dy dz = true ↔
      ShapeClassifier.classify d0 d2 d0 d1 = ShapeClass.Elongated) ∧
    (ShapeClassifier.classify d0 d2 d0 d1 = ShapeClass.Compact ↔ d2 ≤ 5 * d0) ∧
    (ShapeClassifier.classify d0 d2 d0 d1 = ShapeClass.Extended ↔
      (d2 > 5 * d0 ∧ d1 / d0 > 3)) ∧
    (d2 > 5 * d0 → d1 / d0 = 3 → findSnapPoint_isBeamLike dx dy dz = true) := by
  obtain ⟨hmax, hmin⟩ := max_min_extents dx dy dz d0 d1 d2 hperm h01 h12
  have hsort := insertionSort_extents dx dy dz d0 d1 d2 hperm h01 h12
  have hpos : 0 < d0 := by
    rw [← hmin]
    exact lt_min hx (lt_min hy hz)
  have hcode : findSnapPoint_isBeamLike dx dy dz = true ↔ (d2 > 5 * d0 ∧ d1 / d0 ≤ 3) := by
    unfold findSnapPoint_isBeamLike
    simp only [hmax, hmin, hsort]
    by_cases hbig : d2 > d0 * 5
    · have hbig1 : d2 > 5 * d0 := by linarith
      by_cases hmid : d1 / d0 > 3
      · simp [hbig, hmid]
      · simp [hbig, hmid, hbig1, not_lt.1 hmid]
    · have hbig1 : ¬ d2 > 5 * d0 := fun h => hbig (by linarith)
      simp [hbig]
      intro h
      exact absurd h (by simpa using hbig1)
  have hspec : ∀ k : ShapeClass, ShapeClassifier.classify d0 d2 d0 d1 = k ↔
      ((k = ShapeClass.Compact ∧ d2 ≤ 5 * d0) ∨
       (k = ShapeClass.Extended ∧ d2 > 5 * d0 ∧ d1 / d0 > 3) ∨
       (k = ShapeClass.Elongated ∧ d2 > 5 * d0 ∧ d1 / d0 ≤ 3)) := by
    intro k
    unfold ShapeClassifier.classify
    by_cases hbig : d2 ≤ 5 * d0
    · have : ¬ d2 > 5 * d0 := not_lt.2 hbig
      simp [hbig, this, eq_comm]
    · have hbig1 : d2 > 5 * d0 := not_le.1 hbig
      by_cases hmid : d1 / d0 > 3
      · have : ¬ d1 / d0 ≤ 3 := not_le.2 hmid
        simp [hbig, hbig1, hmid, this, eq_comm]
      · have : d1 / d0 ≤ 3 := not_lt.1 hmid
        simp [hbig, hbig1, hmid, this, eq_comm]
  refine ⟨hpos, hmax, hmin, hcode, ?_, ?_, ?_, ?_⟩
  · rw [hcode, hspec]
    simp
  · rw [hspec]
    simp
  · rw [hspec]
    simp
  · intro hbig htie
    exact hcode.2 ⟨hbig, htie.le⟩

/-- C5 at the sample inputs of the claim: (5000,200,400) is Elongated,
(10000,8000,200) is Extended (not beam-like) and (400,400,400) is Compact
(not beam-like). -/
theorem C5_classifier_witness :
    findSnapPoint_isBeamLike 5000 200 400 = true ∧
    ShapeClassifier.classify 200 5000 200 400 = ShapeClass.Elongated ∧
    findSnapPoint_isBeamLike 10000 8000 200 = false ∧
    ShapeClassifier.classify 200 10000 200 8000 = ShapeClass.Extended ∧
    findSnapPoint_isBeamLike 400 400 400 = false ∧
    ShapeClassifier.classify 400 400 400 400 = ShapeClass.Compact := by
  have h := C5_classifier 5000 200 400 200 400 5000 (by norm_num) (by norm_num) (by norm_num)
    (@List.perm_append_comm ℚ [200, 400] [5000]) (by norm_num) (by norm_num)
  refine ⟨h.2.2.2.1.2 ⟨by norm_num, by norm_num⟩, ?_, ?_, ?_, ?_, ?_⟩
  · norm_num [ShapeClassifier.classify]
  · norm_num [findSnapPoint_isBeamLike, List.insertionSort, List.orderedInsert]
  · norm_num [ShapeClassifier.classify]
  · norm_num [findSnapPoint_isBeamLike, List.insertionSort, List.orderedInsert]
  · norm_num [ShapeClassifier.classify]

/-! ## C6: cancel -/

/-- Delivering the emissions of `cancel()` of the active command resets the
controller's pointer to the active command. -/
theorem absorb_cancel_clears_active (ctl : CADController) (a : ActiveCommand)
    (h : ctl.m_activeCommand = some a) :
    (ctl.absorb a.cancel).m_activeCommand = none := by
  cases a <;>
    simp [CADController.absorb, ActiveCommand.cancel, BeamCommand.cancel, SlabCommand.cancel,
      ColumnCommand.cancel, Outcome.map, CADController.deliver,
      CADController.onCommandCancelled, CADController.onStatusUpdate, h]

/-- C6 as stated fails: the beam command holding the start point (0,0,0)
still holds it after cancel(), and execute((5000,0,0)) called after cancel()
builds the beam and emits commandCompleted. -/
theorem C6_counterexample :
    beamHoldingO.m_points = [ptO] ∧
    beamHoldingO.cancel.cmd.m_points ≠ [] ∧
    (BeamCommand.execute sampleEngine.createBeam beamHoldingO.cancel.cmd ptFar).completions = 1 ∧
    (BeamCommand.execute sampleEngine.createBeam beamHoldingO.cancel.cmd ptFar).displayed
      = [TopoDS_Shape.body 0] := by
  norm_num [BeamCommand.execute, BeamCommand.cancel, beamHoldingO, BeamCommand.new,
    gp_Pnt.DistanceLt, gp_Pnt.SquareDistance, Outcome.completions, Emission.isCompleted, ptO,
    ptFar, sampleEngine, CADCommand.clearPreview, CADCommand.new, TopoDS_Shape.IsNull]

/-- C6 amended: for every Beam or Slab command, cancel() clears the preview,
sets m_active to false and emits commandCancelled followed by the status text
"Command cancelled", and leaves the collected points as they are.  execute
does not consult m_active: after cancel() a command without points takes p as
its first point, and a command holding one point A takes p as second point
and, when the shape is built (for a beam: p at least 1 mm from A and a
non-null shape), displays it and emits commandCompleted.  What keeps clicks
from a cancelled command is the controller: delivering commandCancelled
resets its active-command pointer, and handleClick without an active command
changes nothing. -/
theorem C6_cancel_keeps_points (eng : GeometryEngine) :
    (∀ c : BeamCommand,
      c.cancel.cmd.m_points = c.m_points ∧ c.cancel.cmd.base.m_active = false ∧
      c.cancel.cmd.base.hasPreview = false ∧
      c.cancel.emitted
        = [⟨.commandCancelled, c.m_points⟩, ⟨.statusUpdate .commandCancelled, c.m_points⟩]) ∧
    (∀ c : SlabCommand,
      c.cancel.cmd.m_points = c.m_points ∧ c.cancel.cmd.base.m_active = false ∧
      c.cancel.cmd.base.hasPreview = false ∧
      c.cancel.emitted
        = [⟨.commandCancelled, c.m_points⟩, ⟨.statusUpdate .commandCancelled, c.m_points⟩]) ∧
    (∀ (c : BeamCommand) (p : gp_Pnt), c.m_points = [] →
      (BeamCommand.execute eng.createBeam c.cancel.cmd p).cmd.m_points = [p]) ∧
    (∀ (c : SlabCommand) (p : gp_Pnt), c.m_points = [] →
      (SlabCommand.execute eng.createSlab c.cancel.cmd p).cmd.m_points = [p]) ∧
    (∀ (c : BeamCommand) (A p : gp_Pnt) (shape : TopoDS_Shape), c.m_points = [A] →
      ¬ gp_Pnt.DistanceLt A p 1 → (∀ cmd, eng.createBeam cmd A p = .returned shape) →
      shape.IsNull = false →
      (BeamCommand.execute eng.createBeam c.cancel.cmd p).emitted
        = [⟨.statusUpdate .beamCreated, [A, p]⟩, ⟨.commandCompleted shape, [A, p]⟩] ∧
      (BeamCommand.execute eng.createBeam c.cancel.cmd p).displayed = [shape]) ∧
    (∀ (c : SlabCommand) (A p : gp_Pnt) (shape : TopoDS_Shape), c.m_points = [A] →
      (∀ cmd, eng.createSlab cmd A p = .returned shape) →
      (SlabCommand.execute eng.createSlab c.cancel.cmd p).emitted
        = [⟨.statusUpdate .slabCreated, [A, p]⟩, ⟨.commandCompleted shape, [A, p]⟩] ∧
      (SlabCommand.execute eng.createSlab c.cancel.cmd p).displayed = [shape]) ∧
    (∀ (ctl : CADController) (a : ActiveCommand) (p : gp_Pnt), ctl.m_activeCommand = some a →
      (ctl.absorb a.cancel).m_activeCommand = none ∧
      (ctl.absorb a.cancel).handleClick eng p = (ctl.absorb a.cancel, false)) := by
  refine ⟨?_, ?_, ?_, ?_, ?_, ?_, ?_⟩
  · intro c
    refine ⟨rfl, rfl, ?_, rfl⟩
    simp only [BeamCommand.cancel, CADCommand.clearPreview]
    split <;> simp_all
  · intro c
    refine ⟨rfl, rfl, ?_, rfl⟩
    simp only [SlabCommand.cancel, CADCommand.clearPreview]
    split <;> simp_all
  · intro c p hc
    simp [BeamCommand.execute, BeamCommand.cancel, hc]
  · intro c p hc
    simp [SlabCommand.execute, SlabCommand.cancel, hc]
  · intro c A p shape hc hfar heng hnn
    simp [BeamCommand.execute, BeamCommand.cancel, hc, hfar, heng, hnn]
  · intro c A p shape hc heng
    simp [SlabCommand.execute, SlabCommand.cancel, hc, heng]
  · intro ctl a p h
    have hnone := absorb_cancel_clears_active ctl a h
    refine ⟨hnone, ?_⟩
    simp [CADController.handleClick, hnone]

/-- C6 amended, at a sample input: the beam command holding (0,0,0) is
cancelled and then fed (5000,0,0); the beam is built and completion emitted. -/
theorem C6_cancel_keeps_points_witness :
    (BeamCommand.execute sampleEngine.createBeam beamHoldingO.cancel.cmd ptFar).emitted
        = [⟨.statusUpdate .beamCreated, [ptO, ptFar]⟩,
            ⟨.commandCompleted (.body 0), [ptO, ptFar]⟩] ∧
      (BeamCommand.execute sampleEngine.createBeam beamHoldingO.cancel.cmd ptFar).displayed
        = [.body 0] :=
  (C6_cancel_keeps_points sampleEngine).2.2.2.2.1 beamHoldingO ptO ptFar (.body 0)
    (by norm_num [BeamCommand.execute, beamHoldingO, BeamCommand.new, ptO])
    (by norm_num [gp_Pnt.DistanceLt, gp_Pnt.SquareDistance, ptO, ptFar])
    (fun _ => rfl) rfl

/-! ## C7: starting a command while another is active -/

/-- Whenever a command is active, `setActiveCommand` stops at
`m_activeCommand->deleteLater()`: the `cancel()` call just before it has run
the slot `onCommandCancelled`, which set `m_activeCommand` to null. -/
theorem setActiveCommand_faults_when_active (ctl : CADController) (a : ActiveCommand)
    (command : Option ActiveCommand) (h : ctl.m_activeCommand = some a) :
    ctl.setActiveCommand command = .error Fault.nullDereference := by
  have hnone := absorb_cancel_clears_active ctl a h
  simp only [CADController.setActiveCommand, h, hnone]
  rfl

/-- C7 fails in the code: from the idle controller, startBeamCommand succeeds
and leaves the beam command active with no collected points; from that state
each of startSlabCommand, startColumnCommand and startBeamCommand stops with a
null dereference instead of installing the new command. -/
theorem C7_start_while_active_faults :
    controllerIdle.startBeamCommand = .ok controllerDrawingBeam ∧
    controllerDrawingBeam.getCurrentCommand = some (.beam beamStarted) ∧
    beamStarted.m_points = [] ∧ beamStarted.base.m_active = true ∧
    controllerDrawingBeam.startSlabCommand = .error Fault.nullDereference ∧
    controllerDrawingBeam.startColumnCommand = .error Fault.nullDereference ∧
    controllerDrawingBeam.startBeamCommand = .error Fault.nullDereference := by
  have hact : controllerDrawingBeam.m_activeCommand = some (.beam beamStarted) := rfl
  refine ⟨?_, rfl, rfl, rfl, ?_, ?_, ?_⟩
  · rfl
  · simp only [CADController.startSlabCommand,
      setActiveCommand_faults_when_active _ _ _ hact]
    rfl
  · simp only [CADController.startColumnCommand,
      setActiveCommand_faults_when_active _ _ _ hact]
    rfl
  · simp only [CADController.startBeamCommand,
      setActiveCommand_faults_when_active _ _ _ hact]
    rfl

/-! ## C8: completion of a beam -/

/-- The two accessors on a list of two points. -/
theorem lastPoints_pair (A B : gp_Pnt) :
    lastStartPointOf [A, B] = A ∧ lastEndPointOf [A, B] = B := by
  constructor <;> simp [lastStartPointOf, lastEndPointOf]

/-- An object with a fresh identifier is appended by `AddObject`. -/
theorem AddObject_fresh (coll : List TGraphicObject) (o : TGraphicObject)
    (h : ∀ x ∈ coll, x.GetID ≠ o.GetID) :
    TObjectCollection.AddObject coll o = coll ++ [o] := by
  unfold TObjectCollection.AddObject
  rw [if_neg]
  simp only [List.any_eq_true, beq_iff_eq, not_exists, not_and]
  exact fun x hx => h x hx

/-- C8: for a beam command without collected points (a fresh one), points A
and B at least 1 mm apart and an engine that returns a non-null shape for
them, execute(A) emits no completion and execute(B) emits commandCompleted
exactly once, after displaying the shape; while that signal is delivered the
command holds [A, B], so getLastStartPoint() is A and getLastEndPoint() is B.
In a controller whose active command is that beam command, with an object
collection in which the next object identifier is unused, the two clicks add
exactly one object to the collection: a TBeam from A to B. -/
theorem C8_beam_completion (eng : GeometryEngine) (c : BeamCommand) (A B : gp_Pnt)
    (shape : TopoDS_Shape) (hc : c.m_points = [])
    (hfar : ¬ gp_Pnt.DistanceLt A B 1)
    (heng : ∀ cmd, eng.createBeam cmd A B = .returned shape)
    (hnn : shape.IsNull = false) :
    (BeamCommand.execute eng.createBeam c A).completions = 0 ∧
    (BeamCommand.execute eng.createBeam (BeamCommand.execute eng.createBeam c A).cmd B).emitted
      = [⟨.statusUpdate .beamCreated, [A, B]⟩, ⟨.commandCompleted shape, [A, B]⟩] ∧
    (BeamCommand.execute eng.createBeam
      (BeamCommand.execute eng.createBeam c A).cmd B).completions = 1 ∧
    (BeamCommand.execute eng.createBeam (BeamCommand.execute eng.createBeam c A).cmd B).displayed
      = [shape] ∧
    (∀ e ∈ (BeamCommand.execute eng.createBeam
        (BeamCommand.execute eng.createBeam c A).cmd B).emitted,
      e.isCompleted = true →
        BeamCommand.getLastStartPoint { c with m_points := e.points } = A ∧
        BeamCommand.getLastEndPoint { c with m_points := e.points } = B) ∧
    (∀ (ctl : CADController) (coll : List TGraphicObject),
      ctl.m_activeCommand = some (.beam c) → ctl.m_collection = some coll →
      (∀ x ∈ coll, x.GetID ≠ ctl.s_nextID) →
      ∃ b : TBeam, b.m_startPoint = A ∧ b.m_endPoint = B ∧
        (((ctl.handleClick eng A).1.handleClick eng B).1).m_collection
          = some (coll ++ [.beam b]) ∧
        (ctl.handleClick eng A).1.m_collection = some coll) := by
  have h1 : BeamCommand.execute eng.createBeam c A
      = ⟨{ c with m_points := [A] }, [⟨.statusUpdate (.beamStartPoint A), [A]⟩], [], false⟩ := by
    simp [BeamCommand.execute, hc]
  have h2 : BeamCommand.execute eng.createBeam { c with m_points := [A] } B
      = ⟨{ c with m_points := [], base := c.base.clearPreview },
          [⟨.statusUpdate .beamCreated, [A, B]⟩, ⟨.commandCompleted shape, [A, B]⟩],
          [shape], false⟩ := by
    simp [BeamCommand.execute, hfar, heng, hnn]
  rw [h1]
  simp only [h2]
  refine ⟨by simp [Outcome.completions, Emission.isCompleted], trivial,
    by simp [Outcome.completions, Emission.isCompleted], trivial, ?_, ?_⟩
  · intro e he hcomp
    simp only [List.mem_cons, List.mem_singleton, List.not_mem_nil, or_false] at he
    rcases he with rfl | rfl
    · simp [Emission.isCompleted] at hcomp
    · exact lastPoints_pair A B
  · intro ctl coll hact hcoll hfresh
    have hstart : lastStartPointOf [A, B] = A := (lastPoints_pair A B).1
    have hend : lastEndPointOf [A, B] = B := (lastPoints_pair A B).2
    have hclick1 : (ctl.handleClick eng A).1
        = { ctl with
            m_activeCommand := some (.beam { c with m_points := [A] }),
            emitted := ctl.emitted ++ [.statusMessage (.beamStartPoint A)] } := by
      simp [CADController.handleClick, hact, ActiveCommand.execute, h1, Outcome.map,
        CADController.absorb, CADController.deliver, CADController.onStatusUpdate,
        ActiveCommand.seenWith]
    rw [hclick1]
    have hid : ∀ b : TBeam, b.m_id = ctl.s_nextID →
        TObjectCollection.AddObject coll (.beam b) = coll ++ [.beam b] := by
      intro b hb
      apply AddObject_fresh
      intro x hx
      simpa [TGraphicObject.GetID, hb] using hfresh x hx
    refine ⟨if c.m_useProfile = true then
          (TBeam.new ctl.s_nextID A B).SetProfileSection c.m_profileType c.m_profileSize
        else (TBeam.new ctl.s_nextID A B).SetRectangularSection c.m_width c.m_height,
      ?_, ?_, ?_, hcoll⟩
    · split <;> rfl
    · split <;> rfl
    · simp only [CADController.handleClick, ActiveCommand.execute, h2, Outcome.map,
        CADController.absorb, List.foldl_cons, List.foldl_nil, CADController.deliver,
        CADController.onStatusUpdate, CADController.onCommandCompleted,
        ActiveCommand.seenWith, Option.map_some', hcoll, BeamCommand.getLastStartPoint,
        BeamCommand.getLastEndPoint, hstart, hend]
      rw [hid _ (by split <;> rfl)]
      simp

/-- C8 at a sample input: the controller that has just started a beam command
receives clicks at (0,0,0) and (5000,0,0). -/
theorem C8_beam_completion_witness :
    ∃ b : TBeam, b.m_startPoint = ptO ∧ b.m_endPoint = ptFar ∧
      (((controllerDrawingBeam.handleClick sampleEngine ptO).1.handleClick
        sampleEngine ptFar).1).m_collection = some ([] ++ [.beam b]) ∧
      (controllerDrawingBeam.handleClick sampleEngine ptO).1.m_collection = some [] :=
  (C8_beam_completion sampleEngine beamStarted ptO ptFar (.body 0) rfl
    (by norm_num [gp_Pnt.DistanceLt, gp_Pnt.SquareDistance, ptO, ptFar])
    (fun _ => rfl) rfl).2.2.2.2.2 controllerDrawingBeam [] rfl rfl
    (fun x hx => absurd hx (List.not_mem_nil x))

/-! ## C9: isComplete -/

/-- A point list of length at most one is empty or a single point. -/
theorem points_nil_or_single (pts : List gp_Pnt) (h : pts.length ≤ 1) :
    pts = [] ∨ ∃ A, pts = [A] := by
  cases pts with
  | nil => exact Or.inl rfl
  | cons a t =>
    cases t with
    | nil => exact Or.inr ⟨a, rfl⟩
    | cons b u =>
      simp only [List.length_cons] at h
      omega

/-- C9 as stated fails: the beam command holding (0,0,0) accepts (5000,0,0)
as its second point, builds the beam and emits commandCompleted, and when
that execute call has returned isComplete() is false. -/
theorem C9_counterexample :
    beamHoldingO.m_points = [ptO] ∧
    (BeamCommand.execute sampleEngine.createBeam beamHoldingO ptFar).completions = 1 ∧
    (BeamCommand.execute sampleEngine.createBeam beamHoldingO ptFar).threw = false ∧
    (BeamCommand.execute sampleEngine.createBeam beamHoldingO ptFar).cmd.isComplete = false := by
  norm_num [BeamCommand.execute, BeamCommand.isComplete, beamHoldingO, BeamCommand.new,
    gp_Pnt.DistanceLt, gp_Pnt.SquareDistance, Outcome.completions, Emission.isCompleted, ptO,
    ptFar, sampleEngine, CADCommand.clearPreview, CADCommand.new, TopoDS_Shape.IsNull]

/-- C9 amended: a Beam or Slab command holds at most one point between calls
(a new command holds none; start and cancel leave the points alone), and
after every execute call that returns it again holds at most one point, so
isComplete() is false, also after the call that accepted the second point.
isComplete() can be true only while an execute call is running: whenever
commandCompleted is emitted the command holds two points, which are cleared
before the call returns.  A beam execute always returns; a slab execute fails
to return only when the geometry engine throws. -/
theorem C9_isComplete_only_during_execute (eng : GeometryEngine) :
    (BeamCommand.new.m_points = [] ∧ SlabCommand.new.m_points = []) ∧
    (∀ c : BeamCommand, c.start.cmd.m_points = c.m_points ∧
      c.cancel.cmd.m_points = c.m_points) ∧
    (∀ c : SlabCommand, c.start.cmd.m_points = c.m_points ∧
      c.cancel.cmd.m_points = c.m_points) ∧
    (∀ (c : BeamCommand) (p : gp_Pnt), c.m_points.length ≤ 1 →
      (BeamCommand.execute eng.createBeam c p).threw = false ∧
      (BeamCommand.execute eng.createBeam c p).cmd.m_points.length ≤ 1 ∧
      (BeamCommand.execute eng.createBeam c p).cmd.isComplete = false ∧
      ∀ e ∈ (BeamCommand.execute eng.createBeam c p).emitted, e.isCompleted = true →
        BeamCommand.isComplete { c with m_points := e.points } = true) ∧
    (∀ (c : SlabCommand) (p : gp_Pnt), c.m_points.length ≤ 1 →
      (SlabCommand.execute eng.createSlab c p).threw = false →
      (SlabCommand.execute eng.createSlab c p).cmd.m_points.length ≤ 1 ∧
      (SlabCommand.execute eng.createSlab c p).cmd.isComplete = false ∧
      ∀ e ∈ (SlabCommand.execute eng.createSlab c p).emitted, e.isCompleted = true →
        SlabCommand.isComplete { c with m_points := e.points } = true) := by
  refine ⟨⟨rfl, rfl⟩, fun c => ⟨rfl, rfl⟩, fun c => ⟨rfl, rfl⟩, ?_, ?_⟩
  · intro c p hlen
    rcases points_nil_or_single c.m_points hlen with hc | ⟨A, hc⟩
    · simp [BeamCommand.execute, BeamCommand.isComplete, hc, Emission.isCompleted]
    · by_cases hclose : gp_Pnt.DistanceLt A p 1
      · simp [BeamCommand.execute, BeamCommand.isComplete, hc, hclose, Emission.isCompleted]
      · cases hres : eng.createBeam
            { c with m_points := [A, p], base := c.base.clearPreview } A p with
        | thrown =>
          simp [BeamCommand.execute, BeamCommand.isComplete, hc, hclose, hres,
            Emission.isCompleted]
        | returned shape =>
          cases shape with
          | null =>
            simp [BeamCommand.execute, BeamCommand.isComplete, hc, hclose, hres,
              Emission.isCompleted, TopoDS_Shape.IsNull]
          | body tag =>
            simp [BeamCommand.execute, BeamCommand.isComplete, hc, hclose, hres,
              Emission.isCompleted, TopoDS_Shape.IsNull]
  · intro c p hlen
    rcases points_nil_or_single c.m_points hlen with hc | ⟨A, hc⟩
    · simp [SlabCommand.execute, SlabCommand.isComplete, hc, Emission.isCompleted]
    · cases hres : eng.createSlab { c with m_points := [A, p] } A p with
      | thrown => simp [SlabCommand.execute, hc, hres]
      | returned shape =>
        simp [SlabCommand.execute, SlabCommand.isComplete, hc, hres, Emission.isCompleted]

/-- C9 amended, at a sample input: the beam command holding (0,0,0) is fed
(5000,0,0). -/
theorem C9_isComplete_only_during_execute_witness :
    (BeamCommand.execute sampleEngine.createBeam beamHoldingO ptFar).threw = false ∧
      (BeamCommand.execute sampleEngine.createBeam beamHoldingO ptFar).cmd.m_points.length ≤ 1 ∧
      (BeamCommand.execute sampleEngine.createBeam beamHoldingO ptFar).cmd.isComplete = false ∧
      ∀ e ∈ (BeamCommand.execute sampleEngine.createBeam beamHoldingO ptFar).emitted,
        e.isCompleted = true →
        BeamCommand.isComplete { beamHoldingO with m_points := e.points } = true :=
  (C9_isComplete_only_during_execute sampleEngine).2.2.2.1 beamHoldingO ptFar
    (by norm_num [BeamCommand.execute, beamHoldingO, BeamCommand.new])

/-! ## C10: a slab corner too close to the first corner -/

/-- A slab command holding one corner builds and completes on any second
point for which the engine returns a shape; the distance between the corners
is not looked at. -/
theorem slab_second_point_completes (createSlab : SlabCommand → gp_Pnt → gp_Pnt → GeomResult)
    (c : SlabCommand) (A p : gp_Pnt) (shape : TopoDS_Shape) (hc : c.m_points = [A])
    (heng : ∀ cmd, createSlab cmd A p = .returned shape) :
    (SlabCommand.execute createSlab c p).emitted
      = [⟨.statusUpdate .slabCreated, [A, p]⟩, ⟨.commandCompleted shape, [A, p]⟩] ∧
    (SlabCommand.execute createSlab c p).displayed = [shape] ∧
    (SlabCommand.execute createSlab c p).cmd.m_points = [] := by
  simp [SlabCommand.execute, hc, heng]

/-- C10 fails in the code for the Slab command: holding the corner (0,0,0)
and fed (0.3,0.4,0), half a millimetre away, it displays the slab and emits
commandCompleted; fed the same corner (0,0,0) again it calls the engine for a
zero-area slab and, the engine returning, does the same.  The Beam command
rejects (0.3,0.4,0) after (0,0,0): no shape, no completion. -/
theorem C10_slab_accepts_close_point :
    slabHoldingO.m_points = [ptO] ∧ gp_Pnt.DistanceLt ptO ptNear 1 ∧
    gp_Pnt.DistanceLt ptO ptO 1 ∧
    (SlabCommand.execute sampleEngine.createSlab slabHoldingO ptNear).completions = 1 ∧
    (SlabCommand.execute sampleEngine.createSlab slabHoldingO ptNear).displayed
      = [TopoDS_Shape.body 0] ∧
    (SlabCommand.execute sampleEngine.createSlab slabHoldingO ptO).completions = 1 ∧
    (SlabCommand.execute sampleEngine.createSlab slabHoldingO ptO).displayed
      = [TopoDS_Shape.body 0] ∧
    (BeamCommand.execute sampleEngine.createBeam beamHoldingO ptNear).completions = 0 ∧
    (BeamCommand.execute sampleEngine.createBeam beamHoldingO ptNear).displayed = [] := by
  norm_num [SlabCommand.execute, slabHoldingO, SlabCommand.new, BeamCommand.execute,
    beamHoldingO, BeamCommand.new, gp_Pnt.DistanceLt, gp_Pnt.SquareDistance,
    Outcome.completions, Emission.isCompleted, ptO, ptNear, sampleEngine,
    CADCommand.clearPreview, CADCommand.new, TopoDS_Shape.IsNull]

/-! ## C12: candidates at the tolerance -/

/-- The first-pass and second-pass kinds are kinds of a snap: none of them is
`None`. -/
theorem priority_ne_None (t : SnapType)
    (h : t.isHighPriority = true ∨ t.isLowPriority = true) : t ≠ SnapType.None := by
  intro h0
  rw [h0] at h
  rcases h with h | h <;> exact absurd h (by decide)

/-- C12 as stated fails at the tolerance itself: with a world tolerance of
10 mm the only candidate, an Endpoint exactly 10 mm away, passes the filter
(its distance does not exceed the tolerance) and the result is still
'no snap'. -/
theorem C12_counterexample :
    endpointAt10.distance ≤ 10 ∧
    findSnapPoint_filter [endpointAt10] 10 = [endpointAt10] ∧
    (findSnapPoint_bestSnap (findSnapPoint_filter [endpointAt10] 10) 10).type = SnapType.None := by
  norm_num [findSnapPoint_filter, findSnapPoint_bestSnap, findSnapPoint_step,
    SnapType.isHighPriority, SnapType.isLowPriority, endpointAt10, SnapPoint.empty]

/-- C12 amended: the filter of findSnapPoint removes exactly the candidates
whose distance exceeds the world tolerance, but the selection after it
returns a snap only for a distance strictly below the tolerance: the result
is a snap (not of kind None) if and only if some candidate of kind Endpoint,
Midpoint, Vertex, Center or Nearest has distance strictly less than the
world tolerance; in particular it is 'no snap' when every candidate's
distance exceeds the tolerance, and also when the closest candidates are
exactly at the tolerance. -/
theorem C12_snap_iff_strictly_within (candidates : List SnapPoint) (worldTolerance : ℚ) :
    (∀ c, c ∈ findSnapPoint_filter candidates worldTolerance ↔
      (c ∈ candidates ∧ c.distance ≤ worldTolerance)) ∧
    ((findSnapPoint_bestSnap (findSnapPoint_filter candidates worldTolerance)
        worldTolerance).type ≠ SnapType.None ↔
      ∃ c ∈ candidates, (c.type.isHighPriority = true ∨ c.type.isLowPriority = true) ∧
        c.distance < worldTolerance) ∧
    ((∀ c ∈ candidates, worldTolerance ≤ c.distance) →
      findSnapPoint_bestSnap (findSnapPoint_filter candidates worldTolerance) worldTolerance
        = { SnapPoint.empty with distance := worldTolerance }) := by
  have hmem : ∀ c, c ∈ findSnapPoint_filter candidates worldTolerance ↔
      (c ∈ candidates ∧ c.distance ≤ worldTolerance) := by
    intro c
    simp [findSnapPoint_filter, List.mem_filter]
  have hnone : (∀ c ∈ candidates, (c.type.isHighPriority = true ∨ c.type.isLowPriority = true) →
      ¬ c.distance < worldTolerance) →
      findSnapPoint_bestSnap (findSnapPoint_filter candidates worldTolerance) worldTolerance
        = { SnapPoint.empty with distance := worldTolerance } := by
    intro hno
    have h1 : (findSnapPoint_filter candidates worldTolerance).foldl
        (findSnapPoint_step SnapType.isHighPriority)
        { SnapPoint.empty with distance := worldTolerance }
        = { SnapPoint.empty with distance := worldTolerance } :=
      findSnapPoint_loop_keeps _ _ _
        (fun c hc hpc => hno c ((hmem c).1 hc).1 (Or.inl hpc))
    unfold findSnapPoint_bestSnap
    simp only [h1]
    rw [if_pos (by rfl)]
    exact findSnapPoint_loop_keeps _ _ _
      (fun c hc hpc => hno c ((hmem c).1 hc).1 (Or.inr hpc))
  refine ⟨hmem, ⟨?_, ?_⟩, ?_⟩
  · intro hsnap
    by_contra hex
    apply hsnap
    rw [hnone (fun c hc hk hlt => hex ⟨c, hc, hk, hlt⟩)]
    rfl
  · rintro ⟨c, hc, hk, hlt⟩
    have hcf : c ∈ findSnapPoint_filter candidates worldTolerance := (hmem c).2 ⟨hc, hlt.le⟩
    by_cases hhigh : ∃ d ∈ findSnapPoint_filter candidates worldTolerance,
        d.type.isHighPriority = true ∧ d.distance < worldTolerance
    · obtain ⟨pre, d, post, _, hpd, _, hfold, _, _⟩ :=
        findSnapPoint_loop_picks SnapType.isHighPriority
          (findSnapPoint_filter candidates worldTolerance)
          { SnapPoint.empty with distance := worldTolerance } hhigh
      have hne := priority_ne_None d.type (Or.inl hpd)
      unfold findSnapPoint_bestSnap
      simp only [hfold]
      rw [if_neg hne]
      exact hne
    · have hlow : c.type.isLowPriority = true := by
        rcases hk with hk | hk
        · exact absurd ⟨c, hcf, hk, hlt⟩ hhigh
        · exact hk
      have h1 : (findSnapPoint_filter candidates worldTolerance).foldl
          (findSnapPoint_step SnapType.isHighPriority)
          { SnapPoint.empty with distance := worldTolerance }
          = { SnapPoint.empty with distance := worldTolerance } :=
        findSnapPoint_loop_keeps _ _ _ (fun d hd hpd hlt2 => hhigh ⟨d, hd, hpd, hlt2⟩)
      obtain ⟨pre, d, post, _, hpd, _, hfold, _, _⟩ :=
        findSnapPoint_loop_picks SnapType.isLowPriority
          (findSnapPoint_filter candidates worldTolerance)
          { SnapPoint.empty with distance := worldTolerance } ⟨c, hcf, hlow, hlt⟩
      unfold findSnapPoint_bestSnap
      simp only [h1]
      rw [if_pos (by rfl), hfold]
      exact priority_ne_None d.type (Or.inr hpd)
  · intro hall
    exact hnone (fun c hc _ hlt => absurd hlt (not_lt.2 (hall c hc)))

/-- C12 amended, at a sample input: the Endpoint 10 mm away is selected under
a tolerance of 25 mm, every candidate being beyond a tolerance of 2 mm gives
'no snap'. -/
theorem C12_snap_iff_strictly_within_witness :
    (findSnapPoint_bestSnap (findSnapPoint_filter [endpointAt10, nearestAt5] 25) 25).type
      ≠ SnapType.None ∧
    findSnapPoint_bestSnap (findSnapPoint_filter [endpointAt10, nearestAt5] 2) 2
      = { SnapPoint.empty with distance := 2 } :=
  ⟨(C12_snap_iff_strictly_within [endpointAt10, nearestAt5] 25).2.1.2
      ⟨endpointAt10, List.mem_cons_self _ _, Or.inl (by decide), by norm_num [endpointAt10]⟩,
    (C12_snap_iff_strictly_within [endpointAt10, nearestAt5] 2).2.2 (by
      intro c hc
      simp only [List.mem_cons, List.mem_singleton, List.not_mem_nil, or_false] at hc
      rcases hc with rfl | rfl <;> norm_num [endpointAt10, nearestAt5])⟩

/-! ## C13: WorkPlane::setOffset -/

/-- The origin of a work plane is the same before and after `setOffset`: the
displacement is computed from the offset already overwritten. -/
theorem setOffset_keeps_origin (w : WorkPlane) (offset : ℚ) :
    (w.setOffset offset).getOrigin = w.getOrigin ∧
    (w.setOffset offset).getNormal = w.getNormal ∧
    (w.setOffset offset).getOffset = offset := by
  refine ⟨?_, rfl, rfl⟩
  simp [WorkPlane.setOffset, WorkPlane.getOrigin]

/-- C13 fails in the code: on the XY plane with offset 0, setOffset(1000)
leaves the origin at (0,0,0) instead of moving it to (0,0,1000); the normal
stays (0,0,1) and getOffset() returns 1000. -/
theorem C13_setOffset_origin_unmoved :
    (WorkPlane.ofType PlaneType.XY).getOffset = 0 ∧
    ((WorkPlane.ofType PlaneType.XY).setOffset 1000).getOrigin = ⟨0, 0, 0⟩ ∧
    ((WorkPlane.ofType PlaneType.XY).setOffset 1000).getOrigin ≠ ⟨0, 0, 1000⟩ ∧
    ((WorkPlane.ofType PlaneType.XY).setOffset 1000).getNormal = ⟨0, 0, 1⟩ ∧
    ((WorkPlane.ofType PlaneType.XY).setOffset 1000).getOffset = 1000 := by
  norm_num [WorkPlane.setOffset, WorkPlane.ofType, WorkPlane.getOrigin, WorkPlane.getNormal,
    WorkPlane.getOffset]

/-! ## C20: the canonical work planes -/

/-- C20: WorkPlane(XY), WorkPlane(XZ) and WorkPlane(YZ) have origin (0,0,0),
offset 0 and the type they were built with; their normals are (0,0,1),
(0,1,0) and (1,0,0), each of unit length. -/
theorem C20_canonical_planes :
    ((WorkPlane.ofType PlaneType.XY).getType = PlaneType.XY ∧
      (WorkPlane.ofType PlaneType.XY).getOrigin = ⟨0, 0, 0⟩ ∧
      (WorkPlane.ofType PlaneType.XY).getOffset = 0 ∧
      (WorkPlane.ofType PlaneType.XY).getNormal = ⟨0, 0, 1⟩ ∧
      (WorkPlane.ofType PlaneType.XY).getNormal.IsUnit) ∧
    ((WorkPlane.ofType PlaneType.XZ).getType = PlaneType.XZ ∧
      (WorkPlane.ofType PlaneType.XZ).getOrigin = ⟨0, 0, 0⟩ ∧
      (WorkPlane.ofType PlaneType.XZ).getOffset = 0 ∧
      (WorkPlane.ofType PlaneType.XZ).getNormal = ⟨0, 1, 0⟩ ∧
      (WorkPlane.ofType PlaneType.XZ).getNormal.IsUnit) ∧
    ((WorkPlane.ofType PlaneType.YZ).getType = PlaneType.YZ ∧
      (WorkPlane.ofType PlaneType.YZ).getOrigin = ⟨0, 0, 0⟩ ∧
      (WorkPlane.ofType PlaneType.YZ).getOffset = 0 ∧
      (WorkPlane.ofType PlaneType.YZ).getNormal = ⟨1, 0, 0⟩ ∧
      (WorkPlane.ofType PlaneType.YZ).getNormal.IsUnit) := by
  refine ⟨⟨rfl, rfl, rfl, rfl, ?_⟩, ⟨rfl, rfl, rfl, rfl, ?_⟩, ⟨rfl, rfl, rfl, rfl, ?_⟩⟩ <;>
    norm_num [WorkPlane.ofType, WorkPlane.getNormal, gp_Dir.IsUnit]

/-! ## C15: updatePreview leaves the collected points alone -/

/-- C15: for a Beam, Slab or Column command in any state and every point p,
updatePreview(p) leaves the collected points (for a column: the base point
and the point-set flag) and the value of isComplete() unchanged; it emits no
completion and lets no exception out. -/
theorem C15_updatePreview_frame (makeWire : List gp_Pnt → WireResult) (p : gp_Pnt) :
    (∀ (hasViewer : Bool) (updateCounter : ℕ) (c : BeamCommand),
      (c.updatePreview hasViewer updateCounter p).outcome.cmd.m_points = c.m_points ∧
      (c.updatePreview hasViewer updateCounter p).outcome.cmd.isComplete = c.isComplete ∧
      (c.updatePreview hasViewer updateCounter p).outcome.completions = 0 ∧
      (c.updatePreview hasViewer updateCounter p).outcome.threw = false) ∧
    (∀ c : SlabCommand,
      (c.updatePreview makeWire p).cmd.m_points = c.m_points ∧
      (c.updatePreview makeWire p).cmd.isComplete = c.isComplete ∧
      (c.updatePreview makeWire p).completions = 0 ∧
      (c.updatePreview makeWire p).threw = false) ∧
    (∀ c : ColumnCommand,
      (c.updatePreview makeWire p).cmd.m_basePoint = c.m_basePoint ∧
      (c.updatePreview makeWire p).cmd.m_pointSet = c.m_pointSet ∧
      (c.updatePreview makeWire p).cmd.isComplete = c.isComplete ∧
      (c.updatePreview makeWire p).completions = 0 ∧
      (c.updatePreview makeWire p).threw = false) := by
  refine ⟨?_, ?_, ?_⟩
  · intro hasViewer updateCounter c
    simp only [BeamCommand.updatePreview]
    split_ifs <;>
      simp [BeamCommand.isComplete, Outcome.completions, Emission.isCompleted]
  · intro c
    simp only [SlabCommand.updatePreview]
    split_ifs
    · simp [SlabCommand.isComplete, Outcome.completions, Emission.isCompleted]
    · cases makeWire _ <;>
        simp [SlabCommand.isComplete, Outcome.completions, Emission.isCompleted]
    · simp [SlabCommand.isComplete, Outcome.completions, Emission.isCompleted]
  · intro c
    simp only [ColumnCommand.updatePreview]
    split_ifs
    · simp [ColumnCommand.isComplete, Outcome.completions, Emission.isCompleted]
    · cases makeWire _ <;>
        simp [ColumnCommand.isComplete, Outcome.completions, Emission.isCompleted]
    · simp [ColumnCommand.isComplete, Outcome.completions, Emission.isCompleted]

/-! ## C16: required point counts -/

/-- C16 as stated fails when the geometry engine does not build the shape:
a fresh slab command fed (0,0,0) and then (0,5,0), five millimetres away,
asks for a box of zero length; with an engine that throws for such a box no
completion is emitted on the second point. -/
theorem C16_counterexample :
    ¬ gp_Pnt.DistanceLt ptO ptAlongY 1 ∧
    (SlabCommand.execute boxCheckingEngine.createSlab SlabCommand.new ptO).completions = 0 ∧
    (SlabCommand.execute boxCheckingEngine.createSlab
      (SlabCommand.execute boxCheckingEngine.createSlab SlabCommand.new ptO).cmd
      ptAlongY).completions = 0 ∧
    (SlabCommand.execute boxCheckingEngine.createSlab
      (SlabCommand.execute boxCheckingEngine.createSlab SlabCommand.new ptO).cmd
      ptAlongY).threw = true := by
  norm_num [SlabCommand.execute, SlabCommand.new, boxCheckingEngine, gp_Pnt.DistanceLt,
    gp_Pnt.SquareDistance, Outcome.completions, Emission.isCompleted, ptO, ptAlongY,
    Precision.Confusion, CADCommand.new]

/-- C16 amended: provided the geometry engine builds the requested shape
(returns it; non-null for a beam), a Column command emits completion on every
execute(p), so on its first; a Beam or Slab command without points, fed two
points at least 1 mm apart, emits no completion on the first execute and
exactly one on the second. -/
theorem C16_required_point_counts (eng : GeometryEngine) :
    (∀ (c : ColumnCommand) (p : gp_Pnt) (shape : TopoDS_Shape),
      (∀ cmd, eng.createColumn cmd p = .returned shape) →
      (ColumnCommand.execute eng.createColumn c p).completions = 1) ∧
    (∀ (c : BeamCommand) (A B : gp_Pnt) (shape : TopoDS_Shape), c.m_points = [] →
      ¬ gp_Pnt.DistanceLt A B 1 → (∀ cmd, eng.createBeam cmd A B = .returned shape) →
      shape.IsNull = false →
      (BeamCommand.execute eng.createBeam c A).completions = 0 ∧
      (BeamCommand.execute eng.createBeam
        (BeamCommand.execute eng.createBeam c A).cmd B).completions = 1) ∧
    (∀ (c : SlabCommand) (A B : gp_Pnt) (shape : TopoDS_Shape), c.m_points = [] →
      ¬ gp_Pnt.DistanceLt A B 1 → (∀ cmd, eng.createSlab cmd A B = .returned shape) →
      (SlabCommand.execute eng.createSlab c A).completions = 0 ∧
      (SlabCommand.execute eng.createSlab
        (SlabCommand.execute eng.createSlab c A).cmd B).completions = 1) := by
  refine ⟨?_, ?_, ?_⟩
  · intro c p shape heng
    simp [ColumnCommand.execute, heng, Outcome.completions, Emission.isCompleted]
  · intro c A B shape hc hfar heng hnn
    simp [BeamCommand.execute, hc, hfar, heng, hnn, Outcome.completions, Emission.isCompleted]
  · intro c A B shape hc _ heng
    simp [SlabCommand.execute, hc, heng, Outcome.completions, Emission.isCompleted]

/-- C16 amended, at a sample input: a fresh column command fed (1000,2000,0)
with an engine that returns a body. -/
theorem C16_required_point_counts_witness :
    (ColumnCommand.execute sampleEngine.createColumn ColumnCommand.new ptClick).completions = 1 :=
  (C16_required_point_counts sampleEngine).1 ColumnCommand.new ptClick (.body 0) (fun _ => rfl)

/-! ## C17: number of collected points -/

/-- A beam command holding at most one point holds at most two points while
`execute` runs and at most one when it has returned; `start`, `cancel` and
`updatePreview` do not touch the points. -/
theorem beam_points_bounded (createBeam : BeamCommand → gp_Pnt → gp_Pnt → GeomResult)
    (c : BeamCommand) (p : gp_Pnt) (h : c.m_points.length ≤ 1) :
    (c.m_points ++ [p]).length ≤ 2 ∧
    (BeamCommand.execute createBeam c p).cmd.m_points.length ≤ 1 ∧
    (∀ e ∈ (BeamCommand.execute createBeam c p).emitted, e.points.length ≤ 2) ∧
    c.start.cmd.m_points = c.m_points ∧ c.cancel.cmd.m_points = c.m_points ∧
    (∀ hasViewer updateCounter,
      (c.updatePreview hasViewer updateCounter p).outcome.cmd.m_points = c.m_points) := by
  have hupd : ∀ hasViewer updateCounter,
      (c.updatePreview hasViewer updateCounter p).outcome.cmd.m_points = c.m_points := by
    intro hasViewer updateCounter
    simp only [BeamCommand.updatePreview]
    split_ifs <;> rfl
  have hexec : (BeamCommand.execute createBeam c p).cmd.m_points.length ≤ 1 ∧
      (∀ e ∈ (BeamCommand.execute createBeam c p).emitted, e.points.length ≤ 2) := by
    rcases points_nil_or_single c.m_points h with hc | ⟨A, hc⟩
    · simp [BeamCommand.execute, hc]
    · by_cases hclose : gp_Pnt.DistanceLt A p 1
      · simp [BeamCommand.execute, hc, hclose]
      · cases hres : createBeam
            { c with m_points := [A, p], base := c.base.clearPreview } A p with
        | thrown => simp [BeamCommand.execute, hc, hclose, hres]
        | returned shape =>
          cases shape <;>
            simp [BeamCommand.execute, hc, hclose, hres, TopoDS_Shape.IsNull]
  refine ⟨by simp only [List.length_append, List.length_singleton]; omega, hexec.1, hexec.2,
    rfl, rfl, hupd⟩

/-- C17 fails in the code for the Slab command: fed the same corner (0,0,0)
twice, it asks the engine for a box of zero extent; the engine throws, nothing
catches it in execute and the two points stay collected, so the next point
(5000,0,0) is appended as a third one. -/
theorem C17_slab_collects_three_points :
    (SlabCommand.execute boxCheckingEngine.createSlab slabHoldingO ptO).threw = true ∧
    (SlabCommand.execute boxCheckingEngine.createSlab slabHoldingO ptO).cmd.m_points
      = [ptO, ptO] ∧
    (SlabCommand.execute boxCheckingEngine.createSlab
      (SlabCommand.execute boxCheckingEngine.createSlab slabHoldingO ptO).cmd ptFar).cmd.m_points
      = [ptO, ptO, ptFar] ∧
    (SlabCommand.execute boxCheckingEngine.createSlab
      (SlabCommand.execute boxCheckingEngine.createSlab slabHoldingO ptO).cmd
      ptFar).cmd.m_points.length = 3 ∧
    (SlabCommand.execute boxCheckingEngine.createSlab
      (SlabCommand.execute boxCheckingEngine.createSlab slabHoldingO ptO).cmd
      ptFar).completions = 0 := by
  norm_num [SlabCommand.execute, slabHoldingO, SlabCommand.new, boxCheckingEngine, sampleEngine,
    Outcome.completions, Emission.isCompleted, ptO, ptFar, Precision.Confusion, CADCommand.new]

/-! ## C19: the object added on completion -/

/-- C19 fails in the code for columns and slabs.  The controller that has
started a column command and receives a click at (1000,2000,0) adds a TColumn
whose base point is (0,0,0); the controller that has started a slab command
and receives clicks at (1000,2000,0) and (4000,6000,0) adds a TSlab with
corners (0,0,0) and (5000,5000,0). -/
theorem C19_column_slab_not_from_points :
    controllerIdle.startColumnCommand = .ok controllerDrawingColumn ∧
    (controllerDrawingColumn.handleClick sampleEngine ptClick).1.m_collection
      = some [.column (TColumn.new 1)] ∧
    (TColumn.new 1).m_basePoint = ⟨0, 0, 0⟩ ∧ (TColumn.new 1).m_basePoint ≠ ptClick ∧
    controllerIdle.startSlabCommand = .ok controllerDrawingSlab ∧
    ((controllerDrawingSlab.handleClick sampleEngine ptClick).1.handleClick
      sampleEngine ptClick2).1.m_collection = some [.slab (TSlab.new 1)] ∧
    (TSlab.new 1).m_corner1 = ⟨0, 0, 0⟩ ∧ (TSlab.new 1).m_corner2 = ⟨5000, 5000, 0⟩ ∧
    (TSlab.new 1).m_corner1 ≠ ptClick ∧ (TSlab.new 1).m_corner2 ≠ ptClick2 := by
  refine ⟨rfl, ?_, rfl, ?_, rfl, ?_, rfl, rfl, ?_, ?_⟩
  · simp [CADController.handleClick, controllerDrawingColumn, controllerIdle,
      CADController.new, ActiveCommand.execute, ColumnCommand.execute, sampleEngine,
      Outcome.map, CADController.absorb, CADController.deliver, CADController.onStatusUpdate,
      CADController.onCommandCompleted, ActiveCommand.seenWith, TObjectCollection.AddObject]
  · norm_num [TColumn.new, ptClick, gp_Pnt.mk.injEq]
  · simp [CADController.handleClick, controllerDrawingSlab, controllerIdle, slabStarted,
      SlabCommand.start, SlabCommand.setThickness, SlabCommand.new,
      CADController.new, ActiveCommand.execute, SlabCommand.execute, sampleEngine,
      Outcome.map, CADController.absorb, CADController.deliver, CADController.onStatusUpdate,
      CADController.onCommandCompleted, ActiveCommand.seenWith, TObjectCollection.AddObject]
  · norm_num [TSlab.new, ptClick, gp_Pnt.mk.injEq]
  · norm_num [TSlab.new, ptClick2, gp_Pnt.mk.injEq]

/-! ## C11: the closest cached feature on screen -/

/-- One round of the inner loop of `findSnapPointFromObjects` for a
projection that returns. -/
theorem findSnapPointFromObjects_object_cons (proj : gp_Pnt → ℤ × ℤ) (x y : ℤ) (tol : ℚ)
    (st : ScreenSearch) (snap : TGraphicObject.SnapPoint)
    (rest : List TGraphicObject.SnapPoint) :
    findSnapPointFromObjects_object (fun p => some (proj p)) x y tol st (snap :: rest)
      = if (0 < tol ∧ featureDistanceSq proj x y snap < tol ^ 2)
            ∧ featureDistanceSq proj x y snap < st.minScreenDistSq then
          findSnapPointFromObjects_object (fun p => some (proj p)) x y tol
            ⟨⟨snap.point, findSnapPointFromObjects_type snap.type, snap.description,
                featureDistanceSq proj x y snap⟩, featureDistanceSq proj x y snap⟩ rest
        else findSnapPointFromObjects_object (fun p => some (proj p)) x y tol st rest := by
  rcases h : proj snap.point with ⟨a, b⟩
  simp [findSnapPointFromObjects_object, featureDistanceSq, h]

/-- The inner loop returns its starting state when no feature is both below
the tolerance and closer than the best so far. -/
theorem findSnapPointFromObjects_object_keeps (proj : gp_Pnt → ℤ × ℤ) (x y : ℤ) (tol : ℚ)
    (l : List TGraphicObject.SnapPoint) (st : ScreenSearch)
    (h : ∀ f ∈ l, ¬ ((0 < tol ∧ featureDistanceSq proj x y f < tol ^ 2)
      ∧ featureDistanceSq proj x y f < st.minScreenDistSq)) :
    findSnapPointFromObjects_object (fun p => some (proj p)) x y tol st l = st := by
  induction l with
  | nil => rfl
  | cons a rest ih =>
    rw [findSnapPointFromObjects_object_cons, if_neg (h a (List.mem_cons_self _ _))]
    exact ih (fun f hf => h f (List.mem_cons_of_mem _ hf))

/-- The inner loop, when some feature is below the tolerance and closer than
the best so far, ends on such a feature of least pixel distance among the
features below the tolerance. -/
theorem findSnapPointFromObjects_object_picks (proj : gp_Pnt → ℤ × ℤ) (x y : ℤ) (tol : ℚ)
    (l : List TGraphicObject.SnapPoint) :
    ∀ st : ScreenSearch,
    (∃ f ∈ l, (0 < tol ∧ featureDistanceSq proj x y f < tol ^ 2)
      ∧ featureDistanceSq proj x y f < st.minScreenDistSq) →
    ∃ f ∈ l, (0 < tol ∧ featureDistanceSq proj x y f < tol ^ 2)
      ∧ featureDistanceSq proj x y f < st.minScreenDistSq
      ∧ findSnapPointFromObjects_object (fun p => some (proj p)) x y tol st l
        = ⟨⟨f.point, findSnapPointFromObjects_type f.type, f.description,
            featureDistanceSq proj x y f⟩, featureDistanceSq proj x y f⟩
      ∧ ∀ g ∈ l, (0 < tol ∧ featureDistanceSq proj x y g < tol ^ 2) →
          featureDistanceSq proj x y f ≤ featureDistanceSq proj x y g := by
  induction l with
  | nil =>
    rintro st ⟨f, hf, _⟩
    exact absurd hf (List.not_mem_nil f)
  | cons a rest ih =>
    intro st hex
    rw [findSnapPointFromObjects_object_cons]
    by_cases ha : (0 < tol ∧ featureDistanceSq proj x y a < tol ^ 2)
        ∧ featureDistanceSq proj x y a < st.minScreenDistSq
    · rw [if_pos ha]
      by_cases hrest : ∃ f ∈ rest, (0 < tol ∧ featureDistanceSq proj x y f < tol ^ 2)
          ∧ featureDistanceSq proj x y f < featureDistanceSq proj x y a
      · obtain ⟨f, hf, hw, hlt, hres, hmin⟩ :=
          ih ⟨⟨a.point, findSnapPointFromObjects_type a.type, a.description,
            featureDistanceSq proj x y a⟩, featureDistanceSq proj x y a⟩ hrest
        refine ⟨f, List.mem_cons_of_mem _ hf, hw, lt_trans hlt ha.2, hres, ?_⟩
        intro g hg hwg
        rcases List.mem_cons.1 hg with rfl | hg
        · exact le_of_lt hlt
        · exact hmin g hg hwg
      · refine ⟨a, List.mem_cons_self _ _, ha.1, ha.2, ?_, ?_⟩
        · exact findSnapPointFromObjects_object_keeps proj x y tol rest _
            (fun f hf hc => hrest ⟨f, hf, hc⟩)
        · intro g hg hwg
          rcases List.mem_cons.1 hg with rfl | hg
          · exact le_refl _
          · exact not_lt.1 (fun hlt => hrest ⟨g, hg, hwg, hlt⟩)
    · rw [if_neg ha]
      have hrest : ∃ f ∈ rest, (0 < tol ∧ featureDistanceSq proj x y f < tol ^ 2)
          ∧ featureDistanceSq proj x y f < st.minScreenDistSq := by
        obtain ⟨f, hf, hc⟩ := hex
        rcases List.mem_cons.1 hf with rfl | hf
        · exact absurd hc ha
        · exact ⟨f, hf, hc⟩
      obtain ⟨f, hf, hw, hlt, hres, hmin⟩ := ih st hrest
      refine ⟨f, List.mem_cons_of_mem _ hf, hw, hlt, hres, ?_⟩
      intro g hg hwg
      rcases List.mem_cons.1 hg with rfl | hg
      · exact le_of_lt (lt_of_lt_of_le hlt (not_lt.1 (fun h => ha ⟨hwg, h⟩)))
      · exact hmin g hg hwg

/-- The inner loop over two lists in a row is the inner loop over their
concatenation, for a projection that returns. -/
theorem findSnapPointFromObjects_object_append (proj : gp_Pnt → ℤ × ℤ) (x y : ℤ) (tol : ℚ)
    (l1 l2 : List TGraphicObject.SnapPoint) :
    ∀ st : ScreenSearch,
    findSnapPointFromObjects_object (fun p => some (proj p)) x y tol st (l1 ++ l2)
      = findSnapPointFromObjects_object (fun p => some (proj p)) x y tol
          (findSnapPointFromObjects_object (fun p => some (proj p)) x y tol st l1) l2 := by
  induction l1 with
  | nil => intro st; rfl
  | cons a rest ih =>
    intro st
    rw [List.cons_append, findSnapPointFromObjects_object_cons,
      findSnapPointFromObjects_object_cons]
    split_ifs
    · exact ih _
    · exact ih _

/-- The loop over the objects is the inner loop over all cached features. -/
theorem findSnapPointFromObjects_objects (proj : gp_Pnt → ℤ × ℤ) (x y : ℤ) (tol : ℚ)
    (objects : List (Option (List TGraphicObject.SnapPoint))) :
    ∀ st : ScreenSearch,
    objects.foldl
      (fun st obj =>
        match obj with
        | none => st
        | some snapPoints =>
          findSnapPointFromObjects_object (fun p => some (proj p)) x y tol st snapPoints) st
      = findSnapPointFromObjects_object (fun p => some (proj p)) x y tol st
          (cachedFeatures objects) := by
  induction objects with
  | nil => intro st; rfl
  | cons o rest ih =>
    intro st
    cases o with
    | none =>
      rw [List.foldl_cons]
      simpa [cachedFeatures] using ih st
    | some l =>
      rw [List.foldl_cons, ih]
      simp [cachedFeatures, findSnapPointFromObjects_object_append]

/-- The mapped kind of a found feature is never None. -/
theorem findSnapPointFromObjects_type_ne_None (t : ℤ) :
    findSnapPointFromObjects_type t ≠ SnapType.None := by
  unfold findSnapPointFromObjects_type
  split_ifs <;> decide

/-- A pixel distance whose two differences fit a 32-bit integer is below the
starting value 1e10 of `minScreenDist`. -/
theorem pixelDistanceSq_lt_start (sx sy x y : ℤ) (hx : |sx - x| ≤ 2 ^ 31)
    (hy : |sy - y| ≤ 2 ^ 31) :
    pixelDistanceSq sx sy x y < 100000000000000000000 := by
  unfold pixelDistanceSq
  have h1 := abs_le.1 hx
  have h2 := abs_le.1 hy
  have hx2 : (sx - x) * (sx - x) ≤ 2 ^ 62 := by nlinarith [h1.1, h1.2]
  have hy2 : (sy - y) * (sy - y) ≤ 2 ^ 62 := by nlinarith [h2.1, h2.2]
  have h : (sx - x) * (sx - x) + (sy - y) * (sy - y) < (100000000000000000000 : ℤ) := by
    have : (2 : ℤ) ^ 62 + 2 ^ 62 < 100000000000000000000 := by norm_num
    linarith
  exact_mod_cast h

/-- C11: for every collection, every projection that returns, every cursor
pixel and tolerance, with pixel coordinates whose differences to the cursor
fit a 32-bit integer: if some cached feature has pixel distance below the
tolerance, findSnapPointFromObjects returns the point of a cached feature
whose pixel distance is below the tolerance and at most the pixel distance of
every cached feature of every object, with a kind other than None; and it
returns kind None if and only if no cached feature has pixel distance below
the tolerance.  Pixel distances are compared by their squares. -/
theorem C11_findSnapPointFromObjects_closest (tol : ℚ) (x y : ℤ)
    (objects : List (Option (List TGraphicObject.SnapPoint))) (proj : gp_Pnt → ℤ × ℤ)
    (hrange : ∀ f ∈ cachedFeatures objects,
      |(proj f.point).1 - x| ≤ 2 ^ 31 ∧ |(proj f.point).2 - y| ≤ 2 ^ 31) :
    ((∃ f ∈ cachedFeatures objects, 0 < tol ∧ featureDistanceSq proj x y f < tol ^ 2) →
      ∃ f ∈ cachedFeatures objects,
        (SnapManager.findSnapPointFromObjects tol x y (some objects)
          (some (fun p => some (proj p)))).point = f.point ∧
        (SnapManager.findSnapPointFromObjects tol x y (some objects)
          (some (fun p => some (proj p)))).distanceSq = featureDistanceSq proj x y f ∧
        (0 < tol ∧ featureDistanceSq proj x y f < tol ^ 2) ∧
        (∀ g ∈ cachedFeatures objects,
          featureDistanceSq proj x y f ≤ featureDistanceSq proj x y g) ∧
        (SnapManager.findSnapPointFromObjects tol x y (some objects)
          (some (fun p => some (proj p)))).type ≠ SnapType.None) ∧
    ((SnapManager.findSnapPointFromObjects tol x y (some objects)
        (some (fun p => some (proj p)))).type = SnapType.None ↔
      ¬ ∃ f ∈ cachedFeatures objects, 0 < tol ∧ featureDistanceSq proj x y f < tol ^ 2) := by
  have hrun : SnapManager.findSnapPointFromObjects tol x y (some objects)
      (some (fun p => some (proj p)))
      = (findSnapPointFromObjects_object (fun p => some (proj p)) x y tol
          ⟨ScreenSnapPoint.empty, 100000000000000000000⟩ (cachedFeatures objects)).bestSnap := by
    unfold SnapManager.findSnapPointFromObjects
    simp only []
    rw [findSnapPointFromObjects_objects]
  have hstart : ∀ f ∈ cachedFeatures objects,
      featureDistanceSq proj x y f < 100000000000000000000 := fun f hf =>
    pixelDistanceSq_lt_start _ _ _ _ (hrange f hf).1 (hrange f hf).2
  have hfound : (∃ f ∈ cachedFeatures objects, 0 < tol ∧ featureDistanceSq proj x y f < tol ^ 2) →
      ∃ f ∈ cachedFeatures objects,
        (0 < tol ∧ featureDistanceSq proj x y f < tol ^ 2) ∧
        findSnapPointFromObjects_object (fun p => some (proj p)) x y tol
          ⟨ScreenSnapPoint.empty, 100000000000000000000⟩ (cachedFeatures objects)
          = ⟨⟨f.point, findSnapPointFromObjects_type f.type, f.description,
              featureDistanceSq proj x y f⟩, featureDistanceSq proj x y f⟩ ∧
        ∀ g ∈ cachedFeatures objects,
          featureDistanceSq proj x y f ≤ featureDistanceSq proj x y g := by
    rintro ⟨f, hf, hw⟩
    obtain ⟨f1, hf1, hw1, _, hres, hmin⟩ :=
      findSnapPointFromObjects_object_picks proj x y tol (cachedFeatures objects)
        ⟨ScreenSnapPoint.empty, 100000000000000000000⟩ ⟨f, hf, hw, hstart f hf⟩
    refine ⟨f1, hf1, hw1, hres, ?_⟩
    intro g hg
    by_cases hwg : featureDistanceSq proj x y g < tol ^ 2
    · exact hmin g hg ⟨hw1.1, hwg⟩
    · exact le_of_lt (lt_of_lt_of_le hw1.2 (not_lt.1 hwg))
  refine ⟨?_, ?_⟩
  · intro hex
    obtain ⟨f, hf, hw, hres, hmin⟩ := hfound hex
    refine ⟨f, hf, ?_, ?_, hw, hmin, ?_⟩
    · rw [hrun, hres]
    · rw [hrun, hres]
    · rw [hrun, hres]
      exact findSnapPointFromObjects_type_ne_None f.type
  · constructor
    · intro hnone hex
      obtain ⟨f, _, _, hres, _⟩ := hfound hex
      rw [hrun, hres] at hnone
      exact findSnapPointFromObjects_type_ne_None f.type hnone
    · intro hno
      rw [hrun, findSnapPointFromObjects_object_keeps proj x y tol (cachedFeatures objects) _
        (fun f hf hc => hno ⟨f, hf, hc.1⟩)]
      rfl

/-- C11 at a sample input: the sample collection seen from the top, the
cursor at pixel (101,100) and a tolerance of 25 pixels; the result is the
Endpoint cached at (100,100,0), one pixel from the cursor. -/
theorem C11_findSnapPointFromObjects_closest_witness :
    (∃ f ∈ cachedFeatures sampleCollection,
        (SnapManager.findSnapPointFromObjects 25 101 100 (some sampleCollection)
          (some (fun p => some (topViewPixel p)))).point = f.point ∧
        (SnapManager.findSnapPointFromObjects 25 101 100 (some sampleCollection)
          (some (fun p => some (topViewPixel p)))).distanceSq
          = featureDistanceSq topViewPixel 101 100 f ∧
        (0 < (25 : ℚ) ∧ featureDistanceSq topViewPixel 101 100 f < 25 ^ 2) ∧
        (∀ g ∈ cachedFeatures sampleCollection,
          featureDistanceSq topViewPixel 101 100 f ≤ featureDistanceSq topViewPixel 101 100 g) ∧
        (SnapManager.findSnapPointFromObjects 25 101 100 (some sampleCollection)
          (some (fun p => some (topViewPixel p)))).type ≠ SnapType.None) ∧
    (SnapManager.findSnapPointFromObjects 25 101 100 (some sampleCollection)
      (some (fun p => some (topViewPixel p)))).point = ⟨100, 100, 0⟩ := by
  have hr : ∀ f ∈ cachedFeatures sampleCollection,
      |(topViewPixel f.point).1 - 101| ≤ 2 ^ 31 ∧ |(topViewPixel f.point).2 - 100| ≤ 2 ^ 31 := by
    intro f hf
    simp only [cachedFeatures, sampleCollection, List.filterMap_cons, id, List.filterMap_nil,
      List.flatten, List.cons_append, List.nil_append, List.mem_cons, List.mem_singleton,
      List.not_mem_nil, or_false] at hf
    rcases hf with rfl | rfl | rfl <;> norm_num [topViewPixel, abs_le]
  refine ⟨(C11_findSnapPointFromObjects_closest 25 101 100 sampleCollection topViewPixel hr).1
    ⟨⟨⟨100, 100, 0⟩, 1, "Point 0"⟩, by simp [cachedFeatures, sampleCollection],
      by norm_num, by norm_num [featureDistanceSq, pixelDistanceSq, topViewPixel]⟩, ?_⟩
  norm_num [SnapManager.findSnapPointFromObjects, sampleCollection,
    findSnapPointFromObjects_object, pixelDistanceSq, topViewPixel, ScreenSnapPoint.empty]

/-! ## C14: the world tolerance of findSnapPoint -/

/-- The test `|rayDir·n| < ε` on a direction divided by its length agrees
with its squared form on the direction itself. -/
theorem normalized_dot_lt_iff (vn vv ε : ℝ) (hvv : 0 < vv) (hε : 0 < ε) :
    |vn / Real.sqrt vv| < ε ↔ vn ^ 2 < ε ^ 2 * vv := by
  have hs : 0 < Real.sqrt vv := Real.sqrt_pos.2 hvv
  have hss : Real.sqrt vv ^ 2 = vv := Real.sq_sqrt hvv.le
  rw [abs_div, abs_of_pos hs, div_lt_iff₀ hs,
    show ε ^ 2 * vv = (ε * Real.sqrt vv) ^ 2 by rw [mul_pow, hss], sq_lt_sq,
    abs_of_pos (mul_pos hε hs)]

/-- The point `rayStart + t * rayDir` does not depend on the length by which
the direction was divided. -/
theorem normalized_ray_point (a vn v s : ℝ) (hs : s ≠ 0) (hvn : vn ≠ 0) :
    a / (vn / s) * (v / s) = a / vn * v := by
  field_simp
  ring

/-- On the XY work plane through the origin, the plane that findSnapPoint
uses, and for two rays on which both functions take their intersection
branch, the world tolerance of findSnapPoint is the distance between
convertViewToWorld at the cursor pixel and at the pixel offset by the
tolerance. -/
theorem findSnapPoint_worldTolerance_on_XY (ConvertWithProj : ℤ → ℤ → Option ViewRay)
    (x y : ℤ) (tol : ℚ) (r1 r2 : ViewRay)
    (h1 : ConvertWithProj x y = some r1)
    (h2 : ConvertWithProj (truncToInt ((x : ℚ) + tol)) y = some r2)
    (hc1 : Precision.Confusion < |r1.Vz|) (hc2 : Precision.Confusion < |r2.Vz|)
    (hs1 : (1 / 10 ^ 10) ^ 2 * (r1.Vx * r1.Vx + r1.Vy * r1.Vy + r1.Vz * r1.Vz) ≤ r1.Vz ^ 2)
    (hs2 : (1 / 10 ^ 10) ^ 2 * (r2.Vx * r2.Vx + r2.Vy * r2.Vy + r2.Vz * r2.Vz) < r2.Vz ^ 2) :
    findSnapPoint_worldTolerance ConvertWithProj x y tol
      = some (CADController.convertViewToWorld (WorkPlane.ofType PlaneType.XY) ConvertWithProj x y,
          .distance
            (CADController.convertViewToWorld (WorkPlane.ofType PlaneType.XY) ConvertWithProj x y)
            (CADController.convertViewToWorld (WorkPlane.ofType PlaneType.XY) ConvertWithProj
              (truncToInt ((x : ℚ) + tol)) y)) := by
  have heps : (0 : ℚ) < Precision.Confusion := by norm_num [Precision.Confusion]
  have hres : gp.Resolution ^ 2 < Precision.Confusion ^ 2 := by
    norm_num [gp.Resolution, Precision.Confusion]
  have hbig : ∀ r : ViewRay, Precision.Confusion < |r.Vz| →
      Precision.Confusion ^ 2 < r.Vx * r.Vx + r.Vy * r.Vy + r.Vz * r.Vz := by
    intro r hr
    have h : Precision.Confusion ^ 2 < r.Vz ^ 2 := by
      rw [← sq_abs r.Vz]
      exact pow_lt_pow_left₀ hr heps.le (by norm_num)
    nlinarith [mul_self_nonneg r.Vx, mul_self_nonneg r.Vy]
  have hv1 := hbig r1 hc1
  have hv2 := hbig r2 hc2
  have hcvw : ∀ (px : ℤ) (r : ViewRay), ConvertWithProj px y = some r →
      Precision.Confusion < |r.Vz| →
      CADController.convertViewToWorld (WorkPlane.ofType PlaneType.XY) ConvertWithProj px y
        = ⟨r.Xv + (0 - r.Zv) / r.Vz * r.Vx, r.Yv + (0 - r.Zv) / r.Vz * r.Vy,
            r.Zv + (0 - r.Zv) / r.Vz * r.Vz⟩ := by
    intro px r hr hc
    unfold CADController.convertViewToWorld
    simp only [hr, WorkPlane.getPlane, WorkPlane.ofType]
    rw [if_neg (not_lt.2 (hbig r hc).le)]
    simp only [mul_zero, mul_one, zero_add, add_zero]
    rw [if_pos hc]
  rw [hcvw x r1 h1 hc1, hcvw _ r2 h2 hc2]
  unfold findSnapPoint_worldTolerance
  simp only [h1, h2, mul_zero, mul_one, zero_add, add_zero]
  rw [if_neg (not_le.2 (lt_trans hres hv1)), if_neg (not_lt.2 hs1),
    if_neg (not_le.2 (lt_trans hres hv2)), if_pos hs2]

/-- C14 fails in the code when the active work plane is not the XY plane:
findSnapPoint always intersects with the plane Z = 0.  With the YZ plane
active, the oblique view, the cursor at pixel (0,0) and a tolerance of 25
pixels, both rays meet both planes; the world tolerance of findSnapPoint is
the distance from (-1000,-1000,0) to (-975,-1025,0), of square 1250, while
convertViewToWorld gives (0,0,500) and (0,-50,487.5), at a distance of square
2656.25. -/
theorem C14_tolerance_on_fixed_plane :
    findSnapPoint_worldTolerance obliqueView 0 0 25
      = some (⟨-1000, -1000, 0⟩, .distance ⟨-1000, -1000, 0⟩ ⟨-975, -1025, 0⟩) ∧
    CADController.convertViewToWorld (WorkPlane.ofType PlaneType.YZ) obliqueView 0 0
      = ⟨0, 0, 500⟩ ∧
    CADController.convertViewToWorld (WorkPlane.ofType PlaneType.YZ) obliqueView 25 0
      = ⟨0, -50, 975 / 2⟩ ∧
    gp_Pnt.SquareDistance ⟨-1000, -1000, 0⟩ ⟨-975, -1025, 0⟩ = 1250 ∧
    gp_Pnt.SquareDistance
      (CADController.convertViewToWorld (WorkPlane.ofType PlaneType.YZ) obliqueView 0 0)
      (CADController.convertViewToWorld (WorkPlane.ofType PlaneType.YZ) obliqueView 25 0)
      = 10625 / 4 := by
  have ht : truncToInt (((0 : ℤ) : ℚ) + 25) = 25 := by
    norm_num [truncToInt]
  have hc0 : CADController.convertViewToWorld (WorkPlane.ofType PlaneType.YZ) obliqueView 0 0
      = ⟨0, 0, 500⟩ := by
    norm_num [CADController.convertViewToWorld, WorkPlane.ofType, WorkPlane.getPlane,
      obliqueView, Precision.Confusion, lt_abs]
  have hc25 : CADController.convertViewToWorld (WorkPlane.ofType PlaneType.YZ) obliqueView 25 0
      = ⟨0, -50, 975 / 2⟩ := by
    norm_num [CADController.convertViewToWorld, WorkPlane.ofType, WorkPlane.getPlane,
      obliqueView, Precision.Confusion, lt_abs]
  refine ⟨?_, hc0, hc25, by norm_num [gp_Pnt.SquareDistance], ?_⟩
  · unfold findSnapPoint_worldTolerance
    simp only [ht]
    norm_num [obliqueView, gp.Resolution]
  · rw [hc0, hc25]
    norm_num [gp_Pnt.SquareDistance]

/-! ## C18: the cached snap points of a beam -/

/-- After `BuildShape` has run to its end (a profile section, or start and end
at least 1e-6 apart) the cache is current. -/
theorem BuildShape_cache_current (eng : ShapeEngine) (b : TBeamObject)
    (h : b.beam.m_useProfile = true
      ∨ ¬ gp_Pnt.DistanceLt b.beam.m_startPoint b.beam.m_endPoint (1 / 1000000)) :
    (TBeamObject.BuildShape eng b).CacheCurrent eng := by
  unfold TBeamObject.CacheCurrent TBeamObject.BuildShape
  by_cases hp : b.beam.m_useProfile = true
  · simp only [hp, if_true, TBeamObject.CalculateSnapPoints]
    split_ifs <;> simp_all
  · have hfar : ¬ gp_Pnt.DistanceLt b.beam.m_startPoint b.beam.m_endPoint (1 / 1000000) := by
      rcases h with h | h
      · exact absurd h hp
      · exact h
    simp only [hp, hfar, if_false, TBeamObject.CalculateSnapPoints]
    split_ifs <;> simp_all

/-- The early return of `BuildShape` (rectangular section, start and end less
than 1e-6 apart) sets the shape to null and leaves the cached snap points as
they were. -/
theorem BuildShape_early_return (eng : ShapeEngine) (b : TBeamObject)
    (hp : b.beam.m_useProfile = false)
    (hclose : gp_Pnt.DistanceLt b.beam.m_startPoint b.beam.m_endPoint (1 / 1000000)) :
    (TBeamObject.BuildShape eng b).m_shape = TopoDS_Shape.null ∧
    (TBeamObject.BuildShape eng b).m_snapPoints = b.m_snapPoints := by
  unfold TBeamObject.BuildShape
  rw [if_neg (by simp [hp]), if_pos hclose]
  exact ⟨rfl, rfl⟩

/-- Translate, Rotate, Scale and Mirror replace a non-null shape by the
transformed shape and leave the cached snap points as they were. -/
theorem applyTransform_keeps_snapPoints (eng : ShapeEngine) (b : TBeamObject)
    (transform : gp_Trsf) :
    (b.applyTransform eng transform).m_snapPoints = b.m_snapPoints ∧
    (b.m_shape.IsNull = false →
      (b.applyTransform eng transform).m_shape = eng.transform transform b.m_shape) := by
  unfold TBeamObject.applyTransform
  split_ifs with h
  · exact ⟨rfl, fun h2 => absurd h (by simp [h2])⟩
  · exact ⟨rfl, fun _ => rfl⟩

/-- C18 fails in the code.  The beam built from (0,0,0) to (5000,0,0) has a
current cache; after Translate by (0,0,1000) its shape is the transformed one
while the cache still holds the snap points of the shape before, which differ
from those of the shape it has now.  Likewise SetEndPoint((0,0,0)), which
makes the beam degenerate, nulls the shape through the early return of
BuildShape and keeps the old snap points, where the list computed from a
null shape is empty. -/
theorem C18_stale_snap_points :
    sampleBeamObject.m_shape = TopoDS_Shape.body 1 ∧
    sampleBeamObject.m_snapPoints = [⟨⟨1, 0, 0⟩, 1, "Point 0"⟩] ∧
    sampleBeamObject.CacheCurrent sampleShapeEngine ∧
    (sampleBeamObject.Translate sampleShapeEngine ⟨0, 0, 1000⟩).m_shape = TopoDS_Shape.body 2 ∧
    (sampleBeamObject.Translate sampleShapeEngine ⟨0, 0, 1000⟩).m_snapPoints
      = [⟨⟨1, 0, 0⟩, 1, "Point 0"⟩] ∧
    (TBeamObject.CalculateSnapPoints sampleShapeEngine
      (sampleBeamObject.Translate sampleShapeEngine ⟨0, 0, 1000⟩)).m_snapPoints
      = [⟨⟨2, 0, 0⟩, 1, "Point 0"⟩] ∧
    ¬ (sampleBeamObject.Translate sampleShapeEngine ⟨0, 0, 1000⟩).CacheCurrent sampleShapeEngine ∧
    (sampleBeamObject.SetEndPoint sampleShapeEngine ptO).m_shape = TopoDS_Shape.null ∧
    (sampleBeamObject.SetEndPoint sampleShapeEngine ptO).m_snapPoints
      = [⟨⟨1, 0, 0⟩, 1, "Point 0"⟩] ∧
    ¬ (sampleBeamObject.SetEndPoint sampleShapeEngine ptO).CacheCurrent sampleShapeEngine := by
  have hb : sampleBeamObject
      = ⟨TBeam.new 1 ptO ptFar, TopoDS_Shape.body 1, true, [⟨⟨1, 0, 0⟩, 1, "Point 0"⟩]⟩ := by
    norm_num [sampleBeamObject, TBeamObject.new, TBeamObject.BuildShape,
      TBeamObject.CalculateSnapPoints, TBeam.new, sampleShapeEngine, gp_Pnt.DistanceLt,
      gp_Pnt.SquareDistance, ptO, ptFar, TopoDS_Shape.IsNull]
  have ht : sampleBeamObject.Translate sampleShapeEngine ⟨0, 0, 1000⟩
      = ⟨TBeam.new 1 ptO ptFar, TopoDS_Shape.body 2, true, [⟨⟨1, 0, 0⟩, 1, "Point 0"⟩]⟩ := by
    rw [hb]
    simp [TBeamObject.Translate, TBeamObject.applyTransform, sampleShapeEngine,
      TopoDS_Shape.IsNull]
  have he : sampleBeamObject.SetEndPoint sampleShapeEngine ptO
      = ⟨{ TBeam.new 1 ptO ptFar with m_endPoint := ptO }, TopoDS_Shape.null, true,
          [⟨⟨1, 0, 0⟩, 1, "Point 0"⟩]⟩ := by
    rw [hb]
    norm_num [TBeamObject.SetEndPoint, TBeamObject.BuildShape, TBeam.new, gp_Pnt.DistanceLt,
      gp_Pnt.SquareDistance, ptO]
  refine ⟨?_, ?_, ?_, ?_, ?_, ?_, ?_, ?_, ?_, ?_⟩
  · rw [hb]
  · rw [hb]
  · rw [hb]
    norm_num [TBeamObject.CacheCurrent, TBeamObject.CalculateSnapPoints, sampleShapeEngine,
      TopoDS_Shape.IsNull]
  · rw [ht]
  · rw [ht]
  · rw [ht]
    norm_num [TBeamObject.CalculateSnapPoints, sampleShapeEngine, TopoDS_Shape.IsNull]
  · rw [ht]
    norm_num [TBeamObject.CacheCurrent, TBeamObject.CalculateSnapPoints, sampleShapeEngine,
      TopoDS_Shape.IsNull, TGraphicObject.SnapPoint.mk.injEq, gp_Pnt.mk.injEq]
  · rw [he]
  · rw [he]
  · rw [he]
    norm_num [TBeamObject.CacheCurrent, TBeamObject.CalculateSnapPoints, TopoDS_Shape.IsNull]


/-! ## C21: Translate and the start point of a beam -/

/-- The transformations of `TGraphicObject` leave the `TBeam` members, the
start point among them, as they were. -/
theorem applyTransform_keeps_beam (eng : ShapeEngine) (b : TBeamObject) (transform : gp_Trsf) :
    (b.applyTransform eng transform).beam = b.beam := by
  unfold TBeamObject.applyTransform
  split <;> rfl

/-- After `Translate` the member `GetStartPoint` returns what it returned
before, whatever the vector. -/
theorem Translate_keeps_GetStartPoint (eng : ShapeEngine) (b : TBeamObject) (vector : gp_Vec) :
    (b.Translate eng vector).GetStartPoint = b.GetStartPoint := by
  unfold TBeamObject.Translate TBeamObject.GetStartPoint
  rw [applyTransform_keeps_beam]

/-- C21 fails in the code.  The beam built from (0,0,0) to (5000,0,0) starts
at (0,0,0); Translate by (0,0,1000) replaces its shape by the transformed one,
and GetStartPoint still returns (0,0,0), not the start point displaced by the
vector, (0,0,1000). -/
theorem C21_translate_keeps_start_point :
    sampleBeamObject.GetStartPoint = ⟨0, 0, 0⟩ ∧
    sampleBeamObject.m_shape = TopoDS_Shape.body 1 ∧
    (sampleBeamObject.Translate sampleShapeEngine ⟨0, 0, 1000⟩).m_shape = TopoDS_Shape.body 2 ∧
    (sampleBeamObject.Translate sampleShapeEngine ⟨0, 0, 1000⟩).GetStartPoint = ⟨0, 0, 0⟩ ∧
    (sampleBeamObject.Translate sampleShapeEngine ⟨0, 0, 1000⟩).GetStartPoint
      ≠ ⟨0 + 0, 0 + 0, 0 + 1000⟩ := by
  have hb : sampleBeamObject
      = ⟨TBeam.new 1 ptO ptFar, TopoDS_Shape.body 1, true, [⟨⟨1, 0, 0⟩, 1, "Point 0"⟩]⟩ := by
    norm_num [sampleBeamObject, TBeamObject.new, TBeamObject.BuildShape,
      TBeamObject.CalculateSnapPoints, TBeam.new, sampleShapeEngine, gp_Pnt.DistanceLt,
      gp_Pnt.SquareDistance, ptO, ptFar, TopoDS_Shape.IsNull]
  have hs : sampleBeamObject.GetStartPoint = ⟨0, 0, 0⟩ := by
    rw [hb]
    rfl
  have ht : (sampleBeamObject.Translate sampleShapeEngine ⟨0, 0, 1000⟩).m_shape
      = TopoDS_Shape.body 2 := by
    rw [hb]
    simp [TBeamObject.Translate, TBeamObject.applyTransform, sampleShapeEngine,
      TopoDS_Shape.IsNull]
  refine ⟨hs, by rw [hb], ht, ?_, ?_⟩
  · rw [Translate_keeps_GetStartPoint, hs]
  · rw [Translate_keeps_GetStartPoint, hs]
    norm_num [gp_Pnt.mk.injEq]

/-! ## C23: the active-command pointer in cancelCurrentCommand -/

/-- Whenever a command is active, `cancelCurrentCommand` stops at
`m_activeCommand->deleteLater()`: the `cancel()` call just before it has run
the slot `onCommandCancelled`, which set `m_activeCommand` to null. -/
theorem cancelCurrentCommand_faults_when_active (ctl : CADController) (a : ActiveCommand)
    (h : ctl.m_activeCommand = some a) :
    ctl.cancelCurrentCommand = .error Fault.nullDereference := by
  have hnone := absorb_cancel_clears_active ctl a h
  simp only [CADController.cancelCurrentCommand, h, hnone]
  rfl

/-- C23 fails in the code.  In the controller that startColumnCommand leaves,
the column command is active; when its cancel() has emitted commandCancelled
and the slot onCommandCancelled has run, the pointer to the active command is
null, so the deleteLater() call that follows cancel() in cancelCurrentCommand
goes through a null pointer, and so does the one in setActiveCommand. -/
theorem C23_pointer_null_at_deleteLater :
    controllerDrawingColumn.m_activeCommand = some (.column columnStarted) ∧
    (controllerDrawingColumn.absorb (ActiveCommand.column columnStarted).cancel).m_activeCommand
      = none ∧
    (controllerDrawingColumn.absorb (ActiveCommand.column columnStarted).cancel).deleteLater
      = [.column columnStarted] ∧
    controllerDrawingColumn.cancelCurrentCommand = .error Fault.nullDereference ∧
    controllerDrawingColumn.setActiveCommand none = .error Fault.nullDereference := by
  have hact : controllerDrawingColumn.m_activeCommand = some (.column columnStarted) := rfl
  refine ⟨hact, absorb_cancel_clears_active _ _ hact, ?_,
    cancelCurrentCommand_faults_when_active _ _ hact,
    setActiveCommand_faults_when_active _ _ _ hact⟩
  simp [CADController.absorb, ActiveCommand.cancel, ColumnCommand.cancel, Outcome.map,
    CADController.deliver, CADController.onCommandCancelled, CADController.onStatusUpdate,
    controllerDrawingColumn, controllerIdle, CADController.new, ActiveCommand.seenWith]


/-! ## C24: a returned snap is strictly within the world tolerance -/

/-- A snap returned by the selection of `findSnapPoint` is one of the
candidates and its distance is strictly below the world tolerance. -/
theorem findSnapPoint_bestSnap_within (candidates : List SnapPoint) (worldTolerance : ℚ)
    (h : (findSnapPoint_bestSnap candidates worldTolerance).type ≠ SnapType.None) :
    (findSnapPoint_bestSnap candidates worldTolerance).distance < worldTolerance ∧
    findSnapPoint_bestSnap candidates worldTolerance ∈ candidates := by
  by_cases hhigh : ∃ d ∈ candidates, d.type.isHighPriority = true ∧ d.distance < worldTolerance
  · obtain ⟨pre, d, post, hl, hpd, hlt, hfold, _, _⟩ :=
      findSnapPoint_loop_picks SnapType.isHighPriority candidates
        { SnapPoint.empty with distance := worldTolerance } hhigh
    have hne := priority_ne_None d.type (Or.inl hpd)
    have hres : findSnapPoint_bestSnap candidates worldTolerance = d := by
      unfold findSnapPoint_bestSnap
      simp only [hfold]
      rw [if_neg hne]
    rw [hres]
    exact ⟨hlt, by rw [hl]; simp⟩
  · have h1 : candidates.foldl (findSnapPoint_step SnapType.isHighPriority)
        { SnapPoint.empty with distance := worldTolerance }
        = { SnapPoint.empty with distance := worldTolerance } :=
      findSnapPoint_loop_keeps _ _ _ (fun d hd hpd hlt2 => hhigh ⟨d, hd, hpd, hlt2⟩)
    by_cases hlow : ∃ d ∈ candidates, d.type.isLowPriority = true ∧ d.distance < worldTolerance
    · obtain ⟨pre, d, post, hl, hpd, hlt, hfold, _, _⟩ :=
        findSnapPoint_loop_picks SnapType.isLowPriority candidates
          { SnapPoint.empty with distance := worldTolerance } hlow
      have hres : findSnapPoint_bestSnap candidates worldTolerance = d := by
        unfold findSnapPoint_bestSnap
        simp only [h1]
        rw [if_pos (by rfl), hfold]
      rw [hres]
      exact ⟨hlt, by rw [hl]; simp⟩
    · have hres : findSnapPoint_bestSnap candidates worldTolerance
          = { SnapPoint.empty with distance := worldTolerance } := by
        unfold findSnapPoint_bestSnap
        simp only [h1]
        rw [if_pos (by rfl)]
        exact findSnapPoint_loop_keeps _ _ _ (fun d hd hpd hlt2 => hlow ⟨d, hd, hpd, hlt2⟩)
      rw [hres] at h
      exact absurd rfl h

/-- A guarded explorer call keeps a property that holds of the candidates so
far and, when the call is enabled, of every candidate of its kind at the
cursor distance. -/
theorem findSnapPoint_find_all (P : SnapPoint → Prop) (Distance : gp_Pnt → gp_Pnt → ℚ)
    (cursor3D : gp_Pnt) (enabled : Bool) (type : SnapType) (description : String)
    (found : Explored) (state : List SnapPoint × Bool)
    (hnew : enabled = true → ∀ p, P ⟨p, type, description, Distance cursor3D p⟩)
    (h : ∀ c ∈ state.1, P c) :
    ∀ c ∈ (findSnapPoint_find Distance cursor3D enabled type description found state).1, P c := by
  unfold findSnapPoint_find
  split_ifs with hthrew hen
  · exact h
  · intro c hc
    simp only [List.mem_append, List.mem_map] at hc
    rcases hc with hc | ⟨p, _, rfl⟩
    · exact h c hc
    · exact hnew hen p
  · exact h

/-- Every candidate the beam-like branch appends carries the distance of its
point from the cursor and is of kind Endpoint or Midpoint. -/
theorem findSnapPoint_beamLike_appended (Distance : gp_Pnt → gp_Pnt → ℚ) (m : SnapManager)
    (cursor3D : gp_Pnt) (b : Bnd_Box) :
    ∀ c ∈ (findSnapPoint_beamLike Distance m cursor3D b).appended,
      c.distance = Distance cursor3D c.point ∧
      (c.type = SnapType.Endpoint ∨
        (c.type = SnapType.Midpoint ∧ m.isSnapEnabled SnapType.Midpoint = true)) := by
  simp only [findSnapPoint_beamLike]
  split_ifs with h1 h2 h3 h4 h5 <;> simp [*]

/-- Every candidate of `findSnapPoint` carries, as its distance, the distance
of its point from the cursor. -/
theorem findSnapPoint_candidates_distance (Distance : gp_Pnt → gp_Pnt → ℚ) (m : SnapManager)
    (cursor3D : gp_Pnt) (worldTolerance : ℚ) (shapes : List VisibleShape) :
    ∀ c ∈ findSnapPoint_candidates Distance m cursor3D worldTolerance shapes,
      c.distance = Distance cursor3D c.point := by
  have hgen : ∀ (shape : VisibleShape) (l : List SnapPoint),
      (∀ c ∈ l, c.distance = Distance cursor3D c.point) →
      ∀ c ∈ findSnapPoint_general Distance m cursor3D worldTolerance shape l,
        c.distance = Distance cursor3D c.point := by
    intro shape l hl
    have h5 := findSnapPoint_find_all (fun c => c.distance = Distance cursor3D c.point)
      Distance cursor3D (m.isSnapEnabled .Nearest) .Nearest "Nearest"
      (shape.findNearest cursor3D) _ (fun _ _ => rfl)
      (findSnapPoint_find_all _ Distance cursor3D (m.isSnapEnabled .Center) .Center "Center"
        ⟨[SnapManager.calculateCenter shape.bbox], false⟩ _ (fun _ _ => rfl)
        (findSnapPoint_find_all _ Distance cursor3D (m.isSnapEnabled .Vertex) .Vertex "Vertex"
          shape.findVertices _ (fun _ _ => rfl)
          (findSnapPoint_find_all _ Distance cursor3D (m.isSnapEnabled .Midpoint) .Midpoint
            "Midpoint" shape.findMidpoints _ (fun _ _ => rfl)
            (findSnapPoint_find_all _ Distance cursor3D (m.isSnapEnabled .Endpoint) .Endpoint
              "Endpoint" shape.findEndpoints (l, false) (fun _ _ => rfl) hl))))
    intro c hc
    unfold findSnapPoint_general at hc
    simp only at hc
    split_ifs at hc
    · exact h5 c hc
    · exact h5 c (List.mem_of_mem_filter hc)
  have hstep : ∀ (shape : VisibleShape) (l : List SnapPoint),
      (∀ c ∈ l, c.distance = Distance cursor3D c.point) →
      ∀ c ∈ findSnapPoint_shape Distance m cursor3D worldTolerance l shape,
        c.distance = Distance cursor3D c.point := by
    intro shape l hl c hc
    unfold findSnapPoint_shape at hc
    split at hc
    · split_ifs at hc
      · rcases List.mem_append.1 hc with hc | hc
        · exact hl c hc
        · exact (findSnapPoint_beamLike_appended Distance m cursor3D _ c hc).1
      · exact hgen shape l hl c hc
    · exact hgen shape l hl c hc
  have hfold : ∀ (shapes : List VisibleShape) (l : List SnapPoint),
      (∀ c ∈ l, c.distance = Distance cursor3D c.point) →
      ∀ c ∈ shapes.foldl (findSnapPoint_shape Distance m cursor3D worldTolerance) l,
        c.distance = Distance cursor3D c.point := by
    intro shapes
    induction shapes with
    | nil => intro l hl; exact hl
    | cons x xs ih =>
      intro l hl
      rw [List.foldl_cons]
      exact ih _ (hstep x l hl)
  exact hfold shapes [] (fun c hc => absurd hc (List.not_mem_nil c))

/-- C24: for every list of visible shapes, cursor point and world tolerance,
when the snap that findSnapPoint selects is not of kind None, that snap is one
of the candidates, its distance is the distance of its point from the cursor,
and this distance is strictly less than the world tolerance; the shapes may
be beam-like, whose synthesized candidates pass no tolerance filter. -/
theorem C24_snap_strictly_within_tolerance (Distance : gp_Pnt → gp_Pnt → ℚ) (m : SnapManager)
    (cursor3D : gp_Pnt) (worldTolerance : ℚ) (shapes : List VisibleShape)
    (h : (findSnapPoint_snap Distance m cursor3D worldTolerance shapes).type ≠ SnapType.None) :
    (findSnapPoint_snap Distance m cursor3D worldTolerance shapes).distance < worldTolerance ∧
    (findSnapPoint_snap Distance m cursor3D worldTolerance shapes).distance
      = Distance cursor3D (findSnapPoint_snap Distance m cursor3D worldTolerance shapes).point ∧
    findSnapPoint_snap Distance m cursor3D worldTolerance shapes
      ∈ findSnapPoint_candidates Distance m cursor3D worldTolerance shapes := by
  obtain ⟨hlt, hmem⟩ := findSnapPoint_bestSnap_within _ _ h
  exact ⟨hlt, findSnapPoint_candidates_distance Distance m cursor3D worldTolerance shapes _ hmem,
    hmem⟩


/-- The candidates of the sample column with the cursor at the foot of its
axis and the default snap types: the two ends of the centerline and its
midpoint, each with its distance from the cursor. -/
theorem columnShape_candidates :
    findSnapPoint_candidates verticalDistance SnapManager.new ptO 250 [columnShape]
      = [⟨⟨0, 0, 0⟩, SnapType.Endpoint, "Column Bottom", 0⟩,
         ⟨⟨0, 0, 3000⟩, SnapType.Endpoint, "Column Top", 3000⟩,
         ⟨⟨0, 0, 1500⟩, SnapType.Midpoint, "Beam Midpoint", 1500⟩] := by
  have hmid : SnapManager.new.isSnapEnabled SnapType.Midpoint = true := by decide
  have hlike : findSnapPoint_isBeamLike (150 - -150) (150 - -150) (3000 - 0) = true := by
    norm_num [findSnapPoint_isBeamLike, List.insertionSort, List.orderedInsert]
  simp only [findSnapPoint_candidates, List.foldl_cons, List.foldl_nil, findSnapPoint_shape,
    columnShape, hlike, if_true, findSnapPoint_beamLike, hmid, List.nil_append]
  norm_num [verticalDistance, ptO]

/-- C24 at a sample input: the sample column with the cursor at the foot of
its axis and a world tolerance of 250 mm; the snap is the foot of the
centerline, at distance 0. -/
theorem C24_snap_strictly_within_tolerance_witness :
    (findSnapPoint_snap verticalDistance SnapManager.new ptO 250 [columnShape]).type
      ≠ SnapType.None ∧
    ((findSnapPoint_snap verticalDistance SnapManager.new ptO 250 [columnShape]).distance < 250 ∧
      (findSnapPoint_snap verticalDistance SnapManager.new ptO 250 [columnShape]).distance
        = verticalDistance ptO
          (findSnapPoint_snap verticalDistance SnapManager.new ptO 250 [columnShape]).point ∧
      findSnapPoint_snap verticalDistance SnapManager.new ptO 250 [columnShape]
        ∈ findSnapPoint_candidates verticalDistance SnapManager.new ptO 250 [columnShape]) := by
  have h : (findSnapPoint_snap verticalDistance SnapManager.new ptO 250 [columnShape]).type
      ≠ SnapType.None := by
    rw [findSnapPoint_snap, columnShape_candidates]
    norm_num [findSnapPoint_bestSnap, findSnapPoint_step, SnapType.isHighPriority,
      SnapType.isLowPriority, SnapPoint.empty]
    decide
  exact ⟨h, C24_snap_strictly_within_tolerance verticalDistance SnapManager.new ptO 250
    [columnShape] h⟩


/-! ## C25: findSnapPoint and the enabled snap types -/

/-- Every candidate of `findSnapPoint` is of an enabled kind, or is one of the
Endpoint candidates, which the beam-like branch appends without asking
`isSnapEnabled(Endpoint)`. -/
theorem findSnapPoint_candidates_enabled (Distance : gp_Pnt → gp_Pnt → ℚ) (m : SnapManager)
    (cursor3D : gp_Pnt) (worldTolerance : ℚ) (shapes : List VisibleShape) :
    ∀ c ∈ findSnapPoint_candidates Distance m cursor3D worldTolerance shapes,
      m.isSnapEnabled c.type = true ∨ c.type = SnapType.Endpoint := by
  have hgen : ∀ (shape : VisibleShape) (l : List SnapPoint),
      (∀ c ∈ l, m.isSnapEnabled c.type = true ∨ c.type = SnapType.Endpoint) →
      ∀ c ∈ findSnapPoint_general Distance m cursor3D worldTolerance shape l,
        m.isSnapEnabled c.type = true ∨ c.type = SnapType.Endpoint := by
    intro shape l hl
    have h5 := findSnapPoint_find_all
      (fun c => m.isSnapEnabled c.type = true ∨ c.type = SnapType.Endpoint)
      Distance cursor3D (m.isSnapEnabled .Nearest) .Nearest "Nearest"
      (shape.findNearest cursor3D) _ (fun h _ => Or.inl h)
      (findSnapPoint_find_all _ Distance cursor3D (m.isSnapEnabled .Center) .Center "Center"
        ⟨[SnapManager.calculateCenter shape.bbox], false⟩ _ (fun h _ => Or.inl h)
        (findSnapPoint_find_all _ Distance cursor3D (m.isSnapEnabled .Vertex) .Vertex "Vertex"
          shape.findVertices _ (fun h _ => Or.inl h)
          (findSnapPoint_find_all _ Distance cursor3D (m.isSnapEnabled .Midpoint) .Midpoint
            "Midpoint" shape.findMidpoints _ (fun h _ => Or.inl h)
            (findSnapPoint_find_all _ Distance cursor3D (m.isSnapEnabled .Endpoint) .Endpoint
              "Endpoint" shape.findEndpoints (l, false) (fun h _ => Or.inl h) hl))))
    intro c hc
    unfold findSnapPoint_general at hc
    simp only at hc
    split_ifs at hc
    · exact h5 c hc
    · exact h5 c (List.mem_of_mem_filter hc)
  have hstep : ∀ (shape : VisibleShape) (l : List SnapPoint),
      (∀ c ∈ l, m.isSnapEnabled c.type = true ∨ c.type = SnapType.Endpoint) →
      ∀ c ∈ findSnapPoint_shape Distance m cursor3D worldTolerance l shape,
        m.isSnapEnabled c.type = true ∨ c.type = SnapType.Endpoint := by
    intro shape l hl c hc
    unfold findSnapPoint_shape at hc
    split at hc
    · split_ifs at hc
      · rcases List.mem_append.1 hc with hc | hc
        · exact hl c hc
        · rcases (findSnapPoint_beamLike_appended Distance m cursor3D _ c hc).2 with h | h
          · exact Or.inr h
          · exact Or.inl (by rw [h.1]; exact h.2)
      · exact hgen shape l hl c hc
    · exact hgen shape l hl c hc
  have hfold : ∀ (shapes : List VisibleShape) (l : List SnapPoint),
      (∀ c ∈ l, m.isSnapEnabled c.type = true ∨ c.type = SnapType.Endpoint) →
      ∀ c ∈ shapes.foldl (findSnapPoint_shape Distance m cursor3D worldTolerance) l,
        m.isSnapEnabled c.type = true ∨ c.type = SnapType.Endpoint := by
    intro shapes
    induction shapes with
    | nil => intro l hl; exact hl
    | cons x xs ih =>
      intro l hl
      rw [List.foldl_cons]
      exact ih _ (hstep x l hl)
  exact hfold shapes [] (fun c hc => absurd hc (List.not_mem_nil c))

/-- C25 fails in the code.  With Endpoint unchecked in the snap toolbar (and
Midpoint, Center, Vertex checked), the sample column, whose bounding box is
beam-like, still contributes its two centerline ends as Endpoint candidates;
with the cursor at the foot of the axis and a world tolerance of 250 mm
findSnapPoint returns the Endpoint "Column Bottom", a kind that is not
enabled.  The distances used are the exact ones: each squares to the square
distance of the point from the cursor. -/
theorem C25_disabled_endpoint_returned :
    endpointUnchecked.isSnapEnabled SnapType.Endpoint = false ∧
    endpointUnchecked.isSnapEnabled SnapType.Midpoint = true ∧
    findSnapPoint_isBeamLike (150 - -150) (150 - -150) (3000 - 0) = true ∧
    findSnapPoint_candidates verticalDistance endpointUnchecked ptO 250 [columnShape]
      = [⟨⟨0, 0, 0⟩, SnapType.Endpoint, "Column Bottom", 0⟩,
         ⟨⟨0, 0, 3000⟩, SnapType.Endpoint, "Column Top", 3000⟩,
         ⟨⟨0, 0, 1500⟩, SnapType.Midpoint, "Beam Midpoint", 1500⟩] ∧
    findSnapPoint_snap verticalDistance endpointUnchecked ptO 250 [columnShape]
      = ⟨⟨0, 0, 0⟩, SnapType.Endpoint, "Column Bottom", 0⟩ ∧
    endpointUnchecked.isSnapEnabled
      (findSnapPoint_snap verticalDistance endpointUnchecked ptO 250 [columnShape]).type
      = false ∧
    verticalDistance ptO ⟨0, 0, 0⟩ ^ 2 = gp_Pnt.SquareDistance ptO ⟨0, 0, 0⟩ ∧
    verticalDistance ptO ⟨0, 0, 3000⟩ ^ 2 = gp_Pnt.SquareDistance ptO ⟨0, 0, 3000⟩ ∧
    verticalDistance ptO ⟨0, 0, 1500⟩ ^ 2 = gp_Pnt.SquareDistance ptO ⟨0, 0, 1500⟩ := by
  have hend : endpointUnchecked.isSnapEnabled SnapType.Endpoint = false := by decide
  have hmid : endpointUnchecked.isSnapEnabled SnapType.Midpoint = true := by decide
  have hlike : findSnapPoint_isBeamLike (150 - -150) (150 - -150) (3000 - 0) = true := by
    norm_num [findSnapPoint_isBeamLike, List.insertionSort, List.orderedInsert]
  have hcand : findSnapPoint_candidates verticalDistance endpointUnchecked ptO 250 [columnShape]
      = [⟨⟨0, 0, 0⟩, SnapType.Endpoint, "Column Bottom", 0⟩,
         ⟨⟨0, 0, 3000⟩, SnapType.Endpoint, "Column Top", 3000⟩,
         ⟨⟨0, 0, 1500⟩, SnapType.Midpoint, "Beam Midpoint", 1500⟩] := by
    simp only [findSnapPoint_candidates, List.foldl_cons, List.foldl_nil, findSnapPoint_shape,
      columnShape, hlike, if_true, findSnapPoint_beamLike, hmid, List.nil_append]
    norm_num [verticalDistance, ptO]
  have hsnap : findSnapPoint_snap verticalDistance endpointUnchecked ptO 250 [columnShape]
      = ⟨⟨0, 0, 0⟩, SnapType.Endpoint, "Column Bottom", 0⟩ := by
    rw [findSnapPoint_snap, hcand]
    norm_num [findSnapPoint_bestSnap, findSnapPoint_step, SnapType.isHighPriority,
      SnapType.isLowPriority, SnapPoint.empty]
  refine ⟨hend, hmid, hlike, hcand, hsnap, ?_, ?_, ?_, ?_⟩
  · rw [hsnap]
    exact hend
  · norm_num [verticalDistance, gp_Pnt.SquareDistance, ptO]
  · norm_num [verticalDistance, gp_Pnt.SquareDistance, ptO]
  · norm_num [verticalDistance, gp_Pnt.SquareDistance, ptO]


/-! ## C26: findSnapPointFromObjects and the enabled snap types -/

/-- C26 fails in the code.  With Endpoint unchecked in the snap toolbar (and
Midpoint, Center, Vertex checked) and the tolerance of 25 pixels, the sample
collection seen from the top and the cursor at pixel (101,100),
findSnapPointFromObjects returns the Endpoint cached at (100,100,0): the
function reads the tolerance of the snap manager and never its enabled
kinds. -/
theorem C26_objects_ignore_enabled_kinds :
    endpointUnchecked.isSnapEnabled SnapType.Endpoint = false ∧
    endpointUnchecked.m_snapTolerancePixels = 25 ∧
    SnapManager.findSnapPointFromObjects endpointUnchecked.m_snapTolerancePixels 101 100
        (some sampleCollection) (some (fun p => some (topViewPixel p)))
      = ⟨⟨100, 100, 0⟩, SnapType.Endpoint, "Point 0", 1⟩ ∧
    endpointUnchecked.isSnapEnabled
      (SnapManager.findSnapPointFromObjects endpointUnchecked.m_snapTolerancePixels 101 100
        (some sampleCollection) (some (fun p => some (topViewPixel p)))).type = false := by
  have hend : endpointUnchecked.isSnapEnabled SnapType.Endpoint = false := by decide
  have htol : endpointUnchecked.m_snapTolerancePixels = 25 := rfl
  have hres : SnapManager.findSnapPointFromObjects endpointUnchecked.m_snapTolerancePixels 101 100
        (some sampleCollection) (some (fun p => some (topViewPixel p)))
      = ⟨⟨100, 100, 0⟩, SnapType.Endpoint, "Point 0", 1⟩ := by
    have htype : findSnapPointFromObjects_type 1 = SnapType.Endpoint := by decide
    rw [htol]
    norm_num [SnapManager.findSnapPointFromObjects, sampleCollection,
      findSnapPointFromObjects_object, pixelDistanceSq, topViewPixel, ScreenSnapPoint.empty,
      htype]
  refine ⟨hend, htol, hres, ?_⟩
  rw [hres]
  exact hend


/-! ## C22: validity of a beam -/

/-- C22: for every beam whose start and end point are less than 1e-6 apart,
whatever its shape and whatever validation text it held, IsValid returns
false and leaves a non-empty validation error; and the beam constructed from
two points 5000 mm apart and given the rectangular section 200 x 400, for
which the geometry engine builds a body, is valid with an empty validation
error. -/
theorem C22_IsValid (eng : ShapeEngine) (b : TBeamObject) (id : ℤ) (A B : gp_Pnt)
    (m_validationError : String)
    (hdeg : gp_Pnt.DistanceLt b.beam.m_startPoint b.beam.m_endPoint (1 / 1000000))
    (hAB : gp_Pnt.SquareDistance A B = 5000 ^ 2)
    (hbody : (eng.makeBeamBox A B 200 400).IsNull = false) :
    (b.IsValid m_validationError).1 = false ∧
    (b.IsValid m_validationError).2 ≠ "" ∧
    (b.IsValid m_validationError = (false, "Shape is null") ∨
      b.IsValid m_validationError = (false, "Beam length is too small")) ∧
    ((TBeamObject.new eng id A B).SetRectangularSection eng 200 400).IsValid m_validationError
      = (true, "") := by
  have hfar : ¬ gp_Pnt.DistanceLt A B (1 / 1000000) := by
    unfold gp_Pnt.DistanceLt
    rw [hAB]
    norm_num
  have hdeg1 : gp_Pnt.DistanceLt b.beam.m_startPoint b.beam.m_endPoint 1000000⁻¹ := by
    rw [← one_div]
    exact hdeg
  have hfar1 : ¬ gp_Pnt.DistanceLt A B 1000000⁻¹ := by
    rw [← one_div]
    exact hfar
  have hone : b.IsValid m_validationError = (false, "Shape is null") ∨
      b.IsValid m_validationError = (false, "Beam length is too small") := by
    unfold TBeamObject.IsValid TGraphicObject.IsValid
    by_cases hnull : b.m_shape.IsNull = true
    · left
      simp [hnull]
    · right
      simp [hnull, hdeg1]
  refine ⟨?_, ?_, hone, ?_⟩
  · rcases hone with h | h <;> rw [h]
  · rcases hone with h | h <;> rw [h] <;> decide
  · have hbuilt : (TBeamObject.new eng id A B).SetRectangularSection eng 200 400
        = ⟨(TBeam.new id A B).SetRectangularSection 200 400, eng.makeBeamBox A B 200 400, true,
            eng.wirePoints (eng.makeBeamBox A B 200 400)⟩ := by
      simp [TBeamObject.SetRectangularSection, TBeamObject.new, TBeamObject.BuildShape,
        TBeamObject.CalculateSnapPoints, TBeam.new, TBeam.SetRectangularSection, hfar1, hbody]
    rw [hbuilt]
    simp [TBeamObject.IsValid, TGraphicObject.IsValid, hbody, TBeam.new,
      TBeam.SetRectangularSection, hfar1]

/-- C22 at the inputs of the usage example: the beam from (0,0,0) to (0,0,0)
is invalid with the error text "Shape is null", and the beam from (0,0,0) to
(5000,0,0) with the section 200 x 400 is valid with no error text. -/
theorem C22_IsValid_witness :
    ((TBeamObject.new sampleShapeEngine 2 ptO ptO).IsValid "").1 = false ∧
    ((TBeamObject.new sampleShapeEngine 2 ptO ptO).IsValid "").2 ≠ "" ∧
    ((TBeamObject.new sampleShapeEngine 2 ptO ptO).IsValid "" = (false, "Shape is null") ∨
      (TBeamObject.new sampleShapeEngine 2 ptO ptO).IsValid ""
        = (false, "Beam length is too small")) ∧
    ((TBeamObject.new sampleShapeEngine 1 ptO ptFar).SetRectangularSection sampleShapeEngine
      200 400).IsValid "" = (true, "") :=
  C22_IsValid sampleShapeEngine (TBeamObject.new sampleShapeEngine 2 ptO ptO) 1 ptO ptFar ""
    (by norm_num [TBeamObject.new, TBeamObject.BuildShape, TBeam.new, gp_Pnt.DistanceLt,
      gp_Pnt.SquareDistance, ptO])
    (by norm_num [gp_Pnt.SquareDistance, ptO, ptFar])
    (by rfl)


/-! ## C27: the dominant axis of a beam-like bounding box -/

/-- For positive sorted extents d0 ≤ d1 ≤ d2 of a bounding box that
`findSnapPoint` takes as beam-like, the largest extent is the maximum and is
strictly greater than the middle one. -/
theorem isBeamLike_sorted_gap (dx dy dz d0 d1 d2 : ℚ) (hpos : 0 < d0)
    (hperm : [d0, d1, d2].Perm [dx, dy, dz]) (h01 : d0 ≤ d1) (h12 : d1 ≤ d2)
    (hlike : findSnapPoint_isBeamLike dx dy dz = true) :
    max dx (max dy dz) = d2 ∧ d1 < d2 := by
  obtain ⟨hmax, hmin⟩ := max_min_extents dx dy dz d0 d1 d2 hperm h01 h12
  have hsort := insertionSort_extents dx dy dz d0 d1 d2 hperm h01 h12
  refine ⟨hmax, ?_⟩
  unfold findSnapPoint_isBeamLike at hlike
  simp only [hmax, hmin, hsort] at hlike
  by_cases hbig : d2 > d0 * 5
  · by_cases hmid : d1 / d0 > 3
    · simp [hbig, hmid] at hlike
    · have hle : d1 / d0 ≤ 3 := not_lt.1 hmid
      have : d1 ≤ 3 * d0 := (div_le_iff₀ hpos).1 hle
      linarith
  · simp [hbig] at hlike

/-- For a bounding box with positive extents that `findSnapPoint` takes as
beam-like, one extent is the maximum and strictly greater than the other
two. -/
theorem isBeamLike_dominant (dx dy dz : ℚ) (hx : 0 < dx) (hy : 0 < dy) (hz : 0 < dz)
    (hlike : findSnapPoint_isBeamLike dx dy dz = true) :
    (dx = max dx (max dy dz) ∧ dy < dx ∧ dz < dx) ∨
    (dy = max dx (max dy dz) ∧ dx < dy ∧ dz < dy) ∨
    (dz = max dx (max dy dz) ∧ dx < dz ∧ dy < dz) := by
  rcases le_total dx dy with hxy | hyx
  · rcases le_total dy dz with hyz | hzy
    · obtain ⟨hmax, hlt⟩ := isBeamLike_sorted_gap dx dy dz dx dy dz hx (List.Perm.refl _)
        hxy hyz hlike
      exact Or.inr (Or.inr ⟨hmax.symm, lt_of_le_of_lt hxy hlt, hlt⟩)
    · rcases le_total dx dz with hxz | hzx
      · obtain ⟨hmax, hlt⟩ := isBeamLike_sorted_gap dx dy dz dx dz dy hx
          ((List.Perm.swap dy dz []).cons dx) hxz hzy hlike
        exact Or.inr (Or.inl ⟨hmax.symm, lt_of_le_of_lt hxz hlt, hlt⟩)
      · obtain ⟨hmax, hlt⟩ := isBeamLike_sorted_gap dx dy dz dz dx dy hz
          ((List.Perm.swap dx dz [dy]).trans ((List.Perm.swap dy dz []).cons dx)) hzx hxy hlike
        exact Or.inr (Or.inl ⟨hmax.symm, hlt, lt_of_le_of_lt hzx hlt⟩)
  · rcases le_total dx dz with hxz | hzx
    · obtain ⟨hmax, hlt⟩ := isBeamLike_sorted_gap dx dy dz dy dx dz hy
        (List.Perm.swap dx dy [dz]) hyx hxz hlike
      exact Or.inr (Or.inr ⟨hmax.symm, hlt, lt_of_le_of_lt hyx hlt⟩)
    · rcases le_total dy dz with hyz | hzy
      · obtain ⟨hmax, hlt⟩ := isBeamLike_sorted_gap dx dy dz dy dz dx hy
          (((List.Perm.swap dx dz []).cons dy).trans (List.Perm.swap dx dy [dz])) hyz hzx hlike
        exact Or.inl ⟨hmax.symm, lt_of_le_of_lt hyz hlt, hlt⟩
      · obtain ⟨hmax, hlt⟩ := isBeamLike_sorted_gap dx dy dz dz dy dx hz
          ((((List.Perm.swap dx dy []).cons dz).trans (List.Perm.swap dx dz [dy])).trans
            ((List.Perm.swap dy dz []).cons dx)) hzy hyx hlike
        exact Or.inl ⟨hmax.symm, hlt, lt_of_le_of_lt hzy hlt⟩

/-- C27: for every bounding box with positive extents that findSnapPoint
takes as beam-like (the Elongated class), one of dx, dy, dz equals maxDim and
is strictly greater than the other two, and the orientation test picks that
axis: the synthesized centerline runs from the centre of the box face at the
lower bound of that axis to the centre of the opposite face; and the
synthesized Midpoint candidates are the box centre alone when Midpoint is
enabled, and none otherwise. -/
theorem C27_dominant_axis (Distance : gp_Pnt → gp_Pnt → ℚ) (m : SnapManager)
    (cursor3D : gp_Pnt) (b : Bnd_Box)
    (hx : 0 < b.xmax - b.xmin) (hy : 0 < b.ymax - b.ymin) (hz : 0 < b.zmax - b.zmin)
    (hlike : findSnapPoint_isBeamLike (b.xmax - b.xmin) (b.ymax - b.ymin) (b.zmax - b.zmin)
      = true) :
    ((b.xmax - b.xmin = max (b.xmax - b.xmin) (max (b.ymax - b.ymin) (b.zmax - b.zmin)) ∧
        b.ymax - b.ymin < b.xmax - b.xmin ∧ b.zmax - b.zmin < b.xmax - b.xmin ∧
        (findSnapPoint_beamLike Distance m cursor3D b).centerStart
          = ⟨b.xmin, (b.ymin + b.ymax) / 2, (b.zmin + b.zmax) / 2⟩ ∧
        (findSnapPoint_beamLike Distance m cursor3D b).centerEnd
          = ⟨b.xmax, (b.ymin + b.ymax) / 2, (b.zmin + b.zmax) / 2⟩) ∨
      (b.ymax - b.ymin = max (b.xmax - b.xmin) (max (b.ymax - b.ymin) (b.zmax - b.zmin)) ∧
        b.xmax - b.xmin < b.ymax - b.ymin ∧ b.zmax - b.zmin < b.ymax - b.ymin ∧
        (findSnapPoint_beamLike Distance m cursor3D b).centerStart
          = ⟨(b.xmin + b.xmax) / 2, b.ymin, (b.zmin + b.zmax) / 2⟩ ∧
        (findSnapPoint_beamLike Distance m cursor3D b).centerEnd
          = ⟨(b.xmin + b.xmax) / 2, b.ymax, (b.zmin + b.zmax) / 2⟩) ∨
      (b.zmax - b.zmin = max (b.xmax - b.xmin) (max (b.ymax - b.ymin) (b.zmax - b.zmin)) ∧
        b.xmax - b.xmin < b.zmax - b.zmin ∧ b.ymax - b.ymin < b.zmax - b.zmin ∧
        (findSnapPoint_beamLike Distance m cursor3D b).centerStart
          = ⟨(b.xmin + b.xmax) / 2, (b.ymin + b.ymax) / 2, b.zmin⟩ ∧
        (findSnapPoint_beamLike Distance m cursor3D b).centerEnd
          = ⟨(b.xmin + b.xmax) / 2, (b.ymin + b.ymax) / 2, b.zmax⟩)) ∧
    (((findSnapPoint_beamLike Distance m cursor3D b).appended.filter
        (fun c => decide (c.type = SnapType.Midpoint))).map (fun c => c.point)
      = if m.isSnapEnabled SnapType.Midpoint = true then
          [⟨(b.xmin + b.xmax) / 2, (b.ymin + b.ymax) / 2, (b.zmin + b.zmax) / 2⟩]
        else []) := by
  rcases isBeamLike_dominant _ _ _ hx hy hz hlike with ⟨hmax, h1, h2⟩ | ⟨hmax, h1, h2⟩ |
    ⟨hmax, h1, h2⟩
  · have hS : findSnapPoint_beamLike Distance m cursor3D b
        = ⟨⟨b.xmin, (b.ymin + b.ymax) / 2, (b.zmin + b.zmax) / 2⟩,
            ⟨b.xmax, (b.ymin + b.ymax) / 2, (b.zmin + b.zmax) / 2⟩,
            (findSnapPoint_beamLike Distance m cursor3D b).appended⟩ := by
      simp only [findSnapPoint_beamLike]
      rw [if_pos hmax]
    refine ⟨Or.inl ⟨hmax, h1, h2, by rw [hS], by rw [hS]⟩, ?_⟩
    simp only [findSnapPoint_beamLike]
    rw [if_pos hmax]
    by_cases hm : m.isSnapEnabled SnapType.Midpoint = true
    · simp [hm]
    · simp [hm]
  · have hne : ¬ b.xmax - b.xmin
        = max (b.xmax - b.xmin) (max (b.ymax - b.ymin) (b.zmax - b.zmin)) := by
      rw [← hmax]
      exact ne_of_lt h1
    have hS : findSnapPoint_beamLike Distance m cursor3D b
        = ⟨⟨(b.xmin + b.xmax) / 2, b.ymin, (b.zmin + b.zmax) / 2⟩,
            ⟨(b.xmin + b.xmax) / 2, b.ymax, (b.zmin + b.zmax) / 2⟩,
            (findSnapPoint_beamLike Distance m cursor3D b).appended⟩ := by
      simp only [findSnapPoint_beamLike]
      rw [if_neg hne, if_pos hmax]
    refine ⟨Or.inr (Or.inl ⟨hmax, h1, h2, by rw [hS], by rw [hS]⟩), ?_⟩
    simp only [findSnapPoint_beamLike]
    rw [if_neg hne, if_pos hmax]
    by_cases hm : m.isSnapEnabled SnapType.Midpoint = true
    · simp [hm]
    · simp [hm]
  · have hne : ¬ b.xmax - b.xmin
        = max (b.xmax - b.xmin) (max (b.ymax - b.ymin) (b.zmax - b.zmin)) := by
      rw [← hmax]
      exact ne_of_lt h1
    have hne2 : ¬ b.ymax - b.ymin
        = max (b.xmax - b.xmin) (max (b.ymax - b.ymin) (b.zmax - b.zmin)) := by
      rw [← hmax]
      exact ne_of_lt h2
    have hS : findSnapPoint_beamLike Distance m cursor3D b
        = ⟨⟨(b.xmin + b.xmax) / 2, (b.ymin + b.ymax) / 2, b.zmin⟩,
            ⟨(b.xmin + b.xmax) / 2, (b.ymin + b.ymax) / 2, b.zmax⟩,
            (findSnapPoint_beamLike Distance m cursor3D b).appended⟩ := by
      simp only [findSnapPoint_beamLike]
      rw [if_neg hne, if_neg hne2]
    refine ⟨Or.inr (Or.inr ⟨hmax, h1, h2, by rw [hS], by rw [hS]⟩), ?_⟩
    simp only [findSnapPoint_beamLike]
    rw [if_neg hne, if_neg hne2]
    by_cases hm : m.isSnapEnabled SnapType.Midpoint = true
    · simp [hm]
    · simp [hm]


/-- C27 at a sample input: the bounding box of the sample column, 300 by 300
by 3000; the dominant axis is Z, the centerline runs from (0,0,0) to
(0,0,3000), and the only Midpoint candidate is the box centre (0,0,1500). -/
theorem C27_dominant_axis_witness :
    (findSnapPoint_beamLike verticalDistance SnapManager.new ptO
        ⟨-150, -150, 0, 150, 150, 3000⟩).centerStart = ⟨0, 0, 0⟩ ∧
    (findSnapPoint_beamLike verticalDistance SnapManager.new ptO
        ⟨-150, -150, 0, 150, 150, 3000⟩).centerEnd = ⟨0, 0, 3000⟩ ∧
    ((findSnapPoint_beamLike verticalDistance SnapManager.new ptO
        ⟨-150, -150, 0, 150, 150, 3000⟩).appended.filter
        (fun c => decide (c.type = SnapType.Midpoint))).map (fun c => c.point)
      = [⟨0, 0, 1500⟩] := by
  have h := C27_dominant_axis verticalDistance SnapManager.new ptO
    ⟨-150, -150, 0, 150, 150, 3000⟩ (by norm_num) (by norm_num) (by norm_num)
    (by norm_num [findSnapPoint_isBeamLike, List.insertionSort, List.orderedInsert])
  have hmid : SnapManager.new.isSnapEnabled SnapType.Midpoint = true := by decide
  obtain ⟨haxis, hmidpoint⟩ := h
  rw [if_pos hmid] at hmidpoint
  refine ⟨?_, ?_, ?_⟩
  · rcases haxis with ⟨_, hlt, _⟩ | ⟨_, hlt, _⟩ | ⟨_, _, _, hs, _⟩
    · norm_num at hlt
    · norm_num at hlt
    · rw [hs]
      norm_num
  · rcases haxis with ⟨_, hlt, _⟩ | ⟨_, hlt, _⟩ | ⟨_, _, _, _, he⟩
    · norm_num at hlt
    · norm_num at hlt
    · rw [he]
      norm_num
  · rw [hmidpoint]
    norm_num


/-! ## C28: the divisor of the quotient d1/d0 -/

/-- Three extents have a sorted rearrangement. -/
theorem sorted_extents_exist (dx dy dz : ℚ) :
    ∃ d0 d1 d2 : ℚ, [d0, d1, d2].Perm [dx, dy, dz] ∧ d0 ≤ d1 ∧ d1 ≤ d2 := by
  rcases le_total dx dy with hxy | hyx
  · rcases le_total dy dz with hyz | hzy
    · exact ⟨dx, dy, dz, List.Perm.refl _, hxy, hyz⟩
    · rcases le_total dx dz with hxz | hzx
      · exact ⟨dx, dz, dy, (List.Perm.swap dy dz []).cons dx, hxz, hzy⟩
      · exact ⟨dz, dx, dy,
          (List.Perm.swap dx dz [dy]).trans ((List.Perm.swap dy dz []).cons dx), hzx, hxy⟩
  · rcases le_total dx dz with hxz | hzx
    · exact ⟨dy, dx, dz, List.Perm.swap dx dy [dz], hyx, hxz⟩
    · rcases le_total dy dz with hyz | hzy
      · exact ⟨dy, dz, dx,
          ((List.Perm.swap dx dz []).cons dy).trans (List.Perm.swap dx dy [dz]), hyz, hzx⟩
      · exact ⟨dz, dy, dx,
          (((List.Perm.swap dx dy []).cons dz).trans (List.Perm.swap dx dz [dy])).trans
            ((List.Perm.swap dy dz []).cons dx), hzy, hyx⟩

/-- The divisor `dims[0]` is the smallest extent, and it is evaluated exactly
when the largest extent exceeds five times the smallest. -/
theorem findSnapPoint_divisor_eq (dx dy dz : ℚ) :
    findSnapPoint_divisor dx dy dz
      = if max dx (max dy dz) > min dx (min dy dz) * 5 then some (min dx (min dy dz))
        else none := by
  obtain ⟨d0, d1, d2, hperm, h01, h12⟩ := sorted_extents_exist dx dy dz
  obtain ⟨_, hmin⟩ := max_min_extents dx dy dz d0 d1 d2 hperm h01 h12
  have hsort := insertionSort_extents dx dy dz d0 d1 d2 hperm h01 h12
  unfold findSnapPoint_divisor
  simp only [hsort, hmin]
  rfl

/-- C28 as stated fails: the extents (100, 0, 50) are non-negative, the
largest, 100, exceeds five times the smallest, 0, so the branch is taken, and
the divisor of the quotient d1/d0 is the smallest sorted extent, 0. -/
theorem C28_counterexample :
    (0 : ℚ) ≤ 100 ∧ (0 : ℚ) ≤ 0 ∧ (0 : ℚ) ≤ 50 ∧
    max (100 : ℚ) (max 0 50) > min (100 : ℚ) (min 0 50) * 5 ∧
    [(100 : ℚ), 0, 50].insertionSort (fun a b => a ≤ b) = [0, 50, 100] ∧
    findSnapPoint_divisor 100 0 50 = some 0 := by
  refine ⟨by norm_num, le_refl _, by norm_num, by norm_num, ?_, ?_⟩
  · norm_num [List.insertionSort, List.orderedInsert]
  · rw [findSnapPoint_divisor_eq]
    norm_num

/-- C28 amended: for every bounding box with non-negative extents, whenever
the branch maxDim > 5·minDim is taken, the divisor d0 of the quotient d1/d0 is
the smallest extent and the largest extent is positive; d0 is strictly
positive exactly when all three extents are positive, and is zero when some
extent is zero. -/
theorem C28_divisor_positive_iff (dx dy dz d0 : ℚ) (hx : 0 ≤ dx) (hy : 0 ≤ dy) (hz : 0 ≤ dz)
    (hbranch : findSnapPoint_divisor dx dy dz = some d0) :
    d0 = min dx (min dy dz) ∧ 0 < max dx (max dy dz) ∧
    (0 < d0 ↔ (0 < dx ∧ 0 < dy ∧ 0 < dz)) ∧
    (d0 = 0 ↔ (dx = 0 ∨ dy = 0 ∨ dz = 0)) := by
  rw [findSnapPoint_divisor_eq] at hbranch
  split_ifs at hbranch with hbig
  have hd : d0 = min dx (min dy dz) := (Option.some.inj hbranch).symm
  have hnn : 0 ≤ d0 := by
    rw [hd]
    exact le_min hx (le_min hy hz)
  have hposiff : 0 < d0 ↔ (0 < dx ∧ 0 < dy ∧ 0 < dz) := by
    rw [hd]
    simp [lt_min_iff]
  refine ⟨hd, ?_, hposiff, ?_⟩
  · rw [← hd] at hbig
    linarith
  · constructor
    · intro h0
      by_contra hne
      push_neg at hne
      have : 0 < d0 := hposiff.2 ⟨lt_of_le_of_ne hx (Ne.symm hne.1),
        lt_of_le_of_ne hy (Ne.symm hne.2.1), lt_of_le_of_ne hz (Ne.symm hne.2.2)⟩
      linarith
    · intro h0
      have hnot : ¬ 0 < d0 := by
        rw [hposiff]
        rintro ⟨h1, h2, h3⟩
        rcases h0 with h | h | h <;> linarith
      linarith [not_lt.1 hnot]

/-- C28 amended, at sample inputs: for the extents (5000, 200, 400) the
branch is taken with the divisor 200, which is positive. -/
theorem C28_divisor_positive_iff_witness :
    findSnapPoint_divisor 5000 200 400 = some 200 ∧
    ((200 : ℚ) = min 5000 (min 200 400) ∧ (0 : ℚ) < max 5000 (max 200 400) ∧
      ((0 : ℚ) < 200 ↔ ((0 : ℚ) < 5000 ∧ (0 : ℚ) < 200 ∧ (0 : ℚ) < 400)) ∧
      ((200 : ℚ) = 0 ↔ ((5000 : ℚ) = 0 ∨ (200 : ℚ) = 0 ∨ (400 : ℚ) = 0))) := by
  have h : findSnapPoint_divisor 5000 200 400 = some 200 := by
    rw [findSnapPoint_divisor_eq]
    norm_num
  exact ⟨h, C28_divisor_positive_iff 5000 200 400 200 (by norm_num) (by norm_num)
    (by norm_num) h⟩


/-! ## C29: the selection of an object collection -/

/-- An identifier is bound exactly when it is the identifier of a stored
object. -/
theorem IsBound_iff (c : TObjectCollection) (objectID : ℤ) :
    c.IsBound objectID = true ↔ objectID ∈ c.m_objects.map TGraphicObject.GetID := by
  simp [TObjectCollection.IsBound, List.any_eq_true, List.mem_map]

/-- Every call keeps a consistent collection consistent. -/
theorem call_keeps_Consistent (c : TObjectCollection) (k : TObjectCollection.Call)
    (h : c.Consistent) : (c.call k).Consistent := by
  obtain ⟨hids, hsel, hbound⟩ := h
  have hremove : ∀ objectID : ℤ, (c.RemoveObject objectID).1.Consistent := by
    intro objectID
    unfold TObjectCollection.RemoveObject
    split_ifs with hb
    · refine ⟨?_, hsel.erase _, ?_⟩
      · exact hids.sublist ((List.filter_sublist c.m_objects).map _)
      · intro id hid
        have hmem := (hsel.mem_erase_iff).1 hid
        obtain ⟨o, ho, hoid⟩ := List.mem_map.1 (hbound id hmem.2)
        refine List.mem_map.2 ⟨o, List.mem_filter.2 ⟨ho, ?_⟩, hoid⟩
        simp only [bne_iff_ne, ne_eq]
        rw [hoid]
        exact hmem.1
    · exact ⟨hids, hsel, hbound⟩
  cases k with
  | AddObject object =>
    cases object with
    | none => exact ⟨hids, hsel, hbound⟩
    | some o =>
      simp only [TObjectCollection.call, TObjectCollection.AddObject_handle]
      split_ifs with hb
      · exact ⟨hids, hsel, hbound⟩
      · have hany : c.m_objects.any (fun x => x.GetID == o.GetID) = false := by
          simpa [TObjectCollection.IsBound] using hb
        have hnot : o.GetID ∉ c.m_objects.map TGraphicObject.GetID :=
          fun hm => hb ((IsBound_iff c o.GetID).2 hm)
        have hadd : TObjectCollection.AddObject c.m_objects o = c.m_objects ++ [o] := by
          unfold TObjectCollection.AddObject
          rw [hany]
          rfl
        refine ⟨?_, hsel, ?_⟩
        · simp only [hadd, List.map_append, List.map_cons, List.map_nil]
          exact List.Nodup.append hids (List.nodup_singleton _)
            (by simpa [List.disjoint_singleton] using hnot)
        · intro id hid
          simp only [hadd, List.map_append, List.mem_append]
          exact Or.inl (hbound id hid)
  | RemoveObject objectID => exact hremove objectID
  | RemoveObject_handle object =>
    cases object with
    | none => exact ⟨hids, hsel, hbound⟩
    | some o => exact hremove o.GetID
  | Clear => exact ⟨List.nodup_nil, List.nodup_nil, fun id hid => absurd hid (List.not_mem_nil id)⟩
  | SelectObject objectID =>
    simp only [TObjectCollection.call, TObjectCollection.SelectObject]
    split_ifs with hb hin
    · exact ⟨hids, hsel, hbound⟩
    · refine ⟨hids, ?_, ?_⟩
      · exact List.Nodup.append hsel (List.nodup_singleton _)
          (by simpa [List.disjoint_singleton] using hin)
      · intro id hid
        rcases List.mem_append.1 hid with hid | hid
        · exact hbound id hid
        · rw [List.mem_singleton.1 hid]
          exact (IsBound_iff c objectID).1 hb
    · exact ⟨hids, hsel, hbound⟩
  | DeselectObject objectID =>
    exact ⟨hids, hsel.erase _, fun id hid => hbound id (List.mem_of_mem_erase hid)⟩
  | SelectAll => exact ⟨hids, hids, fun id hid => hid⟩
  | DeselectAll => exact ⟨hids, List.nodup_nil, fun id hid => absurd hid (List.not_mem_nil id)⟩

/-- Every sequence of calls keeps a consistent collection consistent. -/
theorem calls_keep_Consistent (l : List TObjectCollection.Call) :
    ∀ c : TObjectCollection, c.Consistent → (c.calls l).Consistent := by
  induction l with
  | nil => intro c h; exact h
  | cons k ks ih =>
    intro c h
    exact ih (c.call k) (call_keeps_Consistent c k h)

/-- C29: after every sequence of AddObject, RemoveObject (by identifier or by
handle), Clear, SelectObject, DeselectObject, SelectAll and DeselectAll calls
on a new collection, the selection list has no duplicate and every selected
identifier is the identifier of a stored object; AddObject with a null handle
returns false and changes nothing, and AddObject with a handle returns false
and changes nothing when the identifier is bound, and otherwise stores the
object, leaves the selection as it is and returns true. -/
theorem C29_selection_consistent (l : List TObjectCollection.Call) (object : TGraphicObject) :
    (TObjectCollection.new.calls l).m_selectedObjects.Nodup ∧
    (∀ id ∈ (TObjectCollection.new.calls l).m_selectedObjects,
      ∃ o ∈ (TObjectCollection.new.calls l).m_objects, o.GetID = id) ∧
    (TObjectCollection.new.calls l).AddObject_handle none
      = (TObjectCollection.new.calls l, false) ∧
    (TObjectCollection.new.calls l).AddObject_handle (some object)
      = (if (TObjectCollection.new.calls l).IsBound object.GetID = true then
          (TObjectCollection.new.calls l, false)
        else
          (⟨(TObjectCollection.new.calls l).m_objects ++ [object],
            (TObjectCollection.new.calls l).m_selectedObjects⟩, true)) := by
  have hnew : TObjectCollection.new.Consistent :=
    ⟨List.nodup_nil, List.nodup_nil, fun id hid => absurd hid (List.not_mem_nil id)⟩
  obtain ⟨_, hsel, hbound⟩ := calls_keep_Consistent l _ hnew
  refine ⟨hsel, fun id hid => List.mem_map.1 (hbound id hid), rfl, ?_⟩
  by_cases hb : (TObjectCollection.new.calls l).IsBound object.GetID = true
  · simp only [TObjectCollection.AddObject_handle, hb, if_true]
  · have hany : (TObjectCollection.new.calls l).m_objects.any
        (fun x => x.GetID == object.GetID) = false := by
      simpa [TObjectCollection.IsBound] using hb
    simp [TObjectCollection.AddObject_handle, hb, TObjectCollection.AddObject, hany]


/-- The sample sequence of calls leaves the second beam stored and selected:
the repeated SelectObject, the SelectObject of an identifier that is not bound
and the repeated AddObject change nothing. -/
theorem sampleCalls_result :
    TObjectCollection.new.calls sampleCalls = ⟨[.beam (TBeam.new 2 ptO ptAlongY)], [2]⟩ ∧
    (TObjectCollection.new.calls sampleCalls).AddObject_handle
        (some (.beam (TBeam.new 2 ptO ptAlongY)))
      = (TObjectCollection.new.calls sampleCalls, false) := by
  have h : TObjectCollection.new.calls sampleCalls
      = ⟨[.beam (TBeam.new 2 ptO ptAlongY)], [2]⟩ := by
    simp [TObjectCollection.calls, sampleCalls, TObjectCollection.call,
      TObjectCollection.AddObject_handle, TObjectCollection.AddObject,
      TObjectCollection.IsBound, TObjectCollection.RemoveObject, TObjectCollection.SelectObject,
      TObjectCollection.SelectAll, TObjectCollection.new, TGraphicObject.GetID, TBeam.new]
  refine ⟨h, ?_⟩
  rw [h]
  simp [TObjectCollection.AddObject_handle, TObjectCollection.IsBound, TGraphicObject.GetID,
    TBeam.new]

end EmirCAD
